import Mathlib

/-!
Culvert: the iLPC2AHB engine (`src/ilpc.c`) and the bridge discovery engine
(`src/src/ast.c`).

Shallow embedding of the two C files and the properties proved about them.

Conventions of the embedding

* C `int` return codes are `Int`; a step has failed when its code is non-zero
  (`if (rc) goto done;`), and `rc |= x` is `Int.lor rc x` (two's complement OR).
* `size_t` and `uint32_t` values are `Nat`; a value passed where the callee takes a
  `uint8_t` is reduced `% 256`, a `uint32_t` computation is reduced `% 2 ^ 32`.
* The external collaborators (`sio_*`, `soc_*`, `sdmc_*`) are parameters: a record of
  state-passing functions over an arbitrary state type `σ`.
* `goto done` is the early exit of the part of a function that precedes the label; the
  code after the label runs on the result of that part.
-/

namespace Culvert

/-! ## The Byte Transport consumed by `ilpc.c` -/

/-- Modelled from the spec: the logical devices of the SuperIO chip (`enum sio_dev` of
`sio.h`, which is not part of the sources at hand). `ilpc.c` only ever selects `sio_ilpc`. -/
inductive sio_dev
  | sio_ilpc
  | sio_other (id : Nat)
  deriving DecidableEq, Repr

/-- The Byte Transport (`struct sio` with `sio_unlock`, `sio_lock`, `sio_select`,
`sio_writeb`, `sio_readb`), taken as a parameter: each operation maps the transport state
to a return code and a new state; `sio_readb` also yields the byte it delivers. -/
structure Sio (σ : Type) where
  sio_unlock : σ → Int × σ
  sio_lock : σ → Int × σ
  sio_select : sio_dev → σ → Int × σ
  sio_writeb : Nat → Nat → σ → Int × σ
  sio_readb : Nat → σ → (Int × Nat) × σ

/-- The conversion of a `size_t` to the `int` a function returns (32-bit, wrapping). -/
def int_of_size_t (n : Nat) : Int :=
  (((n + 2 ^ 31) % 2 ^ 32 : Nat) : Int) - 2 ^ 31

/-- `LPC_HICRB_ILPCB_RO`, `(1 << 6)`. -/
def LPC_HICRB_ILPCB_RO : Nat := 1 <<< 6

/-! ## `ilpc.c` -/

section Engine

variable {σ : Type}

/-- The code after the `done:` label of the four transfer functions: `sio_lock` is called,
its failure is only printed (`perror`), and the primary result `r` is what is returned. -/
def relock {α : Type} (t : Sio σ) (r : α × σ) : α × σ :=
  let locked := t.sio_lock r.2
  (r.1, locked.2)

/-- The `while (remaining)` loop of `ilpcb_read`. `rc` is the value of the variable at the
loop head, `buf` the bytes stored so far through the advancing `buf` pointer. -/
def ilpcb_read_loop (t : Sio σ) (addr : Nat) :
    Nat → Int → List Nat → σ → (Int × List Nat) × σ
  | 0, rc, buf, s => ((rc, buf), s)
  | remaining + 1, rc, buf, s =>
    let a0 := t.sio_writeb 0xf0 ((addr >>> 24) % 256) s
    let a1 := t.sio_writeb 0xf1 ((addr >>> 16) % 256) a0.2
    let a2 := t.sio_writeb 0xf2 ((addr >>> 8) % 256) a1.2
    let a3 := t.sio_writeb 0xf3 (addr % 256) a2.2
    let rc := Int.lor (Int.lor (Int.lor (Int.lor rc a0.1) a1.1) a2.1) a3.1
    if rc ≠ 0 then ((rc, buf), a3.2) else
    let trig := t.sio_readb 0xfe a3.2
    if trig.1.1 ≠ 0 then ((trig.1.1, buf), trig.2) else
    let d := t.sio_readb 0xf7 trig.2
    if d.1.1 ≠ 0 then ((d.1.1, buf), d.2) else
    ilpcb_read_loop t addr remaining d.1.1 (buf ++ [d.1.2 % 256]) d.2

/-- The function `ilpcb_read(ctx, addr, buf, len)`: the `int` returned, the bytes stored to
`buf` by the data reads that succeeded, and the transport state. -/
def ilpcb_read (t : Sio σ) (addr len : Nat) (s : σ) : (Int × List Nat) × σ :=
  let body : (Int × List Nat) × σ :=
    let u := t.sio_unlock s
    if u.1 ≠ 0 then ((u.1, []), u.2) else
    let sel := t.sio_select sio_dev.sio_ilpc u.2
    if sel.1 ≠ 0 then ((sel.1, []), sel.2) else
    let en := t.sio_writeb 0x30 0x01 sel.2
    if en.1 ≠ 0 then ((en.1, []), en.2) else
    let w := t.sio_writeb 0xf8 0 en.2
    if w.1 ≠ 0 then ((w.1, []), w.2) else
    ilpcb_read_loop t addr len w.1 [] w.2
  let r := relock t body
  ((if r.1.1 ≠ 0 then r.1.1 else int_of_size_t len, r.1.2), r.2)

/-- The `while (remaining)` loop of `ilpcb_write`. `buf` is the caller's buffer as a map
from byte offset to byte, `i` the offset the advancing `buf` pointer has reached. -/
def ilpcb_write_loop (t : Sio σ) (addr : Nat) (buf : Nat → Nat) :
    Nat → Int → Nat → σ → Int × σ
  | 0, rc, _, s => (rc, s)
  | remaining + 1, rc, i, s =>
    let a0 := t.sio_writeb 0xf0 ((addr >>> 24) % 256) s
    let a1 := t.sio_writeb 0xf1 ((addr >>> 16) % 256) a0.2
    let a2 := t.sio_writeb 0xf2 ((addr >>> 8) % 256) a1.2
    let a3 := t.sio_writeb 0xf3 (addr % 256) a2.2
    let rc := Int.lor (Int.lor (Int.lor (Int.lor rc a0.1) a1.1) a2.1) a3.1
    if rc ≠ 0 then (rc, a3.2) else
    let d := t.sio_writeb 0xf7 (buf i % 256) a3.2
    if d.1 ≠ 0 then (d.1, d.2) else
    let trig := t.sio_writeb 0xfe 0xcf d.2
    if trig.1 ≠ 0 then (trig.1, trig.2) else
    ilpcb_write_loop t addr buf remaining trig.1 (i + 1) trig.2

/-- The function `ilpcb_write(ctx, addr, buf, len)`: the `int` returned and the transport
state. -/
def ilpcb_write (t : Sio σ) (addr : Nat) (buf : Nat → Nat) (len : Nat) (s : σ) : Int × σ :=
  let body : Int × σ :=
    let u := t.sio_unlock s
    if u.1 ≠ 0 then (u.1, u.2) else
    let sel := t.sio_select sio_dev.sio_ilpc u.2
    if sel.1 ≠ 0 then (sel.1, sel.2) else
    let en := t.sio_writeb 0x30 0x01 sel.2
    if en.1 ≠ 0 then (en.1, en.2) else
    let w := t.sio_writeb 0xf8 0 en.2
    if w.1 ≠ 0 then (w.1, w.2) else
    ilpcb_write_loop t addr buf len w.1 0 w.2
  let r := relock t body
  (if r.1 ≠ 0 then r.1 else int_of_size_t len, r.2)

/-- The function `ilpcb_readl(ctx, addr, val)`: the `int` returned, the content of `*val`
after the call (`val` is its content before), and the transport state. -/
def ilpcb_readl (t : Sio σ) (addr : Nat) (val : Nat) (s : σ) : (Int × Nat) × σ :=
  let body : (Int × Nat) × σ :=
    let u := t.sio_unlock s
    if u.1 ≠ 0 then ((u.1, val), u.2) else
    let sel := t.sio_select sio_dev.sio_ilpc u.2
    if sel.1 ≠ 0 then ((sel.1, val), sel.2) else
    let en := t.sio_writeb 0x30 0x01 sel.2
    if en.1 ≠ 0 then ((en.1, val), en.2) else
    let w := t.sio_writeb 0xf8 2 en.2
    if w.1 ≠ 0 then ((w.1, val), w.2) else
    let a0 := t.sio_writeb 0xf0 ((addr >>> 24) % 256) w.2
    let a1 := t.sio_writeb 0xf1 ((addr >>> 16) % 256) a0.2
    let a2 := t.sio_writeb 0xf2 ((addr >>> 8) % 256) a1.2
    let a3 := t.sio_writeb 0xf3 (addr % 256) a2.2
    let rc := Int.lor (Int.lor (Int.lor (Int.lor w.1 a0.1) a1.1) a2.1) a3.1
    if rc ≠ 0 then ((rc, val), a3.2) else
    let trig := t.sio_readb 0xfe a3.2
    if trig.1.1 ≠ 0 then ((trig.1.1, val), trig.2) else
    let extracted := 0
    let d0 := t.sio_readb 0xf4 trig.2
    let extracted := ((extracted <<< 8) % 2 ^ 32) ||| (d0.1.2 % 256)
    let d1 := t.sio_readb 0xf5 d0.2
    let extracted := ((extracted <<< 8) % 2 ^ 32) ||| (d1.1.2 % 256)
    let d2 := t.sio_readb 0xf6 d1.2
    let extracted := ((extracted <<< 8) % 2 ^ 32) ||| (d2.1.2 % 256)
    let d3 := t.sio_readb 0xf7 d2.2
    let extracted := ((extracted <<< 8) % 2 ^ 32) ||| (d3.1.2 % 256)
    let rc := Int.lor (Int.lor (Int.lor (Int.lor trig.1.1 d0.1.1) d1.1.1) d2.1.1) d3.1.1
    if rc ≠ 0 then ((rc, val), d3.2) else
    ((rc, extracted), d3.2)
  relock t body

/-- The function `ilpcb_writel(ctx, addr, val)`: the `int` returned and the transport
state. -/
def ilpcb_writel (t : Sio σ) (addr : Nat) (val : Nat) (s : σ) : Int × σ :=
  let body : Int × σ :=
    let u := t.sio_unlock s
    if u.1 ≠ 0 then (u.1, u.2) else
    let sel := t.sio_select sio_dev.sio_ilpc u.2
    if sel.1 ≠ 0 then (sel.1, sel.2) else
    let en := t.sio_writeb 0x30 0x01 sel.2
    if en.1 ≠ 0 then (en.1, en.2) else
    let w := t.sio_writeb 0xf8 2 en.2
    if w.1 ≠ 0 then (w.1, w.2) else
    let a0 := t.sio_writeb 0xf0 ((addr >>> 24) % 256) w.2
    let a1 := t.sio_writeb 0xf1 ((addr >>> 16) % 256) a0.2
    let a2 := t.sio_writeb 0xf2 ((addr >>> 8) % 256) a1.2
    let a3 := t.sio_writeb 0xf3 ((addr >>> 0) % 256) a2.2
    let rc := Int.lor (Int.lor (Int.lor (Int.lor w.1 a0.1) a1.1) a2.1) a3.1
    if rc ≠ 0 then (rc, a3.2) else
    let v0 := t.sio_writeb 0xf4 ((val >>> 24) % 256) a3.2
    let v1 := t.sio_writeb 0xf5 ((val >>> 16) % 256) v0.2
    let v2 := t.sio_writeb 0xf6 ((val >>> 8) % 256) v1.2
    let v3 := t.sio_writeb 0xf7 ((val >>> 0) % 256) v2.2
    let rc := Int.lor (Int.lor (Int.lor (Int.lor rc v0.1) v1.1) v2.1) v3.1
    if rc ≠ 0 then (rc, v3.2) else
    let trig := t.sio_writeb 0xfe 0xcf v3.2
    if trig.1 ≠ 0 then (trig.1, trig.2) else
    (trig.1, trig.2)
  relock t body

/-- The function `ilpcb_mode(ctx)`: the `int` returned (an error code of the word read, or
`0` for read-write and `1` for read-only) and the transport state. -/
def ilpcb_mode (t : Sio σ) (s : σ) : Int × σ :=
  let hicrb := 0
  let r := ilpcb_readl t 0x1e789100 hicrb s
  if r.1.1 ≠ 0 then (r.1.1, r.2) else
  ((if r.1.2 &&& LPC_HICRB_ILPCB_RO ≠ 0 then 1 else 0), r.2)

end Engine

/-! ## Observing a transport: the log of issued operations -/

/-- A Byte Transport operation as issued by the engine, with its arguments. -/
inductive SioOp
  | unlock
  | lock
  | select (dev : sio_dev)
  | writeb (reg val : Nat)
  | readb (reg : Nat)
  deriving DecidableEq, Repr

/-- One issued operation together with the code it returned and, for a register read, the
byte it delivered (`0` for the other operations). -/
structure SioEv where
  op : SioOp
  rc : Int
  data : Nat
  deriving DecidableEq, Repr

/-- Any transport, instrumented: it behaves as `t` does and appends every operation that
is issued, with its outcome, to a log kept next to the state of `t`. -/
def Sio.logged {σ : Type} (t : Sio σ) : Sio (σ × List SioEv) where
  sio_unlock := fun s =>
    ((t.sio_unlock s.1).1, ((t.sio_unlock s.1).2, s.2 ++ [⟨SioOp.unlock, (t.sio_unlock s.1).1, 0⟩]))
  sio_lock := fun s =>
    ((t.sio_lock s.1).1, ((t.sio_lock s.1).2, s.2 ++ [⟨SioOp.lock, (t.sio_lock s.1).1, 0⟩]))
  sio_select := fun dev s =>
    ((t.sio_select dev s.1).1,
      ((t.sio_select dev s.1).2, s.2 ++ [⟨SioOp.select dev, (t.sio_select dev s.1).1, 0⟩]))
  sio_writeb := fun reg val s =>
    ((t.sio_writeb reg val s.1).1,
      ((t.sio_writeb reg val s.1).2,
        s.2 ++ [⟨SioOp.writeb reg val, (t.sio_writeb reg val s.1).1, 0⟩]))
  sio_readb := fun reg s =>
    ((t.sio_readb reg s.1).1,
      ((t.sio_readb reg s.1).2,
        s.2 ++ [⟨SioOp.readb reg, (t.sio_readb reg s.1).1.1, (t.sio_readb reg s.1).1.2⟩]))

/-- A transport driven by a script: the k-th operation issued is answered with the k-th
entry (return code, byte delivered); once the script is used up every operation succeeds
and reads deliver `0`. -/
def script_sio : Sio (List (Int × Nat)) where
  sio_unlock := fun s => ((s.headD (0, 0)).1, s.tail)
  sio_lock := fun s => ((s.headD (0, 0)).1, s.tail)
  sio_select := fun _ s => ((s.headD (0, 0)).1, s.tail)
  sio_writeb := fun _ _ s => ((s.headD (0, 0)).1, s.tail)
  sio_readb := fun _ s => (s.headD (0, 0), s.tail)

/-- A transport on which every operation succeeds and reads deliver `0`, except that a
write to the trigger register `0xfe` is refused with `-5`. -/
def no_trigger_write_sio : Sio Unit where
  sio_unlock := fun s => (0, s)
  sio_lock := fun s => (0, s)
  sio_select := fun _ s => (0, s)
  sio_writeb := fun reg _ s => (if reg = 0xfe then -5 else 0, s)
  sio_readb := fun _ s => ((0, 0), s)

/-- The log of `ilpcb_read` run on the instrumented transport from an empty log. -/
def read_log {σ : Type} (t : Sio σ) (addr len : Nat) (s : σ) : List SioEv :=
  (ilpcb_read t.logged addr len (s, [])).2.2

/-- The log of `ilpcb_write` run on the instrumented transport from an empty log. -/
def write_log {σ : Type} (t : Sio σ) (addr : Nat) (buf : Nat → Nat) (len : Nat) (s : σ) :
    List SioEv :=
  (ilpcb_write t.logged addr buf len (s, [])).2.2

/-- The log of `ilpcb_readl` run on the instrumented transport from an empty log. -/
def readl_log {σ : Type} (t : Sio σ) (addr val : Nat) (s : σ) : List SioEv :=
  (ilpcb_readl t.logged addr val (s, [])).2.2

/-- The log of `ilpcb_writel` run on the instrumented transport from an empty log. -/
def writel_log {σ : Type} (t : Sio σ) (addr val : Nat) (s : σ) : List SioEv :=
  (ilpcb_writel t.logged addr val (s, [])).2.2

/-- Modelled from the spec: the lock state of the Byte Transport (`sio_lock` and
`sio_unlock` of `sio.c` are not part of the sources at hand). `true` is locked. An
`unlock` that succeeds leaves the transport unlocked, a `lock` that succeeds leaves it
locked, and an operation that fails ("failed to acquire/release exclusive session")
leaves the lock state as it was; no other operation touches it. -/
def lock_step (locked : Bool) (e : SioEv) : Bool :=
  match e.op with
  | SioOp.unlock => if e.rc = 0 then false else locked
  | SioOp.lock => if e.rc = 0 then true else locked
  | _ => locked

/-- The lock state after the operations of a log, starting from `locked`. -/
def lock_state (locked : Bool) (log : List SioEv) : Bool :=
  log.foldl lock_step locked

/-- The bitwise OR of the return codes of the operations of a log. -/
def or_codes (log : List SioEv) : Int :=
  log.foldl (fun acc e => Int.lor acc e.rc) 0

/-- An operation with its written value forgotten: what is accessed, not what is sent. -/
def SioOp.shape : SioOp → SioOp
  | SioOp.writeb reg _ => SioOp.writeb reg 0
  | op => op

/-- The accesses that the engine still issues after an access has failed inside a group of
four that is checked once (`rc |= ...` four times, then `if (rc)`): the later registers
of the same group, `0xf0..0xf3` written or `0xf4..0xf7` written or read. Empty for every
other operation. -/
def group_rest : SioOp → List SioOp
  | SioOp.writeb reg _ =>
    if 0xf0 ≤ reg ∧ reg ≤ 0xf3 then (List.range' (reg + 1) (0xf3 - reg)).map (SioOp.writeb · 0)
    else if 0xf4 ≤ reg ∧ reg ≤ 0xf7 then
      (List.range' (reg + 1) (0xf7 - reg)).map (SioOp.writeb · 0)
    else []
  | SioOp.readb reg =>
    if 0xf4 ≤ reg ∧ reg ≤ 0xf7 then (List.range' (reg + 1) (0xf7 - reg)).map SioOp.readb
    else []
  | _ => []

/-- Issue one operation on a transport: the code returned, the byte delivered (`0`
unless the operation is a register read) and the new state. -/
def issue {σ : Type} (t : Sio σ) : SioOp → σ → (Int × Nat) × σ
  | SioOp.unlock, s => (((t.sio_unlock s).1, 0), (t.sio_unlock s).2)
  | SioOp.lock, s => (((t.sio_lock s).1, 0), (t.sio_lock s).2)
  | SioOp.select dev, s => (((t.sio_select dev s).1, 0), (t.sio_select dev s).2)
  | SioOp.writeb reg val, s => (((t.sio_writeb reg val s).1, 0), (t.sio_writeb reg val s).2)
  | SioOp.readb reg, s => t.sio_readb reg s

/-- Issue all the operations of one checked step, whatever they return: the operations
with their outcomes, and the state reached. -/
def run_group {σ : Type} (t : Sio σ) : List SioOp → σ → List SioEv × σ
  | [], s => ([], s)
  | op :: ops, s =>
    (⟨op, (issue t op s).1.1, (issue t op s).1.2⟩ :: (run_group t ops (issue t op s).2).1,
      (run_group t ops (issue t op s).2).2)

/-- Run a list of checked steps in order and stop after the first step in which some
operation failed: the operations issued with their outcomes, and the state reached.
This is the control skeleton shared by the four transfer functions, used to reason about
them; `ilpcb_read_plan` and its siblings below say which steps each function runs, and
the theorems `ilpcb_*_eq_plan` prove that the functions above do exactly that. -/
def run_plan {σ : Type} (t : Sio σ) : List (List SioOp) → σ → List SioEv × σ
  | [], s => ([], s)
  | g :: gs, s =>
    if or_codes (run_group t g s).1 ≠ 0 then run_group t g s
    else ((run_group t g s).1 ++ (run_plan t gs (run_group t g s).2).1,
      (run_plan t gs (run_group t g s).2).2)

/-- The four writes that program the address registers `0xf0..0xf3`, most significant
byte first; one checked step. -/
def addr_group (addr : Nat) : List SioOp :=
  [SioOp.writeb 0xf0 ((addr >>> 24) % 256), SioOp.writeb 0xf1 ((addr >>> 16) % 256),
    SioOp.writeb 0xf2 ((addr >>> 8) % 256), SioOp.writeb 0xf3 (addr % 256)]

/-- The steps before the transfer proper: unlock, select, enable, access width. -/
def prologue (width : Nat) : List (List SioOp) :=
  [[SioOp.unlock], [SioOp.select sio_dev.sio_ilpc], [SioOp.writeb 0x30 0x01],
    [SioOp.writeb 0xf8 width]]

/-- The checked steps of one iteration of the loop of `ilpcb_read`. -/
def read_iter (addr : Nat) : List (List SioOp) :=
  [addr_group addr, [SioOp.readb 0xfe], [SioOp.readb 0xf7]]

/-- The checked steps of the iteration of the loop of `ilpcb_write` that sends `byte`. -/
def write_iter (addr byte : Nat) : List (List SioOp) :=
  [addr_group addr, [SioOp.writeb 0xf7 (byte % 256)], [SioOp.writeb 0xfe 0xcf]]

/-- The checked steps of the loop of `ilpcb_read` with `n` bytes remaining. -/
def read_iters (addr : Nat) : Nat → List (List SioOp)
  | 0 => []
  | n + 1 => read_iter addr ++ read_iters addr n

/-- The checked steps of the loop of `ilpcb_write` with `n` bytes remaining, the pointer
being at offset `i`. -/
def write_iters (addr : Nat) (buf : Nat → Nat) : Nat → Nat → List (List SioOp)
  | 0, _ => []
  | n + 1, i => write_iter addr (buf i) ++ write_iters addr buf n (i + 1)

/-- The checked steps of `ilpcb_read` up to the `done:` label. -/
def ilpcb_read_plan (addr len : Nat) : List (List SioOp) :=
  prologue 0 ++ read_iters addr len

/-- The checked steps of `ilpcb_write` up to the `done:` label. -/
def ilpcb_write_plan (addr : Nat) (buf : Nat → Nat) (len : Nat) : List (List SioOp) :=
  prologue 0 ++ write_iters addr buf len 0

/-- The checked steps of `ilpcb_readl` up to the `done:` label. -/
def ilpcb_readl_plan (addr : Nat) : List (List SioOp) :=
  prologue 2 ++ [addr_group addr, [SioOp.readb 0xfe],
    [SioOp.readb 0xf4, SioOp.readb 0xf5, SioOp.readb 0xf6, SioOp.readb 0xf7]]

/-- The checked steps of `ilpcb_writel` up to the `done:` label. -/
def ilpcb_writel_plan (addr val : Nat) : List (List SioOp) :=
  prologue 2 ++ [addr_group addr,
    [SioOp.writeb 0xf4 ((val >>> 24) % 256), SioOp.writeb 0xf5 ((val >>> 16) % 256),
      SioOp.writeb 0xf6 ((val >>> 8) % 256), SioOp.writeb 0xf7 (val % 256)],
    [SioOp.writeb 0xfe 0xcf]]

/-- A checked step is well grouped when what follows each of its operations is what
`group_rest` says. -/
def well_grouped : List SioOp → Bool
  | [] => true
  | op :: ops => (ops.map SioOp.shape == group_rest op) && well_grouped ops

/-- Strict short-circuit: every operation that failed is the last one of the log. -/
def stops_at_failure : List SioEv → Bool
  | [] => true
  | e :: rest => (e.rc == 0 || rest.isEmpty) && stops_at_failure rest

/-- Short-circuit per checked step: every operation that failed is followed by the rest
of its group of four and by nothing else. -/
def stops_after_group : List SioEv → Bool
  | [] => true
  | e :: rest =>
    (e.rc == 0 || rest.map (fun x => x.op.shape) == group_rest e.op) && stops_after_group rest

/-- The result of the part of a transfer function before its `done:` label, read off the
run of its plan: the OR of the codes of the operations issued, and the state reached. -/
def plan_result {σ : Type} (t : Sio σ) (plan : List (List SioOp)) (s : σ) : Int × σ :=
  (or_codes (run_plan t plan s).1, (run_plan t plan s).2)

/-- The bytes delivered by the reads of the data registers `0xf4..0xf7` in a log, each
with its register, in the order of the reads. -/
def data_reads (log : List SioEv) : List (Nat × Nat) :=
  log.filterMap (fun e =>
    match e.op with
    | SioOp.readb reg => if 0xf4 ≤ reg ∧ reg ≤ 0xf7 then some (reg, e.data) else none
    | _ => none)

/-- The content of `*val` after the part of `ilpcb_readl` before `done:`, read off the
operations issued: unchanged when some operation failed, else the accumulation of the
bytes delivered by the reads of `0xf4..0xf7`. -/
def readl_store (val : Nat) (evs : List SioEv) : Nat :=
  if or_codes evs ≠ 0 then val
  else (data_reads evs).foldl (fun acc d => ((acc <<< 8) % 2 ^ 32) ||| (d.2 % 256)) 0

/-- The result of the part of `ilpcb_readl` before `done:`, read off the run of its plan;
`pre` are the operations issued before this plan starts, all successful. -/
def readl_result {σ : Type} (t : Sio σ) (val : Nat) (pre : List SioEv) (plan : List (List SioOp)) (s : σ) :
    (Int × Nat) × σ :=
  ((or_codes (run_plan t plan s).1, readl_store val (pre ++ (run_plan t plan s).1)),
    (run_plan t plan s).2)

/-- The log of `ilpcb_mode` run on the instrumented transport from an empty log. -/
def mode_log {σ : Type} (t : Sio σ) (s : σ) : List SioEv :=
  (ilpcb_mode t.logged (s, [])).2.2

/-! ## A read-write bridge behind the transport -/

/-- The state of a read-write iLPC2AHB bridge: the byte registers of the logical device
and the words of the AHB bus by address. -/
structure Bridge where
  regs : Nat → Nat
  mem : Nat → Nat

/-- The address programmed in the registers `0xf0..0xf3`, `0xf0` most significant. -/
def Bridge.addr (b : Bridge) : Nat :=
  b.regs 0xf0 * 2 ^ 24 + b.regs 0xf1 * 2 ^ 16 + b.regs 0xf2 * 2 ^ 8 + b.regs 0xf3

/-- The word held in the data registers `0xf4..0xf7`, `0xf4` most significant. -/
def Bridge.data (b : Bridge) : Nat :=
  b.regs 0xf4 * 2 ^ 24 + b.regs 0xf5 * 2 ^ 16 + b.regs 0xf6 * 2 ^ 8 + b.regs 0xf7

/-- Load a word into the data registers `0xf4..0xf7`, `0xf4` most significant. -/
def Bridge.load (b : Bridge) (w : Nat) : Bridge :=
  { b with regs := fun r =>
      if r = 0xf4 then (w / 2 ^ 24) % 256
      else if r = 0xf5 then (w / 2 ^ 16) % 256
      else if r = 0xf6 then (w / 2 ^ 8) % 256
      else if r = 0xf7 then w % 256
      else b.regs r }

/-- The read-write bridge as a Byte Transport on which every operation succeeds: a write
to the trigger register `0xfe` commits the data registers to the word at the programmed
address, a read of `0xfe` loads that word into the data registers, and every other
register holds the byte last written to it. -/
def bridge_sio : Sio Bridge where
  sio_unlock := fun b => (0, b)
  sio_lock := fun b => (0, b)
  sio_select := fun _ b => (0, b)
  sio_writeb := fun reg val b =>
    if reg = 0xfe then (0, { b with mem := fun a => if a = b.addr then b.data else b.mem a })
    else (0, { b with regs := fun r => if r = reg then val % 256 else b.regs r })
  sio_readb := fun reg b =>
    if reg = 0xfe then ((0, 0), b.load (b.mem b.addr))
    else ((0, b.regs reg), b)

/-! ## The bridge capability model (`ast.h`, through its uses in `ast.c`) -/

/-- Modelled from the spec: `enum ast_ip_state` ("IP state: one of Unknown, Absent,
Enabled, Disabled"; `ast.h` is not part of the sources at hand, the names are those that
index `ast_ip_state_desc` in `ast.c`). -/
inductive ast_ip_state
  | ip_state_unknown
  | ip_state_absent
  | ip_state_enabled
  | ip_state_disabled
  deriving DecidableEq, Repr

/-- Modelled from the spec: the physical UART on the debug path (`debug_uart1`,
`debug_uart5` in `ast.c`; the enumeration itself is declared in `ast.h`). -/
inductive debug_uart
  | debug_uart1
  | debug_uart5
  deriving DecidableEq, Repr

/-- Modelled from the spec: the record `struct ahb_range` ("{ name, start, length,
read_write }"; its declaration is not part of the sources at hand), with the field names
`ast.c` uses: `name`, `start`, `len`, `rw`. -/
structure ahb_range where
  name : String
  start : Nat
  len : Nat
  rw : Bool
  deriving DecidableEq, Repr

/-- Modelled from the spec: the indices of `cap->ranges[]` ("fixed set of named
regions"; `enum p2ab_ranges` of `p2a.h`, whose declaration, hence the numeric order of
the indices, is not at hand), one for each entry that `ast.c` names. -/
inductive p2ab_ranges
  | p2ab_fw
  | p2ab_soc
  | p2ab_fmc
  | p2ab_spi
  | p2ab_dram
  | p2ab_lpch
  | p2ab_rsvd
  deriving DecidableEq, Repr

/-- Modelled from the spec: the window of the internal LPC bridge inside `struct
ast_cap_lpc` ("ilpc: { start, length, read_write }"; `ast.h` is not part of the sources at
hand), with the field names `ast.c` uses: `start`, `len`, `rw`. -/
structure ilpc_window where
  start : Nat
  len : Nat
  rw : Bool
  deriving DecidableEq, Repr

/-- Modelled from the spec: the record `struct ast_cap_lpc` ("{ superio, ilpc }"). -/
structure ast_cap_lpc where
  superio : ast_ip_state
  ilpc : ilpc_window
  deriving DecidableEq, Repr

/-- Modelled from the spec: the record `struct ast_cap_pci` ("{ vga, vga_mmio, vga_xdma,
bmc, bmc_mmio, bmc_xdma, ranges }"); `ranges` is the array indexed by `p2ab_ranges`. -/
structure ast_cap_pci where
  vga : ast_ip_state
  vga_mmio : ast_ip_state
  vga_xdma : ast_ip_state
  bmc : ast_ip_state
  bmc_mmio : ast_ip_state
  bmc_xdma : ast_ip_state
  ranges : p2ab_ranges → ahb_range

/-- Modelled from the spec: the record `struct ast_cap_uart` ("{ debug, uart }"). -/
structure ast_cap_uart where
  debug : ast_ip_state
  uart : debug_uart
  deriving DecidableEq, Repr

/-- Modelled from the spec: the record `struct ast_cap_kernel` ("{ have_devmem }"). -/
structure ast_cap_kernel where
  have_devmem : Bool
  deriving DecidableEq, Repr

/-- Modelled from the spec: the record `struct ast_cap_xdma` ("{ unconstrained }"). -/
structure ast_cap_xdma where
  unconstrained : Bool
  deriving DecidableEq, Repr

/-- Modelled from the spec: the record `struct ast_interfaces`, the aggregate report
("the five capability records"), with the field names `ast.c` uses. -/
structure ast_interfaces where
  lpc : ast_cap_lpc
  pci : ast_cap_pci
  uart : ast_cap_uart
  kernel : ast_cap_kernel
  xdma : ast_cap_xdma

/-! ## The register-mapped device lookup and the DMA controller consumed by `ast.c` -/

/-- Modelled from the spec: a device node (`struct soc_device_node` of `soc.h`, not at
hand), reduced to the compatibility strings it carries and its place in the tree. -/
structure soc_device_node where
  compatible : List String
  offset : Nat

/-- Modelled from the spec: the record `struct soc_region` of `soc.h`, which is not part
of the sources at hand ("get_memory_window(session, node) -> Result<{start,length}>"): the
start of a memory window, a 32-bit address of the AHB, and its length. `ast.c` uses
`start` only. -/
structure soc_region where
  start : Nat
  length : Nat

/-- An entry of a match table, `struct soc_device_id`: a compatibility string and the
payload `.data` (`none` is the null pointer). -/
structure soc_device_id (α : Type) where
  compatible : String
  data : Option α

/-- The collaborators of `ast.c` (`soc_probe`, `soc_device_match_node`,
`soc_device_get_memory`, `soc_readl`, `soc_destroy`, the test `soc->ahb->type ==
ahb_devmem`, `sdmc_get`, `sdmc_constrains_xdma`), taken as a parameter: each maps the
state of the world to its results and a new state. `soc_device_match_node` receives the
compatibility strings of the table it is given; `sdmc_get` yields `none` for a null
pointer. -/
structure Soc (σ : Type) where
  soc_probe : σ → Int × σ
  soc_device_match_node : List String → σ → (Int × soc_device_node) × σ
  soc_device_get_memory : soc_device_node → σ → (Int × soc_region) × σ
  soc_readl : Nat → σ → (Int × Nat) × σ
  soc_destroy : σ → σ
  ahb_is_devmem : σ → Bool
  sdmc_get : σ → Option Nat × σ
  sdmc_constrains_xdma : Nat → σ → Int × σ

/-- Modelled from the spec: `soc_device_get_match_data` of `soc.c`, which is not part of
the sources at hand ("get_match_payload(session, node) -> Option<PerRevisionOpsTable>";
an unknown revision is rejected "via a null-payload sentinel"): the payload of the first
entry of the table whose compatibility string the node carries, and the null pointer when
the node matches no entry. -/
def soc_device_get_match_data {α : Type} (table : List (soc_device_id α))
    (dn : soc_device_node) : Option α :=
  match table.find? (fun id => dn.compatible.contains id.compatible) with
  | some id => id.data
  | none => none

/-- The value of `ENODEV` in the Linux `errno.h`. -/
def ENODEV : Int := 19

/-- The value of `ENOTSUP` in the Linux `errno.h`. -/
def ENOTSUP : Int := 95

/-- `SCU_MISC`. -/
def SCU_MISC : Nat := 0x02c
/-- `SCU_MISC_G4_P2A_DRAM_RO`, `(1 << 25)`. -/
def SCU_MISC_G4_P2A_DRAM_RO : Nat := 1 <<< 25
/-- `SCU_MISC_G4_P2A_SPI_RO`, `(1 << 24)`. -/
def SCU_MISC_G4_P2A_SPI_RO : Nat := 1 <<< 24
/-- `SCU_MISC_G4_P2A_SOC_RO`, `(1 << 23)`. -/
def SCU_MISC_G4_P2A_SOC_RO : Nat := 1 <<< 23
/-- `SCU_MISC_G4_P2A_FMC_RO`, `(1 << 22)`. -/
def SCU_MISC_G4_P2A_FMC_RO : Nat := 1 <<< 22
/-- `SCU_MISC_G5_P2A_DRAM_RO`, `(1 << 25)`. -/
def SCU_MISC_G5_P2A_DRAM_RO : Nat := 1 <<< 25
/-- `SCU_MISC_G5_P2A_LPCH_RO`, `(1 << 24)`. -/
def SCU_MISC_G5_P2A_LPCH_RO : Nat := 1 <<< 24
/-- `SCU_MISC_G5_P2A_SOC_RO`, `(1 << 23)`. -/
def SCU_MISC_G5_P2A_SOC_RO : Nat := 1 <<< 23
/-- `SCU_MISC_G5_P2A_FLASH_RO`, `(1 << 22)`. -/
def SCU_MISC_G5_P2A_FLASH_RO : Nat := 1 <<< 22
/-- `SCU_MISC_UART_DBG`, `(1 << 10)`. -/
def SCU_MISC_UART_DBG : Nat := 1 <<< 10
/-- `SCU_HW_STRAP`. -/
def SCU_HW_STRAP : Nat := 0x070
/-- `SCU_HW_STRAP_UART_DBG_SEL`, `(1 << 29)`. -/
def SCU_HW_STRAP_UART_DBG_SEL : Nat := 1 <<< 29
/-- `SCU_HW_STRAP_SIO_DEC`, `(1 << 20)`. -/
def SCU_HW_STRAP_SIO_DEC : Nat := 1 <<< 20
/-- `SCU_PCIE_CONFIG`. -/
def SCU_PCIE_CONFIG : Nat := 0x180
/-- `SCU_PCIE_CONFIG_BMC_XDMA`, `(1 << 14)`. -/
def SCU_PCIE_CONFIG_BMC_XDMA : Nat := 1 <<< 14
/-- `SCU_PCIE_CONFIG_BMC_MMIO`, `(1 << 9)`. -/
def SCU_PCIE_CONFIG_BMC_MMIO : Nat := 1 <<< 9
/-- `SCU_PCIE_CONFIG_BMC`, `(1 << 8)`. -/
def SCU_PCIE_CONFIG_BMC : Nat := 1 <<< 8
/-- `SCU_PCIE_CONFIG_VGA_XDMA`, `(1 << 6)`. -/
def SCU_PCIE_CONFIG_VGA_XDMA : Nat := 1 <<< 6
/-- `SCU_PCIE_CONFIG_VGA_MMIO`, `(1 << 1)`. -/
def SCU_PCIE_CONFIG_VGA_MMIO : Nat := 1 <<< 1
/-- `SCU_PCIE_CONFIG_VGA`, `(1 << 0)`. -/
def SCU_PCIE_CONFIG_VGA : Nat := 1 <<< 0
/-- `LPC_HICRB`. -/
def LPC_HICRB : Nat := 0x100
/-- `LPC_HICRB_ILPC_RO`, `(1 << 6)`. -/
def LPC_HICRB_ILPC_RO : Nat := 1 <<< 6

/-! ## `ast.c` -/

section Discovery

variable {σ : Type}

/-- The record `struct ast_ahb_bridge_ops`: the five probe functions of a revision. Each
maps the state of the world and the capability record it is given to its return code, the
record as it leaves it, and the new state. -/
structure ast_ahb_bridge_ops (σ : Type) where
  ilpc_status : σ → ast_cap_lpc → (Int × ast_cap_lpc) × σ
  pci_status : σ → ast_cap_pci → (Int × ast_cap_pci) × σ
  debug_status : σ → ast_cap_uart → (Int × ast_cap_uart) × σ
  kernel_status : σ → ast_cap_kernel → (Int × ast_cap_kernel) × σ
  xdma_status : σ → ast_cap_xdma → (Int × ast_cap_xdma) × σ

/-- The function `region_readl(soc, region, offset, val)`. The address `region->start +
offset` is computed in 32 bits: `offset` is a `uint32_t`, and the addresses of the AHB
are 32-bit. -/
def region_readl (api : Soc σ) (region : soc_region) (offset : Nat) (s : σ) : (Int × Nat) × σ :=
  api.soc_readl ((region.start + offset) % 2 ^ 32) s

/-- `enabled` when `c` holds, `disabled` otherwise: `c ? ip_state_enabled :
ip_state_disabled`. -/
def enabled_if (c : Bool) : ast_ip_state :=
  if c then ast_ip_state.ip_state_enabled else ast_ip_state.ip_state_disabled

/-- The function `ast_ilpc_status(soc, cap)`. -/
def ast_ilpc_status (api : Soc σ) (s : σ) (cap : ast_cap_lpc) : (Int × ast_cap_lpc) × σ :=
  let m1 := api.soc_device_match_node ["aspeed,ast2400-scu", "aspeed,ast2500-scu"] s
  if m1.1.1 < 0 then ((m1.1.1, cap), m1.2) else
  let g1 := api.soc_device_get_memory m1.1.2 m1.2
  if g1.1.1 < 0 then ((g1.1.1, cap), g1.2) else
  let scu := g1.1.2
  let m2 := api.soc_device_match_node ["aspeed,ast2400-lpc-v2", "aspeed,ast2500-lpc-v2"] g1.2
  if m2.1.1 < 0 then ((m2.1.1, cap), m2.2) else
  let g2 := api.soc_device_get_memory m2.1.2 m2.2
  if g2.1.1 < 0 then ((g2.1.1, cap), g2.2) else
  let lpc := g2.1.2
  let r1 := region_readl api scu SCU_HW_STRAP g2.2
  if r1.1.1 < 0 then ((r1.1.1, cap), r1.2) else
  let cap : ast_cap_lpc :=
    { superio := enabled_if (r1.1.2 &&& SCU_HW_STRAP_SIO_DEC == 0),
      ilpc := { cap.ilpc with start := 0, len := 1 <<< 32 } }
  let r2 := region_readl api lpc LPC_HICRB r1.2
  if r2.1.1 < 0 then ((r2.1.1, cap), r2.2) else
  let cap : ast_cap_lpc :=
    { cap with ilpc := { cap.ilpc with rw := (r2.1.2 &&& LPC_HICRB_ILPC_RO == 0) } }
  ((0, cap), r2.2)

/-- The six assignments `cap->vga = ... cap->bmc_xdma = ...` from the value of
`SCU_PCIE_CONFIG`, common to the two PCI probes. -/
def pcie_config_flags (cap : ast_cap_pci) (val : Nat) : ast_cap_pci :=
  { cap with
    vga := enabled_if (val &&& SCU_PCIE_CONFIG_VGA != 0),
    vga_mmio := enabled_if (val &&& SCU_PCIE_CONFIG_VGA_MMIO != 0),
    vga_xdma := enabled_if (val &&& SCU_PCIE_CONFIG_VGA_XDMA != 0),
    bmc := enabled_if (val &&& SCU_PCIE_CONFIG_BMC != 0),
    bmc_mmio := enabled_if (val &&& SCU_PCIE_CONFIG_BMC_MMIO != 0),
    bmc_xdma := enabled_if (val &&& SCU_PCIE_CONFIG_BMC_XDMA != 0) }

/-- The assignment of one entry `r = &cap->ranges[i]; r->name = ...; r->start = ...;
r->len = ...; r->rw = ...`. -/
def set_range (ranges : p2ab_ranges → ahb_range) (i : p2ab_ranges) (r : ahb_range) :
    p2ab_ranges → ahb_range :=
  fun j => if j = i then r else ranges j

/-- The function `ast2400_pci_status(soc, cap)`. -/
def ast2400_pci_status (api : Soc σ) (s : σ) (cap : ast_cap_pci) : (Int × ast_cap_pci) × σ :=
  let m := api.soc_device_match_node ["aspeed,ast2400-scu"] s
  if m.1.1 < 0 then ((m.1.1, cap), m.2) else
  let g := api.soc_device_get_memory m.1.2 m.2
  if g.1.1 < 0 then ((g.1.1, cap), g.2) else
  let scu := g.1.2
  let r1 := region_readl api scu SCU_PCIE_CONFIG g.2
  if r1.1.1 < 0 then ((r1.1.1, cap), r1.2) else
  let cap := pcie_config_flags cap r1.1.2
  let r2 := region_readl api scu SCU_MISC r1.2
  if r2.1.1 ≠ 0 then ((r2.1.1, cap), r2.2) else
  let val := r2.1.2
  let ranges := cap.ranges
  let ranges := set_range ranges p2ab_ranges.p2ab_fw
    ⟨"Firmware", 0, 0x18000000, val &&& SCU_MISC_G4_P2A_FMC_RO == 0⟩
  let ranges := set_range ranges p2ab_ranges.p2ab_soc
    ⟨"SoC IO", 0x18000000, 0x08000000, val &&& SCU_MISC_G4_P2A_SOC_RO == 0⟩
  let ranges := set_range ranges p2ab_ranges.p2ab_fmc
    ⟨"BMC Flash", 0x20000000, 0x10000000, val &&& SCU_MISC_G4_P2A_FMC_RO == 0⟩
  let ranges := set_range ranges p2ab_ranges.p2ab_spi
    ⟨"Host Flash", 0x30000000, 0x10000000, val &&& SCU_MISC_G4_P2A_SPI_RO == 0⟩
  let ranges := set_range ranges p2ab_ranges.p2ab_dram
    ⟨"DRAM", 0x40000000, 0x20000000, val &&& SCU_MISC_G4_P2A_DRAM_RO == 0⟩
  let ranges := set_range ranges p2ab_ranges.p2ab_lpch
    ⟨"LPC Host", 0x60000000, 0x20000000, val &&& SCU_MISC_G4_P2A_SOC_RO == 0⟩
  let ranges := set_range ranges p2ab_ranges.p2ab_rsvd
    ⟨"Reserved", 0x80000000, 0x80000000, val &&& SCU_MISC_G4_P2A_SOC_RO == 0⟩
  ((0, { cap with ranges := ranges }), r2.2)

/-- The function `ast2500_pci_status(soc, cap)`. -/
def ast2500_pci_status (api : Soc σ) (s : σ) (cap : ast_cap_pci) : (Int × ast_cap_pci) × σ :=
  let m := api.soc_device_match_node ["aspeed,ast2500-scu"] s
  if m.1.1 < 0 then ((m.1.1, cap), m.2) else
  let g := api.soc_device_get_memory m.1.2 m.2
  if g.1.1 < 0 then ((g.1.1, cap), g.2) else
  let scu := g.1.2
  let r1 := region_readl api scu SCU_PCIE_CONFIG g.2
  if r1.1.1 < 0 then ((r1.1.1, cap), r1.2) else
  let cap := pcie_config_flags cap r1.1.2
  let r2 := region_readl api scu SCU_MISC r1.2
  if r2.1.1 < 0 then ((r2.1.1, cap), r2.2) else
  let val := r2.1.2
  let ranges := cap.ranges
  let ranges := set_range ranges p2ab_ranges.p2ab_fw
    ⟨"Firmware", 0, 0x10000000, val &&& SCU_MISC_G5_P2A_FLASH_RO == 0⟩
  let ranges := set_range ranges p2ab_ranges.p2ab_soc
    ⟨"SoC IO", 0x10000000, 0x10000000, val &&& SCU_MISC_G5_P2A_SOC_RO == 0⟩
  let ranges := set_range ranges p2ab_ranges.p2ab_fmc
    ⟨"BMC Flash", 0x20000000, 0x10000000, val &&& SCU_MISC_G5_P2A_FLASH_RO == 0⟩
  let ranges := set_range ranges p2ab_ranges.p2ab_spi
    ⟨"Host Flash", 0x30000000, 0x10000000, val &&& SCU_MISC_G5_P2A_FLASH_RO == 0⟩
  let ranges := set_range ranges p2ab_ranges.p2ab_rsvd
    ⟨"Reserved", 0x40000000, 0x20000000, val &&& SCU_MISC_G5_P2A_SOC_RO == 0⟩
  let ranges := set_range ranges p2ab_ranges.p2ab_lpch
    ⟨"LPC Host", 0x60000000, 0x20000000, val &&& SCU_MISC_G5_P2A_LPCH_RO == 0⟩
  let ranges := set_range ranges p2ab_ranges.p2ab_dram
    ⟨"DRAM", 0x80000000, 0x80000000, val &&& SCU_MISC_G5_P2A_DRAM_RO == 0⟩
  ((0, { cap with ranges := ranges }), r2.2)

/-- The function `ast2400_debug_status(soc, cap)`. -/
def ast2400_debug_status (s : σ) (cap : ast_cap_uart) : (Int × ast_cap_uart) × σ :=
  ((0, { cap with debug := ast_ip_state.ip_state_absent }), s)

/-- The function `ast2500_debug_status(soc, cap)`. -/
def ast2500_debug_status (api : Soc σ) (s : σ) (cap : ast_cap_uart) :
    (Int × ast_cap_uart) × σ :=
  let m := api.soc_device_match_node ["aspeed,ast2500-scu"] s
  if m.1.1 < 0 then ((m.1.1, cap), m.2) else
  let g := api.soc_device_get_memory m.1.2 m.2
  if g.1.1 < 0 then ((g.1.1, cap), g.2) else
  let scu := g.1.2
  let r1 := region_readl api scu SCU_MISC g.2
  if r1.1.1 < 0 then ((r1.1.1, cap), r1.2) else
  let cap := { cap with debug := enabled_if (r1.1.2 &&& SCU_MISC_UART_DBG == 0) }
  let r2 := region_readl api scu SCU_HW_STRAP r1.2
  if r2.1.1 < 0 then ((r2.1.1, cap), r2.2) else
  let cap := { cap with uart :=
    if r2.1.2 &&& SCU_HW_STRAP_UART_DBG_SEL ≠ 0 then debug_uart.debug_uart5
    else debug_uart.debug_uart1 }
  ((0, cap), r2.2)

/-- The function `ast_kernel_status(soc, cap)`. -/
def ast_kernel_status (api : Soc σ) (s : σ) (_cap : ast_cap_kernel) :
    (Int × ast_cap_kernel) × σ :=
  ((0, { have_devmem := api.ahb_is_devmem s }), s)

/-- The function `ast_xdma_status(soc, cap)`. -/
def ast_xdma_status (api : Soc σ) (s : σ) (cap : ast_cap_xdma) : (Int × ast_cap_xdma) × σ :=
  let g := api.sdmc_get s
  match g.1 with
  | none => ((-ENODEV, cap), g.2)
  | some sdmc =>
    let c := api.sdmc_constrains_xdma sdmc g.2
    if c.1 < 0 then ((c.1, cap), c.2) else
    let cap : ast_cap_xdma := { unconstrained := (c.1 == 0) }
    let rc := if c.1 = 1 then 0 else c.1
    ((rc, cap), c.2)

/-- The table `ast2400_ops` of `ast_ahb_bridge_discover`. -/
def ast2400_ops (api : Soc σ) : ast_ahb_bridge_ops σ where
  ilpc_status := ast_ilpc_status api
  pci_status := ast2400_pci_status api
  debug_status := ast2400_debug_status
  kernel_status := ast_kernel_status api
  xdma_status := ast_xdma_status api

/-- The table `ast2500_ops` of `ast_ahb_bridge_discover`. -/
def ast2500_ops (api : Soc σ) : ast_ahb_bridge_ops σ where
  ilpc_status := ast_ilpc_status api
  pci_status := ast2500_pci_status api
  debug_status := ast2500_debug_status api
  kernel_status := ast_kernel_status api
  xdma_status := ast_xdma_status api

/-- The table `soc_match` of `ast_ahb_bridge_discover`. -/
def soc_match (api : Soc σ) : List (soc_device_id (ast_ahb_bridge_ops σ)) :=
  [⟨"aspeed,ast2400", some (ast2400_ops api)⟩, ⟨"aspeed,ast2500", some (ast2500_ops api)⟩]

/-- The body of `ast_ahb_bridge_discover(ahb, state)` with its match table `table` as an
argument: the `int` returned, the caller's report `*state` after the call, and the state
of the world. The part before `cleanup_soc:` is `body`; `soc_destroy` runs on its result. -/
def ast_ahb_bridge_discover_with (api : Soc σ)
    (table : List (soc_device_id (ast_ahb_bridge_ops σ))) (state : ast_interfaces) (s : σ) :
    (Int × ast_interfaces) × σ :=
  let body : (Int × ast_interfaces) × σ :=
    let p := api.soc_probe s
    if p.1 < 0 then ((p.1, state), p.2) else
    let m := api.soc_device_match_node (table.map (fun id => id.compatible)) p.2
    if m.1.1 < 0 then ((m.1.1, state), m.2) else
    match soc_device_get_match_data table m.1.2 with
    | none => ((-ENOTSUP, state), m.2)
    | some ops =>
      let r1 := ops.ilpc_status m.2 state.lpc
      let state := { state with lpc := r1.1.2 }
      if r1.1.1 < 0 then ((r1.1.1, state), r1.2) else
      let r2 := ops.pci_status r1.2 state.pci
      let state := { state with pci := r2.1.2 }
      if r2.1.1 < 0 then ((r2.1.1, state), r2.2) else
      let r3 := ops.debug_status r2.2 state.uart
      let state := { state with uart := r3.1.2 }
      if r3.1.1 < 0 then ((r3.1.1, state), r3.2) else
      let r4 := ops.kernel_status r3.2 state.kernel
      let state := { state with kernel := r4.1.2 }
      if r4.1.1 < 0 then ((r4.1.1, state), r4.2) else
      let r5 := ops.xdma_status r4.2 state.xdma
      ((r5.1.1, { state with xdma := r5.1.2 }), r5.2)
  (body.1, api.soc_destroy body.2)

/-- The function `ast_ahb_bridge_discover(ahb, state)`. -/
def ast_ahb_bridge_discover (api : Soc σ) (state : ast_interfaces) (s : σ) :
    (Int × ast_interfaces) × σ :=
  ast_ahb_bridge_discover_with api (soc_match api) state s

end Discovery

/-! ## Observing a discovery: the log of collaborator calls and of probes -/

/-- One call made during a discovery, with its outcome: a call of a collaborator, or the
return of the `k`-th probe function of the table (`1` LPC, `2` PCI, `3` debug, `4` kernel,
`5` XDMA) with the code it returned. -/
inductive SocEv
  | probed (rc : Int)
  | match_node (table : List String) (rc : Int)
  | get_memory (rc : Int)
  | readl (addr : Nat) (rc : Int) (val : Nat)
  | destroy
  | sdmc_get (found : Bool)
  | constrains_xdma (rc : Int)
  | status (k : Nat) (rc : Int)
  deriving DecidableEq, Repr

/-- Any collaborator record, instrumented: it behaves as `api` does and appends every
call, with its outcome, to a log kept next to the state of `api`. -/
def Soc.logged {σ : Type} (api : Soc σ) : Soc (σ × List SocEv) where
  soc_probe := fun s =>
    ((api.soc_probe s.1).1, ((api.soc_probe s.1).2, s.2 ++ [SocEv.probed (api.soc_probe s.1).1]))
  soc_device_match_node := fun table s =>
    ((api.soc_device_match_node table s.1).1,
      ((api.soc_device_match_node table s.1).2,
        s.2 ++ [SocEv.match_node table (api.soc_device_match_node table s.1).1.1]))
  soc_device_get_memory := fun dn s =>
    ((api.soc_device_get_memory dn s.1).1,
      ((api.soc_device_get_memory dn s.1).2,
        s.2 ++ [SocEv.get_memory (api.soc_device_get_memory dn s.1).1.1]))
  soc_readl := fun addr s =>
    ((api.soc_readl addr s.1).1,
      ((api.soc_readl addr s.1).2,
        s.2 ++ [SocEv.readl addr (api.soc_readl addr s.1).1.1 (api.soc_readl addr s.1).1.2]))
  soc_destroy := fun s => (api.soc_destroy s.1, s.2 ++ [SocEv.destroy])
  ahb_is_devmem := fun s => api.ahb_is_devmem s.1
  sdmc_get := fun s =>
    ((api.sdmc_get s.1).1,
      ((api.sdmc_get s.1).2, s.2 ++ [SocEv.sdmc_get (api.sdmc_get s.1).1.isSome]))
  sdmc_constrains_xdma := fun sdmc s =>
    ((api.sdmc_constrains_xdma sdmc s.1).1,
      ((api.sdmc_constrains_xdma sdmc s.1).2,
        s.2 ++ [SocEv.constrains_xdma (api.sdmc_constrains_xdma sdmc s.1).1]))

/-- A probe function on logged states that, when it returns, appends to the log that it
was the `k`-th probe and the code it returned. -/
def traced_status {σ α : Type} (k : Nat)
    (f : σ × List SocEv → α → (Int × α) × (σ × List SocEv)) :
    σ × List SocEv → α → (Int × α) × (σ × List SocEv) :=
  fun s cap => ((f s cap).1, ((f s cap).2.1, (f s cap).2.2 ++ [SocEv.status k (f s cap).1.1]))

/-- A table of probe functions with every probe traced. -/
def ast_ahb_bridge_ops.traced {σ : Type} (ops : ast_ahb_bridge_ops (σ × List SocEv)) :
    ast_ahb_bridge_ops (σ × List SocEv) where
  ilpc_status := traced_status 1 ops.ilpc_status
  pci_status := traced_status 2 ops.pci_status
  debug_status := traced_status 3 ops.debug_status
  kernel_status := traced_status 4 ops.kernel_status
  xdma_status := traced_status 5 ops.xdma_status

/-- Apply a function to the payload of every entry of a match table. -/
def map_table {α β : Type} (f : α → β) (table : List (soc_device_id α)) :
    List (soc_device_id β) :=
  table.map (fun id => ⟨id.compatible, id.data.map f⟩)

/-- The log of `ast_ahb_bridge_discover`: every call of a collaborator, those made inside
the probes included, and the return of every probe. -/
def discover_log {σ : Type} (api : Soc σ) (state : ast_interfaces) (s : σ) : List SocEv :=
  (ast_ahb_bridge_discover_with api.logged
    (map_table (fun ops => ops.traced) (soc_match api.logged)) state (s, [])).2.2

/-- The probes that returned, in order, each with the code it returned. -/
def status_events (log : List SocEv) : List (Nat × Int) :=
  log.filterMap (fun e =>
    match e with
    | SocEv.status k rc => some (k, rc)
    | _ => none)

/-- A device tree session in which every collaborator call succeeds: the root node
carries the compatibility strings `root`, every device has the window at `0x1e6e2000`,
every register reads `regs addr`, the bus is not the privileged memory-mapped one, and
the DMA controller is present and unconstrained. The state counts the calls made. -/
def fixed_soc (root : List String) (regs : Nat → Nat) : Soc Nat where
  soc_probe := fun n => (0, n + 1)
  soc_device_match_node := fun _ n => ((0, ⟨root, 0⟩), n + 1)
  soc_device_get_memory := fun _ n => ((0, ⟨0x1e6e2000, 0x1000⟩), n + 1)
  soc_readl := fun addr n => ((0, regs addr), n + 1)
  soc_destroy := fun n => n + 1
  ahb_is_devmem := fun _ => false
  sdmc_get := fun n => (some 0, n + 1)
  sdmc_constrains_xdma := fun _ n => (0, n + 1)

/-- A report with every field at its zero value, as a freshly cleared `struct
ast_interfaces`. -/
def zero_interfaces : ast_interfaces where
  lpc := ⟨ast_ip_state.ip_state_unknown, ⟨0, 0, false⟩⟩
  pci := ⟨ast_ip_state.ip_state_unknown, ast_ip_state.ip_state_unknown,
    ast_ip_state.ip_state_unknown, ast_ip_state.ip_state_unknown,
    ast_ip_state.ip_state_unknown, ast_ip_state.ip_state_unknown, fun _ => ⟨"", 0, 0, false⟩⟩
  uart := ⟨ast_ip_state.ip_state_unknown, debug_uart.debug_uart1⟩
  kernel := ⟨false⟩
  xdma := ⟨false⟩

/-! ## Observing one probe -/

/-- The log of one probe function run alone on instrumented collaborators, from an
empty log. -/
def status_log {σ α : Type} (f : σ × List SocEv → α → (Int × α) × (σ × List SocEv)) (s : σ)
    (cap : α) : List SocEv :=
  (f (s, []) cap).2.2

/-- The seven assignments to `cap->ranges[]` of `ast2400_pci_status`, from the value `val`
of `SCU_MISC`. -/
def ast2400_windows (ranges : p2ab_ranges → ahb_range) (val : Nat) : p2ab_ranges → ahb_range :=
  set_range (set_range (set_range (set_range (set_range (set_range (set_range ranges
    p2ab_ranges.p2ab_fw
      ⟨"Firmware", 0, 0x18000000, val &&& SCU_MISC_G4_P2A_FMC_RO == 0⟩)
    p2ab_ranges.p2ab_soc
      ⟨"SoC IO", 0x18000000, 0x08000000, val &&& SCU_MISC_G4_P2A_SOC_RO == 0⟩)
    p2ab_ranges.p2ab_fmc
      ⟨"BMC Flash", 0x20000000, 0x10000000, val &&& SCU_MISC_G4_P2A_FMC_RO == 0⟩)
    p2ab_ranges.p2ab_spi
      ⟨"Host Flash", 0x30000000, 0x10000000, val &&& SCU_MISC_G4_P2A_SPI_RO == 0⟩)
    p2ab_ranges.p2ab_dram
      ⟨"DRAM", 0x40000000, 0x20000000, val &&& SCU_MISC_G4_P2A_DRAM_RO == 0⟩)
    p2ab_ranges.p2ab_lpch
      ⟨"LPC Host", 0x60000000, 0x20000000, val &&& SCU_MISC_G4_P2A_SOC_RO == 0⟩)
    p2ab_ranges.p2ab_rsvd
      ⟨"Reserved", 0x80000000, 0x80000000, val &&& SCU_MISC_G4_P2A_SOC_RO == 0⟩

/-- The seven assignments to `cap->ranges[]` of `ast2500_pci_status`, from the value `val`
of `SCU_MISC`. -/
def ast2500_windows (ranges : p2ab_ranges → ahb_range) (val : Nat) : p2ab_ranges → ahb_range :=
  set_range (set_range (set_range (set_range (set_range (set_range (set_range ranges
    p2ab_ranges.p2ab_fw
      ⟨"Firmware", 0, 0x10000000, val &&& SCU_MISC_G5_P2A_FLASH_RO == 0⟩)
    p2ab_ranges.p2ab_soc
      ⟨"SoC IO", 0x10000000, 0x10000000, val &&& SCU_MISC_G5_P2A_SOC_RO == 0⟩)
    p2ab_ranges.p2ab_fmc
      ⟨"BMC Flash", 0x20000000, 0x10000000, val &&& SCU_MISC_G5_P2A_FLASH_RO == 0⟩)
    p2ab_ranges.p2ab_spi
      ⟨"Host Flash", 0x30000000, 0x10000000, val &&& SCU_MISC_G5_P2A_FLASH_RO == 0⟩)
    p2ab_ranges.p2ab_rsvd
      ⟨"Reserved", 0x40000000, 0x20000000, val &&& SCU_MISC_G5_P2A_SOC_RO == 0⟩)
    p2ab_ranges.p2ab_lpch
      ⟨"LPC Host", 0x60000000, 0x20000000, val &&& SCU_MISC_G5_P2A_LPCH_RO == 0⟩)
    p2ab_ranges.p2ab_dram
      ⟨"DRAM", 0x80000000, 0x80000000, val &&& SCU_MISC_G5_P2A_DRAM_RO == 0⟩

/-- The windows of a PCI capability record: the entries of `ranges[]` at the seven indices
that the PCI probes write. -/
def pci_windows (cap : ast_cap_pci) : List ahb_range :=
  [p2ab_ranges.p2ab_fw, p2ab_ranges.p2ab_soc, p2ab_ranges.p2ab_fmc, p2ab_ranges.p2ab_spi,
    p2ab_ranges.p2ab_dram, p2ab_ranges.p2ab_lpch, p2ab_ranges.p2ab_rsvd].map cap.ranges

/-- The six flags of a PCI capability record, in the order `vga`, `vga_mmio`, `vga_xdma`,
`bmc`, `bmc_mmio`, `bmc_xdma`. -/
def pci_flags (cap : ast_cap_pci) : List ast_ip_state :=
  [cap.vga, cap.vga_mmio, cap.vga_xdma, cap.bmc, cap.bmc_mmio, cap.bmc_xdma]

/-- A list of windows tiles the 32-bit bus: ordered by start address, the first starts at
`0`, each starts where the one before it ends, the last ends at `0x100000000`, none is
empty, and no two overlap. -/
def tiles_bus (ws : List ahb_range) : Bool :=
  let l := (ws.map (fun w => (w.start, w.len))).insertionSort (fun a b => a.1 ≤ b.1)
  (l.head?.map Prod.fst == some 0) &&
    (l.zip l.tail).all (fun p => p.2.1 == p.1.1 + p.1.2) &&
    (l.getLast?.map (fun w => w.1 + w.2) == some 0x100000000) &&
    l.all (fun w => decide (0 < w.2)) &&
    decide (l.Pairwise (fun a b => a.1 + a.2 ≤ b.1))

/-- A collaborator record as `fixed_soc`, with the answer of the DMA controller as a
parameter: `sdmc` is what `sdmc_get` yields, `constrained` what `sdmc_constrains_xdma`
returns. -/
def xdma_soc (sdmc : Option Nat) (constrained : Int) : Soc Nat :=
  { fixed_soc [] (fun _ => 0) with
    sdmc_get := fun n => (sdmc, n + 1)
    sdmc_constrains_xdma := fun _ n => (constrained, n + 1) }

/-- A report left by an earlier run, differing from `zero_interfaces` in the debug UART
record: debug enabled, on the fifth UART. -/
def earlier_interfaces : ast_interfaces :=
  { zero_interfaces with
    uart := ⟨ast_ip_state.ip_state_enabled, debug_uart.debug_uart5⟩ }

/-! ## The stores of `ilpcb_readl` through `val` -/

/-- The function `ilpcb_readl(ctx, addr, val)` with its assignments through the pointer
`val` recorded: the `int` returned, the values assigned to `*val` in the order of the
assignments, and the transport state. -/
def ilpcb_readl_stores {σ : Type} (t : Sio σ) (addr : Nat) (s : σ) : (Int × List Nat) × σ :=
  let body : (Int × List Nat) × σ :=
    let u := t.sio_unlock s
    if u.1 ≠ 0 then ((u.1, []), u.2) else
    let sel := t.sio_select sio_dev.sio_ilpc u.2
    if sel.1 ≠ 0 then ((sel.1, []), sel.2) else
    let en := t.sio_writeb 0x30 0x01 sel.2
    if en.1 ≠ 0 then ((en.1, []), en.2) else
    let w := t.sio_writeb 0xf8 2 en.2
    if w.1 ≠ 0 then ((w.1, []), w.2) else
    let a0 := t.sio_writeb 0xf0 ((addr >>> 24) % 256) w.2
    let a1 := t.sio_writeb 0xf1 ((addr >>> 16) % 256) a0.2
    let a2 := t.sio_writeb 0xf2 ((addr >>> 8) % 256) a1.2
    let a3 := t.sio_writeb 0xf3 (addr % 256) a2.2
    let rc := Int.lor (Int.lor (Int.lor (Int.lor w.1 a0.1) a1.1) a2.1) a3.1
    if rc ≠ 0 then ((rc, []), a3.2) else
    let trig := t.sio_readb 0xfe a3.2
    if trig.1.1 ≠ 0 then ((trig.1.1, []), trig.2) else
    let extracted := 0
    let d0 := t.sio_readb 0xf4 trig.2
    let extracted := ((extracted <<< 8) % 2 ^ 32) ||| (d0.1.2 % 256)
    let d1 := t.sio_readb 0xf5 d0.2
    let extracted := ((extracted <<< 8) % 2 ^ 32) ||| (d1.1.2 % 256)
    let d2 := t.sio_readb 0xf6 d1.2
    let extracted := ((extracted <<< 8) % 2 ^ 32) ||| (d2.1.2 % 256)
    let d3 := t.sio_readb 0xf7 d2.2
    let extracted := ((extracted <<< 8) % 2 ^ 32) ||| (d3.1.2 % 256)
    let rc := Int.lor (Int.lor (Int.lor (Int.lor trig.1.1 d0.1.1) d1.1.1) d2.1.1) d3.1.1
    if rc ≠ 0 then ((rc, []), d3.2) else
    ((rc, [extracted]), d3.2)
  relock t body

/-- The content of a location that held `val` after the assignments `stores`, in order:
the last value assigned, and `val` when nothing was assigned. -/
def stored (val : Nat) (stores : List Nat) : Nat :=
  stores.getLast?.getD val

/-- The 32-bit value assembled from the bytes that the reads of the data registers
`0xf4..0xf7` of a log delivered: `extracted = (extracted << 8) | data` for each, from `0`. -/
def assembled (log : List SioEv) : Nat :=
  (data_reads log).foldl (fun acc d => ((acc <<< 8) % 2 ^ 32) ||| (d.2 % 256)) 0

/-- The stores of a run of `ilpcb_readl` as read off its result `r`: none when the code
returned is not zero, else one, of the content `r.1.2` of `*val` after the call. -/
def stores_of {σ : Type} (r : (Int × Nat) × σ) : (Int × List Nat) × σ :=
  ((r.1.1, if r.1.1 ≠ 0 then [] else [r.1.2]), r.2)

/-- Register contents for `fixed_soc`, whose windows all start at `0x1e6e2000`: `config`
at offset `0x180`, `misc` at offset `0x2c`, `strap` at offset `0x70`, `hicrb` at offset
`0x100`, and `0` everywhere else. -/
def probe_regs (config misc strap hicrb : Nat) : Nat → Nat :=
  fun addr =>
    if addr = 0x1e6e2180 then config
    else if addr = 0x1e6e202c then misc
    else if addr = 0x1e6e2070 then strap
    else if addr = 0x1e6e2100 then hicrb
    else 0

/-- The value of `ENOENT` in the Linux `errno.h`. -/
def ENOENT : Int := 2

/-- Modelled from the spec: a session on a bus whose root device node matches no entry
of the table it is looked up in. `soc_device_match_node` of `soc.c`, which is not part of
the sources at hand, reports this as an error of its own ("`NotFound` (no matching device
node for a compatibility table)", distinct from `Unsupported`), here `-ENOENT`; the other
collaborators are those of `fixed_soc`. -/
def notfound_soc : Soc Nat :=
  { fixed_soc ["aspeed,ast2600"] (fun _ => 0) with
    soc_device_match_node := fun _ n => ((-ENOENT, ⟨[], 0⟩), n + 1) }

/-- A session as `fixed_soc`, except that every device has its window at `0xfffffff0`,
sixteen bytes below the top of the 32-bit address space, so that the registers of the
probes lie past the wrap. -/
def high_window_soc (root : List String) (regs : Nat → Nat) : Soc Nat :=
  { fixed_soc root regs with
    soc_device_get_memory := fun _ n => ((0, ⟨0xfffffff0, 0x1000⟩), n + 1) }

/-! # Properties -/

/-! ## Auxiliary facts: bitwise OR of return codes -/

theorem ldiff_zero_right (n : Nat) : Nat.ldiff n 0 = n := by
  apply Nat.eq_of_testBit_eq
  intro i
  simp [Nat.testBit_ldiff]

theorem lor_zero_left (x : Int) : Int.lor 0 x = x := by
  cases x with
  | ofNat n => show ((0 ||| n : Nat) : Int) = n; simp
  | negSucc n => show Int.negSucc (Nat.ldiff n 0) = Int.negSucc n; rw [ldiff_zero_right]

theorem lor_zero_right (x : Int) : Int.lor x 0 = x := by
  cases x with
  | ofNat n => show ((n ||| 0 : Nat) : Int) = n; simp
  | negSucc n => show Int.negSucc (Nat.ldiff n 0) = Int.negSucc n; rw [ldiff_zero_right]

theorem nat_lor_eq_zero (a b : Nat) : a ||| b = 0 ↔ a = 0 ∧ b = 0 := by
  constructor
  · intro h
    constructor
    · apply Nat.eq_of_testBit_eq
      intro i
      have := congrArg (fun x => x.testBit i) h
      simp at this
      simp [this.1]
    · apply Nat.eq_of_testBit_eq
      intro i
      have := congrArg (fun x => x.testBit i) h
      simp at this
      simp [this.2]
  · rintro ⟨rfl, rfl⟩
    rfl

theorem lor_eq_zero (a b : Int) : Int.lor a b = 0 ↔ a = 0 ∧ b = 0 := by
  cases a with
  | ofNat m =>
    cases b with
    | ofNat n =>
      show ((m ||| n : Nat) : Int) = 0 ↔ _
      rw [Int.natCast_eq_zero, nat_lor_eq_zero]
      simp
    | negSucc n =>
      show Int.negSucc _ = 0 ↔ _
      simp
  | negSucc m =>
    cases b with
    | ofNat n => show Int.negSucc _ = 0 ↔ _; simp
    | negSucc n => show Int.negSucc _ = 0 ↔ _; simp

theorem lor4_eq_zero (r a b c d : Int) :
    Int.lor (Int.lor (Int.lor (Int.lor r a) b) c) d = 0 ↔
      r = 0 ∧ a = 0 ∧ b = 0 ∧ c = 0 ∧ d = 0 := by
  simp only [lor_eq_zero]
  tauto

/-! ## The transfer functions run their plans -/

section PlanEq

variable {σ : Type}

theorem or_codes_nil : or_codes [] = 0 := rfl

theorem or_codes_cons (e : SioEv) (l : List SioEv) :
    or_codes (e :: l) = l.foldl (fun acc x => Int.lor acc x.rc) e.rc := by
  simp [or_codes, lor_zero_left]

theorem foldl_lor_eq_zero (l : List SioEv) (a : Int) :
    l.foldl (fun acc x => Int.lor acc x.rc) a = 0 ↔ a = 0 ∧ ∀ e ∈ l, e.rc = 0 := by
  induction l generalizing a with
  | nil => simp
  | cons e l ih =>
    simp only [List.foldl_cons, ih, lor_eq_zero, List.mem_cons, forall_eq_or_imp]
    tauto

theorem or_codes_eq_zero (l : List SioEv) : or_codes l = 0 ↔ ∀ e ∈ l, e.rc = 0 := by
  simp [or_codes, foldl_lor_eq_zero]

theorem or_codes_append_of_zero (a b : List SioEv) (h : or_codes a = 0) :
    or_codes (a ++ b) = or_codes b := by
  unfold or_codes at *
  rw [List.foldl_append, h]

theorem plan_result_nil (t : Sio σ) (s : σ) : plan_result t [] s = (0, s) := rfl

theorem plan_result_one (t : Sio σ) (op : SioOp) (gs : List (List SioOp)) (s : σ) :
    plan_result t ([op] :: gs) s =
      if (issue t op s).1.1 ≠ 0 then ((issue t op s).1.1, (issue t op s).2)
      else plan_result t gs (issue t op s).2 := by
  unfold plan_result
  simp only [run_plan, run_group, or_codes_cons, List.foldl_nil]
  split_ifs with h
  · simp [or_codes_cons]
  · rw [or_codes_append_of_zero _ _ (by simpa [or_codes_cons] using h)]

theorem plan_result_four (t : Sio σ) (o0 o1 o2 o3 : SioOp) (gs : List (List SioOp)) (s : σ) :
    plan_result t ([o0, o1, o2, o3] :: gs) s =
      if Int.lor (Int.lor (Int.lor (Int.lor 0 (issue t o0 s).1.1)
          (issue t o1 (issue t o0 s).2).1.1)
          (issue t o2 (issue t o1 (issue t o0 s).2).2).1.1)
          (issue t o3 (issue t o2 (issue t o1 (issue t o0 s).2).2).2).1.1 ≠ 0 then
        (Int.lor (Int.lor (Int.lor (Int.lor 0 (issue t o0 s).1.1)
          (issue t o1 (issue t o0 s).2).1.1)
          (issue t o2 (issue t o1 (issue t o0 s).2).2).1.1)
          (issue t o3 (issue t o2 (issue t o1 (issue t o0 s).2).2).2).1.1,
          (issue t o3 (issue t o2 (issue t o1 (issue t o0 s).2).2).2).2)
      else plan_result t gs (issue t o3 (issue t o2 (issue t o1 (issue t o0 s).2).2).2).2 := by
  unfold plan_result
  simp only [run_plan, run_group, or_codes, List.foldl_cons, List.foldl_nil]
  split_ifs with h
  · rfl
  · have h2 := not_not.mp h
    have := fun b => or_codes_append_of_zero (run_group t [o0, o1, o2, o3] s).1 b
      (by simpa only [run_group, or_codes, List.foldl_cons, List.foldl_nil] using h2)
    simp only [run_group, or_codes, List.foldl_cons, List.foldl_nil] at this
    simp only [this]

theorem ilpcb_writel_eq_plan (t : Sio σ) (addr val : Nat) (s : σ) :
    ilpcb_writel t addr val s = relock t (plan_result t (ilpcb_writel_plan addr val) s) := by
  simp only [ilpcb_writel, ilpcb_writel_plan, prologue, addr_group, List.cons_append,
    List.nil_append, Nat.shiftRight_zero]
  apply congrArg (relock t)
  rw [plan_result_one]
  refine ite_congr rfl (fun _ => rfl) (fun _ => ?_)
  rw [plan_result_one]
  refine ite_congr rfl (fun _ => rfl) (fun _ => ?_)
  rw [plan_result_one]
  refine ite_congr rfl (fun _ => rfl) (fun _ => ?_)
  rw [plan_result_one]
  refine ite_congr rfl (fun _ => rfl) (fun h3 => ?_)
  simp only [issue] at h3 ⊢
  rw [plan_result_four, not_not.mp h3]
  refine ite_congr rfl (fun _ => rfl) (fun h4 => ?_)
  simp only [issue] at h4 ⊢
  rw [plan_result_four, not_not.mp h4]
  refine ite_congr rfl (fun _ => rfl) (fun _ => ?_)
  rw [plan_result_one, plan_result_nil]
  simp only [issue]
  split_ifs with h6
  · rfl
  · simp [not_not.mp h6]

theorem readl_store_fail (val : Nat) (evs : List SioEv) (h : or_codes evs ≠ 0) :
    readl_store val evs = val := by
  simp [readl_store, h]

theorem or_codes_append_ne (a b : List SioEv) (h : or_codes b ≠ 0) : or_codes (a ++ b) ≠ 0 := by
  intro h2
  rw [or_codes_eq_zero] at h2
  apply h
  rw [or_codes_eq_zero]
  intro e he
  exact h2 e (List.mem_append_right _ he)

theorem readl_result_one (t : Sio σ) (val : Nat) (pre : List SioEv) (op : SioOp)
    (gs : List (List SioOp)) (s : σ) :
    readl_result t val pre ([op] :: gs) s =
      if (issue t op s).1.1 ≠ 0 then (((issue t op s).1.1, val), (issue t op s).2)
      else readl_result t val (pre ++ [⟨op, (issue t op s).1.1, (issue t op s).1.2⟩]) gs
        (issue t op s).2 := by
  unfold readl_result
  simp only [run_plan, run_group, or_codes_cons, List.foldl_nil]
  split_ifs with h
  · rw [readl_store_fail]
    · simp [or_codes_cons]
    · apply or_codes_append_ne
      simpa [or_codes_cons] using h
  · rw [or_codes_append_of_zero _ _ (by simpa [or_codes_cons] using h)]
    simp

theorem readl_result_four (t : Sio σ) (val : Nat) (pre : List SioEv) (o0 o1 o2 o3 : SioOp)
    (gs : List (List SioOp)) (s : σ) :
    readl_result t val pre ([o0, o1, o2, o3] :: gs) s =
      if Int.lor (Int.lor (Int.lor (Int.lor 0 (issue t o0 s).1.1)
          (issue t o1 (issue t o0 s).2).1.1)
          (issue t o2 (issue t o1 (issue t o0 s).2).2).1.1)
          (issue t o3 (issue t o2 (issue t o1 (issue t o0 s).2).2).2).1.1 ≠ 0 then
        ((Int.lor (Int.lor (Int.lor (Int.lor 0 (issue t o0 s).1.1)
          (issue t o1 (issue t o0 s).2).1.1)
          (issue t o2 (issue t o1 (issue t o0 s).2).2).1.1)
          (issue t o3 (issue t o2 (issue t o1 (issue t o0 s).2).2).2).1.1, val),
          (issue t o3 (issue t o2 (issue t o1 (issue t o0 s).2).2).2).2)
      else readl_result t val (pre ++ (run_group t [o0, o1, o2, o3] s).1) gs
        (issue t o3 (issue t o2 (issue t o1 (issue t o0 s).2).2).2).2 := by
  unfold readl_result
  have hg : or_codes (run_group t [o0, o1, o2, o3] s).1 =
      Int.lor (Int.lor (Int.lor (Int.lor 0 (issue t o0 s).1.1)
          (issue t o1 (issue t o0 s).2).1.1)
          (issue t o2 (issue t o1 (issue t o0 s).2).2).1.1)
          (issue t o3 (issue t o2 (issue t o1 (issue t o0 s).2).2).2).1.1 := rfl
  have hs : (run_group t [o0, o1, o2, o3] s).2 =
      (issue t o3 (issue t o2 (issue t o1 (issue t o0 s).2).2).2).2 := rfl
  rw [← hg, ← hs]
  simp only [run_plan]
  split_ifs with h
  · rw [readl_store_fail _ _ (or_codes_append_ne _ _ h)]
  · rw [or_codes_append_of_zero _ _ (not_not.mp h), List.append_assoc]

theorem readl_result_nil (t : Sio σ) (val : Nat) (pre : List SioEv) (s : σ) :
    readl_result t val pre [] s = ((0, readl_store val pre), s) := by
  simp [readl_result, run_plan, or_codes_nil]

theorem ilpcb_readl_eq_plan (t : Sio σ) (addr val : Nat) (s : σ) :
    ilpcb_readl t addr val s = relock t (readl_result t val [] (ilpcb_readl_plan addr) s) := by
  simp only [ilpcb_readl, ilpcb_readl_plan, prologue, addr_group, List.cons_append,
    List.nil_append]
  apply congrArg (relock t)
  rw [readl_result_one]
  refine ite_congr rfl (fun _ => rfl) (fun h0 => ?_)
  rw [readl_result_one]
  refine ite_congr rfl (fun _ => rfl) (fun h1 => ?_)
  rw [readl_result_one]
  refine ite_congr rfl (fun _ => rfl) (fun h2 => ?_)
  rw [readl_result_one]
  refine ite_congr rfl (fun _ => rfl) (fun h3 => ?_)
  simp only [issue] at h0 h1 h2 h3 ⊢
  rw [readl_result_four, not_not.mp h3]
  refine ite_congr rfl (fun _ => rfl) (fun h4 => ?_)
  simp only [issue] at h4 ⊢
  rw [readl_result_one]
  refine ite_congr rfl (fun _ => rfl) (fun h5 => ?_)
  simp only [issue] at h5 ⊢
  rw [readl_result_four, not_not.mp h5, readl_result_nil]
  simp only [issue, run_group]
  split_ifs with h6
  · rfl
  · rw [not_not.mp h6]
    congr 2
    have h4' := (lor4_eq_zero _ _ _ _ _).mp (not_not.mp h4)
    have h6' := (lor4_eq_zero _ _ _ _ _).mp (not_not.mp h6)
    simp [readl_store, data_reads, or_codes_cons, not_not.mp h0, not_not.mp h1, not_not.mp h2,
      not_not.mp h3, not_not.mp h5, h4'.2.1, h4'.2.2.1, h4'.2.2.2.1, h4'.2.2.2.2,
      h6'.2.1, h6'.2.2.1, h6'.2.2.2.1, h6'.2.2.2.2, lor_zero_left]

theorem ilpcb_write_loop_eq_plan (t : Sio σ) (addr : Nat) (buf : Nat → Nat) :
    ∀ (n i : Nat) (s : σ),
      ilpcb_write_loop t addr buf n 0 i s = plan_result t (write_iters addr buf n i) s
  | 0, _, _ => rfl
  | n + 1, i, s => by
    simp only [ilpcb_write_loop, write_iters, write_iter, addr_group, List.cons_append,
      List.nil_append]
    rw [plan_result_four]
    refine ite_congr rfl (fun _ => rfl) (fun _ => ?_)
    rw [plan_result_one]
    refine ite_congr rfl (fun _ => rfl) (fun _ => ?_)
    rw [plan_result_one]
    refine ite_congr rfl (fun _ => rfl) (fun h => ?_)
    simp only [issue] at h ⊢
    rw [not_not.mp h]
    exact ilpcb_write_loop_eq_plan t addr buf n (i + 1) _

theorem ilpcb_read_loop_eq_plan (t : Sio σ) (addr : Nat) :
    ∀ (n : Nat) (buf : List Nat) (s : σ),
      (fun r : (Int × List Nat) × σ => (r.1.1, r.2)) (ilpcb_read_loop t addr n 0 buf s) =
        plan_result t (read_iters addr n) s
  | 0, _, _ => rfl
  | n + 1, buf, s => by
    simp only [ilpcb_read_loop, read_iters, read_iter, addr_group, List.cons_append,
      List.nil_append]
    rw [plan_result_four, apply_ite (fun r : (Int × List Nat) × σ => (r.1.1, r.2))]
    refine ite_congr rfl (fun _ => rfl) (fun _ => ?_)
    rw [plan_result_one, apply_ite (fun r : (Int × List Nat) × σ => (r.1.1, r.2))]
    refine ite_congr rfl (fun _ => rfl) (fun _ => ?_)
    rw [plan_result_one, apply_ite (fun r : (Int × List Nat) × σ => (r.1.1, r.2))]
    refine ite_congr rfl (fun _ => rfl) (fun h => ?_)
    simp only [issue] at h ⊢
    rw [not_not.mp h]
    exact ilpcb_read_loop_eq_plan t addr n _ _

theorem ilpcb_write_eq_plan (t : Sio σ) (addr : Nat) (buf : Nat → Nat) (len : Nat) (s : σ) :
    ilpcb_write t addr buf len s =
      (fun r : Int × σ => (if r.1 ≠ 0 then r.1 else int_of_size_t len, r.2))
        (relock t (plan_result t (ilpcb_write_plan addr buf len) s)) := by
  unfold ilpcb_write
  apply congrArg (fun b : Int × σ =>
    (fun r : Int × σ => (if r.1 ≠ 0 then r.1 else int_of_size_t len, r.2)) (relock t b))
  simp only [ilpcb_write_plan, prologue, List.cons_append, List.nil_append]
  rw [plan_result_one]
  refine ite_congr rfl (fun _ => rfl) (fun _ => ?_)
  rw [plan_result_one]
  refine ite_congr rfl (fun _ => rfl) (fun _ => ?_)
  rw [plan_result_one]
  refine ite_congr rfl (fun _ => rfl) (fun _ => ?_)
  rw [plan_result_one]
  refine ite_congr rfl (fun _ => rfl) (fun h => ?_)
  simp only [issue] at h ⊢
  rw [not_not.mp h]
  exact ilpcb_write_loop_eq_plan t addr buf len 0 _

theorem read_tail (t : Sio σ) (len : Nat) (b : (Int × List Nat) × σ) :
    (fun r : (Int × List Nat) × σ => (r.1.1, r.2))
        (let r := relock t b
         ((if r.1.1 ≠ 0 then r.1.1 else int_of_size_t len, r.1.2), r.2)) =
      (fun r : Int × σ => (if r.1 ≠ 0 then r.1 else int_of_size_t len, r.2))
        (relock t ((fun r : (Int × List Nat) × σ => (r.1.1, r.2)) b)) := rfl

theorem ilpcb_read_eq_plan (t : Sio σ) (addr len : Nat) (s : σ) :
    (fun r : (Int × List Nat) × σ => (r.1.1, r.2)) (ilpcb_read t addr len s) =
      (fun r : Int × σ => (if r.1 ≠ 0 then r.1 else int_of_size_t len, r.2))
        (relock t (plan_result t (ilpcb_read_plan addr len) s)) := by
  unfold ilpcb_read
  refine (read_tail t len _).trans ?_
  apply congrArg (fun b : Int × σ =>
    (fun r : Int × σ => (if r.1 ≠ 0 then r.1 else int_of_size_t len, r.2)) (relock t b))
  simp only [ilpcb_read_plan, prologue, List.cons_append, List.nil_append]
  rw [plan_result_one, apply_ite (fun r : (Int × List Nat) × σ => (r.1.1, r.2))]
  refine ite_congr rfl (fun _ => rfl) (fun _ => ?_)
  rw [plan_result_one, apply_ite (fun r : (Int × List Nat) × σ => (r.1.1, r.2))]
  refine ite_congr rfl (fun _ => rfl) (fun _ => ?_)
  rw [plan_result_one, apply_ite (fun r : (Int × List Nat) × σ => (r.1.1, r.2))]
  refine ite_congr rfl (fun _ => rfl) (fun _ => ?_)
  rw [plan_result_one, apply_ite (fun r : (Int × List Nat) × σ => (r.1.1, r.2))]
  refine ite_congr rfl (fun _ => rfl) (fun h => ?_)
  simp only [issue] at h ⊢
  rw [not_not.mp h]
  exact ilpcb_read_loop_eq_plan t addr len _ _

end PlanEq

/-! ## The log of an instrumented run -/

section Logged

variable {σ : Type}

theorem issue_logged (t : Sio σ) (op : SioOp) (s : σ) (tr : List SioEv) :
    issue t.logged op (s, tr) =
      ((issue t op s).1,
        ((issue t op s).2, tr ++ [⟨op, (issue t op s).1.1, (issue t op s).1.2⟩])) := by
  cases op <;> rfl

theorem run_group_logged (t : Sio σ) :
    ∀ (ops : List SioOp) (s : σ) (tr : List SioEv),
      run_group t.logged ops (s, tr) =
        ((run_group t ops s).1, ((run_group t ops s).2, tr ++ (run_group t ops s).1))
  | [], s, tr => by simp [run_group]
  | op :: ops, s, tr => by
    simp only [run_group, issue_logged, run_group_logged t ops, List.append_assoc,
      List.singleton_append]

theorem run_plan_logged (t : Sio σ) :
    ∀ (plan : List (List SioOp)) (s : σ) (tr : List SioEv),
      run_plan t.logged plan (s, tr) =
        ((run_plan t plan s).1, ((run_plan t plan s).2, tr ++ (run_plan t plan s).1))
  | [], s, tr => by simp [run_plan]
  | g :: gs, s, tr => by
    simp only [run_plan, run_group_logged, run_plan_logged t gs]
    split_ifs <;> simp

theorem relock_logged {α : Type} (t : Sio σ) (a : α) (s : σ) (tr : List SioEv) :
    relock t.logged (a, (s, tr)) =
      (a, ((t.sio_lock s).2, tr ++ [⟨SioOp.lock, (t.sio_lock s).1, 0⟩])) := rfl

theorem plan_result_logged (t : Sio σ) (plan : List (List SioOp)) (s : σ) (tr : List SioEv) :
    plan_result t.logged plan (s, tr) =
      (or_codes (run_plan t plan s).1, ((run_plan t plan s).2, tr ++ (run_plan t plan s).1)) := by
  simp only [plan_result, run_plan_logged]

theorem readl_result_logged (t : Sio σ) (val : Nat) (plan : List (List SioOp)) (s : σ)
    (tr : List SioEv) :
    readl_result t.logged val [] plan (s, tr) =
      ((or_codes (run_plan t plan s).1, readl_store val (run_plan t plan s).1),
        ((run_plan t plan s).2, tr ++ (run_plan t plan s).1)) := by
  simp only [readl_result, run_plan_logged, List.nil_append]

/-- The instrumented `ilpcb_read`: its return value and its log, in terms of its plan. -/
theorem read_run (t : Sio σ) (addr len : Nat) (s : σ) :
    (ilpcb_read t.logged addr len (s, [])).1.1 =
        (if or_codes (run_plan t (ilpcb_read_plan addr len) s).1 ≠ 0
          then or_codes (run_plan t (ilpcb_read_plan addr len) s).1 else int_of_size_t len) ∧
      read_log t addr len s = (run_plan t (ilpcb_read_plan addr len) s).1 ++
        [⟨SioOp.lock, (t.sio_lock (run_plan t (ilpcb_read_plan addr len) s).2).1, 0⟩] := by
  have h := ilpcb_read_eq_plan t.logged addr len (s, [])
  rw [plan_result_logged, relock_logged] at h
  simp only [List.nil_append] at h
  constructor
  · exact congrArg Prod.fst h
  · exact congrArg (fun r => r.2.2) h

/-- The instrumented `ilpcb_write`: its return value and its log, in terms of its plan. -/
theorem write_run (t : Sio σ) (addr : Nat) (buf : Nat → Nat) (len : Nat) (s : σ) :
    (ilpcb_write t.logged addr buf len (s, [])).1 =
        (if or_codes (run_plan t (ilpcb_write_plan addr buf len) s).1 ≠ 0
          then or_codes (run_plan t (ilpcb_write_plan addr buf len) s).1
          else int_of_size_t len) ∧
      write_log t addr buf len s = (run_plan t (ilpcb_write_plan addr buf len) s).1 ++
        [⟨SioOp.lock, (t.sio_lock (run_plan t (ilpcb_write_plan addr buf len) s).2).1, 0⟩] := by
  have h := ilpcb_write_eq_plan t.logged addr buf len (s, [])
  rw [plan_result_logged, relock_logged] at h
  simp only [List.nil_append] at h
  constructor
  · exact congrArg Prod.fst h
  · exact congrArg (fun r => r.2.2) h

/-- The instrumented `ilpcb_readl`: its return value, the content of `*val` and its log,
in terms of its plan. -/
theorem readl_run (t : Sio σ) (addr val : Nat) (s : σ) :
    (ilpcb_readl t.logged addr val (s, [])).1 =
        (or_codes (run_plan t (ilpcb_readl_plan addr) s).1,
          readl_store val (run_plan t (ilpcb_readl_plan addr) s).1) ∧
      readl_log t addr val s = (run_plan t (ilpcb_readl_plan addr) s).1 ++
        [⟨SioOp.lock, (t.sio_lock (run_plan t (ilpcb_readl_plan addr) s).2).1, 0⟩] := by
  have h := ilpcb_readl_eq_plan t.logged addr val (s, [])
  rw [readl_result_logged, relock_logged] at h
  simp only [List.nil_append] at h
  constructor
  · exact congrArg Prod.fst h
  · exact congrArg (fun r => r.2.2) h

/-- The instrumented `ilpcb_writel`: its return value and its log, in terms of its plan. -/
theorem writel_run (t : Sio σ) (addr val : Nat) (s : σ) :
    (ilpcb_writel t.logged addr val (s, [])).1 =
        or_codes (run_plan t (ilpcb_writel_plan addr val) s).1 ∧
      writel_log t addr val s = (run_plan t (ilpcb_writel_plan addr val) s).1 ++
        [⟨SioOp.lock, (t.sio_lock (run_plan t (ilpcb_writel_plan addr val) s).2).1, 0⟩] := by
  have h := ilpcb_writel_eq_plan t.logged addr val (s, [])
  rw [plan_result_logged, relock_logged] at h
  simp only [List.nil_append] at h
  constructor
  · exact congrArg Prod.fst h
  · exact congrArg (fun r => r.2.2) h

end Logged

/-! ## What the run of a plan looks like -/

section PlanFacts

variable {σ : Type}

theorem run_group_ops (t : Sio σ) :
    ∀ (g : List SioOp) (s : σ), (run_group t g s).1.map (fun e => e.op) = g
  | [], _ => rfl
  | op :: ops, s => by simp [run_group, run_group_ops t ops]

theorem run_plan_ops_initial (t : Sio σ) :
    ∀ (plan : List (List SioOp)) (s : σ),
      (run_plan t plan s).1.map (fun e => e.op) <+: plan.flatten
  | [], _ => by simp [run_plan]
  | g :: gs, s => by
    simp only [run_plan, List.flatten_cons]
    split_ifs with h
    · rw [run_group_ops]
      exact List.prefix_append _ _
    · rw [List.map_append, run_group_ops]
      exact (List.prefix_append_right_inj g).mpr (run_plan_ops_initial t gs _)

theorem run_plan_ops_complete (t : Sio σ) :
    ∀ (plan : List (List SioOp)) (s : σ), or_codes (run_plan t plan s).1 = 0 →
      (run_plan t plan s).1.map (fun e => e.op) = plan.flatten
  | [], _, _ => by simp [run_plan]
  | g :: gs, s, h => by
    simp only [run_plan, List.flatten_cons] at h ⊢
    split_ifs at h ⊢ with h0
    · exact absurd h h0
    · rw [or_codes_append_of_zero _ _ (not_not.mp h0)] at h
      rw [List.map_append, run_group_ops, run_plan_ops_complete t gs _ h]

theorem stops_after_group_append (a b : List SioEv) (h : ∀ e ∈ a, e.rc = 0) :
    stops_after_group (a ++ b) = stops_after_group b := by
  induction a with
  | nil => rfl
  | cons e a ih =>
    have ih2 := ih (fun x hx => h x (List.mem_cons_of_mem _ hx))
    show ((e.rc == 0 || (a ++ b).map (fun x => x.op.shape) == group_rest e.op) &&
      stops_after_group (a ++ b)) = _
    rw [ih2]
    simp [h e (List.mem_cons_self _ _)]

theorem run_group_stops (t : Sio σ) :
    ∀ (g : List SioOp) (s : σ), well_grouped g = true →
      stops_after_group (run_group t g s).1 = true
  | [], _, _ => rfl
  | op :: ops, s, h => by
    simp only [well_grouped, Bool.and_eq_true, beq_iff_eq] at h
    simp only [run_group, stops_after_group, Bool.and_eq_true, Bool.or_eq_true, beq_iff_eq]
    refine ⟨Or.inr ?_, run_group_stops t ops _ h.2⟩
    rw [← h.1]
    have := congrArg (List.map SioOp.shape) (run_group_ops t ops (issue t op s).2)
    rw [List.map_map] at this
    exact this

theorem run_plan_stops (t : Sio σ) :
    ∀ (plan : List (List SioOp)) (s : σ), (∀ g ∈ plan, well_grouped g = true) →
      stops_after_group (run_plan t plan s).1 = true
  | [], _, _ => rfl
  | g :: gs, s, h => by
    simp only [run_plan]
    split_ifs with h0
    · exact run_group_stops t g s (h g (List.mem_cons_self _ _))
    · rw [stops_after_group_append _ _ ((or_codes_eq_zero _).mp (not_not.mp h0))]
      exact run_plan_stops t gs _ (fun x hx => h x (List.mem_cons_of_mem _ hx))

theorem run_plan_no_lock (t : Sio σ) (plan : List (List SioOp)) (s : σ)
    (h : SioOp.lock ∉ plan.flatten) : ∀ e ∈ (run_plan t plan s).1, e.op ≠ SioOp.lock := by
  intro e he heq
  apply h
  apply (run_plan_ops_initial t plan s).subset
  rw [← heq]
  exact List.mem_map_of_mem (fun e => e.op) he

theorem read_iters_grouped (addr : Nat) :
    ∀ n : Nat, ∀ g ∈ read_iters addr n, well_grouped g = true
  | 0 => by simp [read_iters]
  | n + 1 => by
    intro g hg
    simp only [read_iters, read_iter, List.cons_append, List.nil_append, List.mem_cons] at hg
    rcases hg with rfl | rfl | rfl | hg
    · rfl
    · rfl
    · rfl
    · exact read_iters_grouped addr n g hg

theorem write_iters_grouped (addr : Nat) (buf : Nat → Nat) :
    ∀ n i : Nat, ∀ g ∈ write_iters addr buf n i, well_grouped g = true
  | 0, _ => by simp [write_iters]
  | n + 1, i => by
    intro g hg
    simp only [write_iters, write_iter, List.cons_append, List.nil_append, List.mem_cons] at hg
    rcases hg with rfl | rfl | rfl | hg
    · rfl
    · rfl
    · rfl
    · exact write_iters_grouped addr buf n (i + 1) g hg

theorem prologue_grouped (width : Nat) : ∀ g ∈ prologue width, well_grouped g = true := by
  intro g hg
  simp only [prologue, List.mem_cons, List.mem_singleton, List.not_mem_nil, or_false] at hg
  rcases hg with rfl | rfl | rfl | rfl <;> simp [well_grouped, group_rest, SioOp.shape]

theorem read_plan_grouped (addr len : Nat) :
    ∀ g ∈ ilpcb_read_plan addr len, well_grouped g = true := by
  intro g hg
  rcases List.mem_append.mp hg with h | h
  · exact prologue_grouped 0 g h
  · exact read_iters_grouped addr len g h

theorem write_plan_grouped (addr : Nat) (buf : Nat → Nat) (len : Nat) :
    ∀ g ∈ ilpcb_write_plan addr buf len, well_grouped g = true := by
  intro g hg
  rcases List.mem_append.mp hg with h | h
  · exact prologue_grouped 0 g h
  · exact write_iters_grouped addr buf len 0 g h

theorem readl_plan_grouped (addr : Nat) :
    ∀ g ∈ ilpcb_readl_plan addr, well_grouped g = true := by
  intro g hg
  rcases List.mem_append.mp hg with h | h
  · exact prologue_grouped 2 g h
  · simp only [List.mem_cons, List.mem_singleton, List.not_mem_nil, or_false] at h
    rcases h with rfl | rfl | rfl <;> rfl

theorem writel_plan_grouped (addr val : Nat) :
    ∀ g ∈ ilpcb_writel_plan addr val, well_grouped g = true := by
  intro g hg
  rcases List.mem_append.mp hg with h | h
  · exact prologue_grouped 2 g h
  · simp only [List.mem_cons, List.mem_singleton, List.not_mem_nil, or_false] at h
    rcases h with rfl | rfl | rfl <;> rfl

theorem read_iters_no_lock (addr : Nat) : ∀ n : Nat, SioOp.lock ∉ (read_iters addr n).flatten
  | 0 => by simp [read_iters]
  | n + 1 => by
    have := read_iters_no_lock addr n
    simp [read_iters, read_iter, addr_group, this]

theorem write_iters_no_lock (addr : Nat) (buf : Nat → Nat) :
    ∀ n i : Nat, SioOp.lock ∉ (write_iters addr buf n i).flatten
  | 0, _ => by simp [write_iters]
  | n + 1, i => by
    have := write_iters_no_lock addr buf n (i + 1)
    simp [write_iters, write_iter, addr_group, this]

theorem read_plan_no_lock (addr len : Nat) : SioOp.lock ∉ (ilpcb_read_plan addr len).flatten := by
  have := read_iters_no_lock addr len
  simp [ilpcb_read_plan, prologue, this]

theorem write_plan_no_lock (addr : Nat) (buf : Nat → Nat) (len : Nat) :
    SioOp.lock ∉ (ilpcb_write_plan addr buf len).flatten := by
  have := write_iters_no_lock addr buf len 0
  simp [ilpcb_write_plan, prologue, this]

theorem readl_plan_no_lock (addr : Nat) : SioOp.lock ∉ (ilpcb_readl_plan addr).flatten := by
  simp [ilpcb_readl_plan, prologue, addr_group]

theorem writel_plan_no_lock (addr val : Nat) :
    SioOp.lock ∉ (ilpcb_writel_plan addr val).flatten := by
  simp [ilpcb_writel_plan, prologue, addr_group]

theorem lock_state_relocked (b : Bool) (body : List SioEv) :
    lock_state b (body ++ [⟨SioOp.lock, 0, 0⟩]) = true := by
  simp [lock_state, lock_step]

theorem foldl_lor_of_zero (l : List SioEv) (a : Int) (h : ∀ x ∈ l, x.rc = 0) :
    l.foldl (fun acc x => Int.lor acc x.rc) a = a := by
  induction l generalizing a with
  | nil => rfl
  | cons e l ih =>
    rw [List.foldl_cons, h e (List.mem_cons_self _ _), lor_zero_right]
    exact ih a (fun x hx => h x (List.mem_cons_of_mem _ hx))

theorem or_codes_single_failure (pre post : List SioEv) (e : SioEv)
    (hpre : ∀ x ∈ pre, x.rc = 0) (hpost : ∀ x ∈ post, x.rc = 0) :
    or_codes (pre ++ e :: post) = e.rc := by
  rw [or_codes_append_of_zero _ _ ((or_codes_eq_zero pre).mpr hpre), or_codes_cons]
  exact foldl_lor_of_zero post e.rc hpost

theorem int_of_size_t_small (len : Nat) (h : len < 2 ^ 31) : int_of_size_t len = len := by
  unfold int_of_size_t
  rw [Nat.mod_eq_of_lt (by omega)]
  push_cast
  ring

theorem read_rc (t : Sio σ) (addr len : Nat) (s : σ) :
    (ilpcb_read t addr len s).1.1 =
      (if or_codes (read_log t addr len s).dropLast ≠ 0
        then or_codes (read_log t addr len s).dropLast else int_of_size_t len) := by
  rw [(read_run t addr len s).2, List.dropLast_concat]
  exact congrArg Prod.fst (ilpcb_read_eq_plan t addr len s)

theorem write_rc (t : Sio σ) (addr : Nat) (buf : Nat → Nat) (len : Nat) (s : σ) :
    (ilpcb_write t addr buf len s).1 =
      (if or_codes (write_log t addr buf len s).dropLast ≠ 0
        then or_codes (write_log t addr buf len s).dropLast else int_of_size_t len) := by
  rw [(write_run t addr buf len s).2, List.dropLast_concat]
  exact congrArg Prod.fst (ilpcb_write_eq_plan t addr buf len s)

theorem readl_rc_val (t : Sio σ) (addr val : Nat) (s : σ) :
    (ilpcb_readl t addr val s).1 =
      (or_codes (readl_log t addr val s).dropLast,
        readl_store val (readl_log t addr val s).dropLast) := by
  rw [(readl_run t addr val s).2, List.dropLast_concat]
  have h := congrArg Prod.fst (ilpcb_readl_eq_plan t addr val s)
  simpa [relock, readl_result] using h

theorem writel_rc (t : Sio σ) (addr val : Nat) (s : σ) :
    (ilpcb_writel t addr val s).1 = or_codes (writel_log t addr val s).dropLast := by
  rw [(writel_run t addr val s).2, List.dropLast_concat]
  exact congrArg Prod.fst (ilpcb_writel_eq_plan t addr val s)

/-- Instrumenting the transport does not change what the transfer functions return. -/
theorem logged_same_result (t : Sio σ) (addr len val : Nat) (buf : Nat → Nat) (s : σ) :
    (ilpcb_read t.logged addr len (s, [])).1.1 = (ilpcb_read t addr len s).1.1 ∧
      (ilpcb_write t.logged addr buf len (s, [])).1 = (ilpcb_write t addr buf len s).1 ∧
      (ilpcb_readl t.logged addr val (s, [])).1 = (ilpcb_readl t addr val s).1 ∧
      (ilpcb_writel t.logged addr val (s, [])).1 = (ilpcb_writel t addr val s).1 := by
  refine ⟨?_, ?_, ?_, ?_⟩
  · rw [read_rc t addr len s, (read_run t addr len s).1, (read_run t addr len s).2,
      List.dropLast_concat]
  · rw [write_rc t addr buf len s, (write_run t addr buf len s).1,
      (write_run t addr buf len s).2, List.dropLast_concat]
  · rw [readl_rc_val t addr val s, (readl_run t addr val s).1, (readl_run t addr val s).2,
      List.dropLast_concat]
  · rw [writel_rc t addr val s, (writel_run t addr val s).1, (writel_run t addr val s).2,
      List.dropLast_concat]

theorem read_iters_flatten (addr : Nat) :
    ∀ n : Nat, (read_iters addr n).flatten =
      (List.replicate n
        [SioOp.writeb 0xf0 ((addr >>> 24) % 256), SioOp.writeb 0xf1 ((addr >>> 16) % 256),
          SioOp.writeb 0xf2 ((addr >>> 8) % 256), SioOp.writeb 0xf3 (addr % 256),
          SioOp.readb 0xfe, SioOp.readb 0xf7]).flatten
  | 0 => rfl
  | n + 1 => by
    rw [read_iters, List.flatten_append, read_iters_flatten addr n, List.replicate_succ,
      List.flatten_cons]
    rfl

theorem write_iters_flatten (addr : Nat) (buf : Nat → Nat) :
    ∀ n i : Nat, (write_iters addr buf n i).flatten =
      ((List.range' i n).map (fun j =>
        [SioOp.writeb 0xf0 ((addr >>> 24) % 256), SioOp.writeb 0xf1 ((addr >>> 16) % 256),
          SioOp.writeb 0xf2 ((addr >>> 8) % 256), SioOp.writeb 0xf3 (addr % 256),
          SioOp.writeb 0xf7 (buf j % 256), SioOp.writeb 0xfe 0xcf])).flatten
  | 0, _ => rfl
  | n + 1, i => by
    rw [write_iters, List.flatten_append, write_iters_flatten addr buf n (i + 1),
      List.range'_succ, List.map_cons, List.flatten_cons]
    rfl

theorem read_plan_flatten (addr len : Nat) :
    (ilpcb_read_plan addr len).flatten =
      [SioOp.unlock, SioOp.select sio_dev.sio_ilpc, SioOp.writeb 0x30 0x01,
        SioOp.writeb 0xf8 0] ++
      (List.replicate len
        [SioOp.writeb 0xf0 ((addr >>> 24) % 256), SioOp.writeb 0xf1 ((addr >>> 16) % 256),
          SioOp.writeb 0xf2 ((addr >>> 8) % 256), SioOp.writeb 0xf3 (addr % 256),
          SioOp.readb 0xfe, SioOp.readb 0xf7]).flatten := by
  rw [ilpcb_read_plan, List.flatten_append, read_iters_flatten]
  rfl

theorem write_plan_flatten (addr : Nat) (buf : Nat → Nat) (len : Nat) :
    (ilpcb_write_plan addr buf len).flatten =
      [SioOp.unlock, SioOp.select sio_dev.sio_ilpc, SioOp.writeb 0x30 0x01,
        SioOp.writeb 0xf8 0] ++
      ((List.range len).map (fun j =>
        [SioOp.writeb 0xf0 ((addr >>> 24) % 256), SioOp.writeb 0xf1 ((addr >>> 16) % 256),
          SioOp.writeb 0xf2 ((addr >>> 8) % 256), SioOp.writeb 0xf3 (addr % 256),
          SioOp.writeb 0xf7 (buf j % 256), SioOp.writeb 0xfe 0xcf])).flatten := by
  rw [ilpcb_write_plan, List.flatten_append, write_iters_flatten, List.range_eq_range']
  rfl

theorem all_ok_dropLast (l : List SioEv) (h : ∀ e ∈ l, e.rc = 0) :
    ∀ e ∈ l.dropLast, e.rc = 0 :=
  fun e he => h e (List.mem_of_mem_dropLast he)

/-- The accumulation of `ilpcb_readl`, `extracted = (extracted << 8) | data` four times from
`0` in 32 bits, as a sum. -/
theorem shl8_or (x d : Nat) : ((x <<< 8) % 2 ^ 32) ||| (d % 256) = 256 * (x % 2 ^ 24) + d % 256 := by
  have h1 : (x <<< 8) % 2 ^ 32 = 2 ^ 8 * (x % 2 ^ 24) := by
    rw [Nat.shiftLeft_eq]
    omega
  rw [h1, ← Nat.mul_add_lt_is_or (Nat.mod_lt _ (by norm_num))]

theorem shl8_or_lit (x d : Nat) :
    (x <<< 8 % 4294967296) ||| (d % 256) = 256 * (x % 16777216) + d % 256 :=
  shl8_or x d

theorem accumulate_bytes (d0 d1 d2 d3 : Nat) :
    ((((((((0 <<< 8) % 2 ^ 32) ||| (d0 % 256)) <<< 8) % 2 ^ 32 ||| (d1 % 256)) <<< 8) % 2 ^ 32
      ||| (d2 % 256)) <<< 8) % 2 ^ 32 ||| (d3 % 256) =
      (d0 % 256) * 2 ^ 24 + (d1 % 256) * 2 ^ 16 + (d2 % 256) * 2 ^ 8 + d3 % 256 := by
  simp only [shl8_or]
  omega

theorem flat_or_bytes (b0 b1 b2 b3 : Nat) (h1 : b1 < 256) (h2 : b2 < 256)
    (h3 : b3 < 256) :
    (b0 <<< 24) ||| (b1 <<< 16) ||| (b2 <<< 8) ||| b3 =
      b0 * 2 ^ 24 + b1 * 2 ^ 16 + b2 * 2 ^ 8 + b3 := by
  simp only [Nat.shiftLeft_eq]
  have k1 := @Nat.mul_add_lt_is_or 24 (b1 * 2 ^ 16) (by omega) b0
  have k2 := @Nat.mul_add_lt_is_or 16 (b2 * 2 ^ 8) (by omega) (b0 * 2 ^ 8 + b1)
  have k3 := @Nat.mul_add_lt_is_or 8 b3 (by omega) (b0 * 2 ^ 16 + b1 * 2 ^ 8 + b2)
  have a1 : b0 * 2 ^ 24 = 2 ^ 24 * b0 := Nat.mul_comm _ _
  have a2 : 2 ^ 24 * b0 + b1 * 2 ^ 16 = 2 ^ 16 * (b0 * 2 ^ 8 + b1) := by ring
  have a3 : 2 ^ 16 * (b0 * 2 ^ 8 + b1) + b2 * 2 ^ 8 =
      2 ^ 8 * (b0 * 2 ^ 16 + b1 * 2 ^ 8 + b2) := by ring
  rw [a1, ← k1, a2, ← k2, a3, ← k3]

end PlanFacts

/-! ## C1: the re-lock -/

section Claims

variable {σ : Type}

/-- C1 (counterexample). A one-byte `ilpcb_read` on a transport that is locked before the
call, on which the ten protocol operations succeed and the final `sio_lock` fails with
`-5`: the transport is left unlocked, so its lock state after the call is not its lock
state before the call. -/
theorem ilpcb_read_lock_not_restored :
    lock_state true
      (read_log script_sio 0x1e789100 1 (List.replicate 10 (0, 0) ++ [(-5, 0)])) ≠ true := by
  decide

/-- C1 (amended). For every transport, address, buffer and length, and whatever the
operations return, `ilpcb_read` and `ilpcb_write` issue `sio_lock` exactly once and as
their last transport operation; and when that re-lock succeeds, a transport that was
locked before the call is locked after it. -/
theorem ilpcb_relock_on_every_path (t : Sio σ) (addr len : Nat) (buf : Nat → Nat) (s : σ) :
    (∃ body rc, read_log t addr len s = body ++ [⟨SioOp.lock, rc, 0⟩] ∧
        (∀ e ∈ body, e.op ≠ SioOp.lock) ∧
        (rc = 0 → lock_state true (read_log t addr len s) = true)) ∧
      (∃ body rc, write_log t addr buf len s = body ++ [⟨SioOp.lock, rc, 0⟩] ∧
        (∀ e ∈ body, e.op ≠ SioOp.lock) ∧
        (rc = 0 → lock_state true (write_log t addr buf len s) = true)) := by
  constructor
  · refine ⟨_, _, (read_run t addr len s).2, run_plan_no_lock t _ s (read_plan_no_lock addr len), ?_⟩
    intro h
    rw [(read_run t addr len s).2, h]
    exact lock_state_relocked _ _
  · refine ⟨_, _, (write_run t addr buf len s).2,
      run_plan_no_lock t _ s (write_plan_no_lock addr buf len), ?_⟩
    intro h
    rw [(write_run t addr buf len s).2, h]
    exact lock_state_relocked _ _

/-! ## C2: short-circuit after a failure -/

/-- C2 (counterexample). A one-byte `ilpcb_read` in which the write of address register
`0xf0` fails with `-5`: the writes of `0xf1`, `0xf2` and `0xf3` are still issued after the
failure, before the re-lock; likewise in `ilpcb_readl` the reads of `0xf5..0xf7` are still
issued after the read of `0xf4` has failed. -/
theorem ilpcb_read_continues_after_failure :
    read_log script_sio 0x1e789100 1 (List.replicate 4 (0, 0) ++ [(-5, 0)]) =
        [⟨SioOp.unlock, 0, 0⟩, ⟨SioOp.select sio_dev.sio_ilpc, 0, 0⟩,
          ⟨SioOp.writeb 0x30 0x01, 0, 0⟩, ⟨SioOp.writeb 0xf8 0, 0, 0⟩,
          ⟨SioOp.writeb 0xf0 0x1e, -5, 0⟩, ⟨SioOp.writeb 0xf1 0x78, 0, 0⟩,
          ⟨SioOp.writeb 0xf2 0x91, 0, 0⟩, ⟨SioOp.writeb 0xf3 0x00, 0, 0⟩,
          ⟨SioOp.lock, 0, 0⟩] ∧
      stops_at_failure
        (read_log script_sio 0x1e789100 1 (List.replicate 4 (0, 0) ++ [(-5, 0)])).dropLast =
          false ∧
      (readl_log script_sio 0x1e789100 0 (List.replicate 9 (0, 0) ++ [(-5, 0)])).drop 9 =
        [⟨SioOp.readb 0xf4, -5, 0⟩, ⟨SioOp.readb 0xf5, 0, 0⟩, ⟨SioOp.readb 0xf6, 0, 0⟩,
          ⟨SioOp.readb 0xf7, 0, 0⟩, ⟨SioOp.lock, 0, 0⟩] := by
  refine ⟨?_, ?_, ?_⟩
  · simp [read_log, ilpcb_read, ilpcb_read_loop, relock, Sio.logged, script_sio,
      lor_zero_left, lor_zero_right]
  · simp [read_log, ilpcb_read, ilpcb_read_loop, relock, Sio.logged, script_sio,
      lor_zero_left, lor_zero_right, stops_at_failure]
  · simp [readl_log, ilpcb_readl, relock, Sio.logged, script_sio, lor_zero_left,
      lor_zero_right]

/-- C2 (amended). In each of `ilpcb_read`, `ilpcb_write`, `ilpcb_readl` and `ilpcb_writel`,
for every transport and whatever the operations return, the log of the call is its
operations before the re-lock followed by the one `sio_lock`, and among the operations
before the re-lock every one that failed is followed exactly by the remaining accesses
of its own group of four registers (`0xf0..0xf3`, or `0xf4..0xf7`) and by nothing else:
a failed unlock, select, enable, width, trigger or single data access is followed
directly by the re-lock. -/
theorem ilpcb_short_circuit_per_checked_step (t : Sio σ) (addr len val : Nat) (buf : Nat → Nat)
    (s : σ) :
    ((∃ rc, read_log t addr len s =
          (read_log t addr len s).dropLast ++ [⟨SioOp.lock, rc, 0⟩]) ∧
        stops_after_group (read_log t addr len s).dropLast = true) ∧
      ((∃ rc, write_log t addr buf len s =
          (write_log t addr buf len s).dropLast ++ [⟨SioOp.lock, rc, 0⟩]) ∧
        stops_after_group (write_log t addr buf len s).dropLast = true) ∧
      ((∃ rc, readl_log t addr val s =
          (readl_log t addr val s).dropLast ++ [⟨SioOp.lock, rc, 0⟩]) ∧
        stops_after_group (readl_log t addr val s).dropLast = true) ∧
      ((∃ rc, writel_log t addr val s =
          (writel_log t addr val s).dropLast ++ [⟨SioOp.lock, rc, 0⟩]) ∧
        stops_after_group (writel_log t addr val s).dropLast = true) := by
  refine ⟨⟨⟨(t.sio_lock (run_plan t (ilpcb_read_plan addr len) s).2).1, ?_⟩, ?_⟩,
    ⟨⟨(t.sio_lock (run_plan t (ilpcb_write_plan addr buf len) s).2).1, ?_⟩, ?_⟩,
    ⟨⟨(t.sio_lock (run_plan t (ilpcb_readl_plan addr) s).2).1, ?_⟩, ?_⟩,
    ⟨⟨(t.sio_lock (run_plan t (ilpcb_writel_plan addr val) s).2).1, ?_⟩, ?_⟩⟩
  · rw [(read_run t addr len s).2, List.dropLast_concat]
  · rw [(read_run t addr len s).2, List.dropLast_concat]
    exact run_plan_stops t _ s (read_plan_grouped addr len)
  · rw [(write_run t addr buf len s).2, List.dropLast_concat]
  · rw [(write_run t addr buf len s).2, List.dropLast_concat]
    exact run_plan_stops t _ s (write_plan_grouped addr buf len)
  · rw [(readl_run t addr val s).2, List.dropLast_concat]
  · rw [(readl_run t addr val s).2, List.dropLast_concat]
    exact run_plan_stops t _ s (readl_plan_grouped addr)
  · rw [(writel_run t addr val s).2, List.dropLast_concat]
  · rw [(writel_run t addr val s).2, List.dropLast_concat]
    exact run_plan_stops t _ s (writel_plan_grouped addr val)

/-! ## C3: the value returned -/

/-- C3 (counterexample). A one-byte `ilpcb_read` in which the write of address register
`0xf0` fails with `-5` and the write of `0xf1` fails with `-19`: the call returns `-1`,
the bitwise OR of the two codes, which is the code of neither failing step and in
particular not the code `-5` of the first one. -/
theorem ilpcb_read_returns_or_of_codes :
    read_log script_sio 0x1e789100 1 (List.replicate 4 (0, 0) ++ [(-5, 0), (-19, 0)]) =
        [⟨SioOp.unlock, 0, 0⟩, ⟨SioOp.select sio_dev.sio_ilpc, 0, 0⟩,
          ⟨SioOp.writeb 0x30 0x01, 0, 0⟩, ⟨SioOp.writeb 0xf8 0, 0, 0⟩,
          ⟨SioOp.writeb 0xf0 0x1e, -5, 0⟩, ⟨SioOp.writeb 0xf1 0x78, -19, 0⟩,
          ⟨SioOp.writeb 0xf2 0x91, 0, 0⟩, ⟨SioOp.writeb 0xf3 0x00, 0, 0⟩,
          ⟨SioOp.lock, 0, 0⟩] ∧
      (ilpcb_read script_sio 0x1e789100 1
        (List.replicate 4 (0, 0) ++ [(-5, 0), (-19, 0)])).1.1 = -1 := by
  have h : Int.lor (-5) (-19) = -1 := by decide
  constructor
  · simp [read_log, ilpcb_read, ilpcb_read_loop, relock, Sio.logged, script_sio,
      lor_zero_left, lor_zero_right, h]
  · simp [ilpcb_read, ilpcb_read_loop, relock, script_sio, lor_zero_left, lor_zero_right, h]

/-- C3 (amended). For every transport, address, buffer and length, `ilpcb_read` and
`ilpcb_write` return `len` converted to `int` (`len` itself when `len < 2 ^ 31`) when every
operation before the re-lock succeeds, and otherwise the bitwise OR of the codes returned
by the operations issued before the re-lock; that is exactly the code of the first
failing operation whenever no later operation fails as well. The code returned by the
final re-lock is no part of the value. -/
theorem ilpcb_return_value (t : Sio σ) (addr len : Nat) (buf : Nat → Nat) (s : σ) :
    ((ilpcb_read t addr len s).1.1 =
          (if or_codes (read_log t addr len s).dropLast ≠ 0
            then or_codes (read_log t addr len s).dropLast else int_of_size_t len) ∧
        ((∀ e ∈ (read_log t addr len s).dropLast, e.rc = 0) →
          (ilpcb_read t addr len s).1.1 = int_of_size_t len) ∧
        (∀ pre e post, (read_log t addr len s).dropLast = pre ++ e :: post →
          (∀ x ∈ pre, x.rc = 0) → e.rc ≠ 0 → (∀ x ∈ post, x.rc = 0) →
          (ilpcb_read t addr len s).1.1 = e.rc)) ∧
      ((ilpcb_write t addr buf len s).1 =
          (if or_codes (write_log t addr buf len s).dropLast ≠ 0
            then or_codes (write_log t addr buf len s).dropLast else int_of_size_t len) ∧
        ((∀ e ∈ (write_log t addr buf len s).dropLast, e.rc = 0) →
          (ilpcb_write t addr buf len s).1 = int_of_size_t len) ∧
        (∀ pre e post, (write_log t addr buf len s).dropLast = pre ++ e :: post →
          (∀ x ∈ pre, x.rc = 0) → e.rc ≠ 0 → (∀ x ∈ post, x.rc = 0) →
          (ilpcb_write t addr buf len s).1 = e.rc)) ∧
      (len < 2 ^ 31 → int_of_size_t len = len) := by
  refine ⟨⟨read_rc t addr len s, ?_, ?_⟩, ⟨write_rc t addr buf len s, ?_, ?_⟩,
    int_of_size_t_small len⟩
  · intro h
    rw [read_rc, (or_codes_eq_zero _).mpr h]
    simp
  · intro pre e post hsplit hpre he hpost
    rw [read_rc, hsplit, or_codes_single_failure pre post e hpre hpost]
    simp [he]
  · intro h
    rw [write_rc, (or_codes_eq_zero _).mpr h]
    simp
  · intro pre e post hsplit hpre he hpost
    rw [write_rc, hsplit, or_codes_single_failure pre post e hpre hpost]
    simp [he]

/-! ## C4: one full sequence per byte -/

/-- C4. For every transport, address `A` and length `N` (`0` included): when every
operation of a call of `ilpcb_read` succeeds, it issues unlock, select, enable, width and
then exactly `N` times the sequence: four writes of the bytes of the same `A` to
`0xf0..0xf3`, the trigger access to `0xfe`, the data access to `0xf7`; then the re-lock.
Likewise, when every operation of a call of `ilpcb_write` succeeds, it issues the same
with, in its `i`-th repetition, byte `i` of the buffer sent to `0xf7` before the trigger.
Each half has its own condition only. -/
theorem ilpcb_one_full_sequence_per_byte (t : Sio σ) (addr len : Nat) (buf : Nat → Nat) (s : σ) :
    ((∀ e ∈ read_log t addr len s, e.rc = 0) →
      (read_log t addr len s).map (fun e => e.op) =
        [SioOp.unlock, SioOp.select sio_dev.sio_ilpc, SioOp.writeb 0x30 0x01,
          SioOp.writeb 0xf8 0] ++
        (List.replicate len
          [SioOp.writeb 0xf0 ((addr >>> 24) % 256), SioOp.writeb 0xf1 ((addr >>> 16) % 256),
            SioOp.writeb 0xf2 ((addr >>> 8) % 256), SioOp.writeb 0xf3 (addr % 256),
            SioOp.readb 0xfe, SioOp.readb 0xf7]).flatten ++ [SioOp.lock]) ∧
    ((∀ e ∈ write_log t addr buf len s, e.rc = 0) →
      (write_log t addr buf len s).map (fun e => e.op) =
        [SioOp.unlock, SioOp.select sio_dev.sio_ilpc, SioOp.writeb 0x30 0x01,
          SioOp.writeb 0xf8 0] ++
        ((List.range len).map (fun i =>
          [SioOp.writeb 0xf0 ((addr >>> 24) % 256), SioOp.writeb 0xf1 ((addr >>> 16) % 256),
            SioOp.writeb 0xf2 ((addr >>> 8) % 256), SioOp.writeb 0xf3 (addr % 256),
            SioOp.writeb 0xf7 (buf i % 256), SioOp.writeb 0xfe 0xcf])).flatten ++
        [SioOp.lock]) := by
  constructor
  · intro hr
    have h := all_ok_dropLast _ hr
    rw [(read_run t addr len s).2, List.dropLast_concat] at h
    rw [(read_run t addr len s).2, List.map_append,
      run_plan_ops_complete t _ s ((or_codes_eq_zero _).mpr h), read_plan_flatten]
    rfl
  · intro hw
    have h := all_ok_dropLast _ hw
    rw [(write_run t addr buf len s).2, List.dropLast_concat] at h
    rw [(write_run t addr buf len s).2, List.map_append,
      run_plan_ops_complete t _ s ((or_codes_eq_zero _).mpr h), write_plan_flatten]
    rfl

/-- C4 (witness). Two bytes at `0x1e789100` on a transport on which everything succeeds:
the full sequence is issued twice, with the same address bytes `1e 78 91 00`, by the read
and by the write. On a transport that refuses writes to `0xfe`, where a write cannot
succeed, the read succeeds all the same and issues the full sequence twice. -/
theorem ilpcb_one_full_sequence_per_byte_witness :
    (read_log script_sio 0x1e789100 2 []).map (fun e => e.op) =
        [SioOp.unlock, SioOp.select sio_dev.sio_ilpc, SioOp.writeb 0x30 0x01,
          SioOp.writeb 0xf8 0,
          SioOp.writeb 0xf0 0x1e, SioOp.writeb 0xf1 0x78, SioOp.writeb 0xf2 0x91,
          SioOp.writeb 0xf3 0x00, SioOp.readb 0xfe, SioOp.readb 0xf7,
          SioOp.writeb 0xf0 0x1e, SioOp.writeb 0xf1 0x78, SioOp.writeb 0xf2 0x91,
          SioOp.writeb 0xf3 0x00, SioOp.readb 0xfe, SioOp.readb 0xf7,
          SioOp.lock] ∧
      (write_log script_sio 0x1e789100 (fun i => 0x41 + i) 2 []).map (fun e => e.op) =
        [SioOp.unlock, SioOp.select sio_dev.sio_ilpc, SioOp.writeb 0x30 0x01,
          SioOp.writeb 0xf8 0,
          SioOp.writeb 0xf0 0x1e, SioOp.writeb 0xf1 0x78, SioOp.writeb 0xf2 0x91,
          SioOp.writeb 0xf3 0x00, SioOp.writeb 0xf7 0x41, SioOp.writeb 0xfe 0xcf,
          SioOp.writeb 0xf0 0x1e, SioOp.writeb 0xf1 0x78, SioOp.writeb 0xf2 0x91,
          SioOp.writeb 0xf3 0x00, SioOp.writeb 0xf7 0x42, SioOp.writeb 0xfe 0xcf,
          SioOp.lock] ∧
      (¬ ∀ e ∈ write_log no_trigger_write_sio 0x1e789100 (fun i => 0x41 + i) 2 (),
        e.rc = 0) ∧
      (read_log no_trigger_write_sio 0x1e789100 2 ()).map (fun e => e.op) =
        [SioOp.unlock, SioOp.select sio_dev.sio_ilpc, SioOp.writeb 0x30 0x01,
          SioOp.writeb 0xf8 0,
          SioOp.writeb 0xf0 0x1e, SioOp.writeb 0xf1 0x78, SioOp.writeb 0xf2 0x91,
          SioOp.writeb 0xf3 0x00, SioOp.readb 0xfe, SioOp.readb 0xf7,
          SioOp.writeb 0xf0 0x1e, SioOp.writeb 0xf1 0x78, SioOp.writeb 0xf2 0x91,
          SioOp.writeb 0xf3 0x00, SioOp.readb 0xfe, SioOp.readb 0xf7,
          SioOp.lock] :=
  ⟨(ilpcb_one_full_sequence_per_byte script_sio 0x1e789100 2 (fun i => 0x41 + i) []).1
      (by decide),
    (ilpcb_one_full_sequence_per_byte script_sio 0x1e789100 2 (fun i => 0x41 + i) []).2
      (by decide),
    by decide,
    (ilpcb_one_full_sequence_per_byte no_trigger_write_sio 0x1e789100 2
      (fun i => 0x41 + i) ()).1 (by decide)⟩

/-! ## C5: the byte order of a word read -/

/-- C5. In a successful `ilpcb_readl`, for all bytes `b0`, `b1`, `b2`, `b3` delivered by
the successive reads of the data registers `0xf4`, `0xf5`, `0xf6`, `0xf7`, the value
stored to `*val` is `(b0 << 24) | (b1 << 16) | (b2 << 8) | b3`: the byte read first is the
most significant. -/
theorem ilpcb_readl_first_byte_most_significant (t : Sio σ) (addr val : Nat) (s : σ)
    (b0 b1 b2 b3 : Nat) (h0 : b0 < 256) (h1 : b1 < 256) (h2 : b2 < 256) (h3 : b3 < 256)
    (hrc : (ilpcb_readl t addr val s).1.1 = 0)
    (hreads : data_reads (readl_log t addr val s) =
      [(0xf4, b0), (0xf5, b1), (0xf6, b2), (0xf7, b3)]) :
    (ilpcb_readl t addr val s).1.2 = (b0 <<< 24) ||| (b1 <<< 16) ||| (b2 <<< 8) ||| b3 := by
  have hv := readl_rc_val t addr val s
  have hrc2 : or_codes (readl_log t addr val s).dropLast = 0 := by
    rw [← hrc, hv]
  have hd : data_reads (readl_log t addr val s).dropLast =
      [(0xf4, b0), (0xf5, b1), (0xf6, b2), (0xf7, b3)] := by
    rw [← hreads]
    conv_rhs => rw [(readl_run t addr val s).2]
    rw [(readl_run t addr val s).2, List.dropLast_concat]
    simp [data_reads]
  rw [hv]
  simp only [readl_store, hrc2, ne_eq, not_true_eq_false, if_false, hd, List.foldl_cons,
    List.foldl_nil]
  rw [accumulate_bytes, flat_or_bytes b0 b1 b2 b3 h1 h2 h3, Nat.mod_eq_of_lt h0,
    Nat.mod_eq_of_lt h1, Nat.mod_eq_of_lt h2, Nat.mod_eq_of_lt h3]

/-- C5 (witness). The bytes `0x11, 0x22, 0x33, 0x44` read from `0xf4..0xf7` assemble to
`0x11223344`. -/
theorem ilpcb_readl_first_byte_most_significant_witness :
    (ilpcb_readl script_sio 0x1e789100 0
        (List.replicate 9 (0, 0) ++ [(0, 0x11), (0, 0x22), (0, 0x33), (0, 0x44)])).1.2 =
      (0x11 <<< 24) ||| (0x22 <<< 16) ||| (0x33 <<< 8) ||| 0x44 ∧
    (0x11 <<< 24) ||| (0x22 <<< 16) ||| (0x33 <<< 8) ||| 0x44 = 0x11223344 :=
  ⟨ilpcb_readl_first_byte_most_significant script_sio 0x1e789100 0
      (List.replicate 9 (0, 0) ++ [(0, 0x11), (0, 0x22), (0, 0x33), (0, 0x44)])
      0x11 0x22 0x33 0x44 (by decide) (by decide) (by decide) (by decide) (by decide)
      (by decide), by decide⟩

/-! ## C6: write a word, read it back -/

/-- C6. Over the read-write bridge, for every address `A` and every 32-bit value `V`,
`ilpcb_writel(A, V)` succeeds and a following `ilpcb_readl(A)` succeeds and stores `V`. -/
theorem ilpcb_writel_readl_round_trip (b : Bridge) (addr val old : Nat) (hv : val < 2 ^ 32) :
    (ilpcb_writel bridge_sio addr val b).1 = 0 ∧
      (ilpcb_readl bridge_sio addr old (ilpcb_writel bridge_sio addr val b).2).1 = (0, val) := by
  constructor
  · simp [ilpcb_writel, relock, bridge_sio, lor_zero_left]
  · simp [ilpcb_writel, ilpcb_readl, relock, bridge_sio, lor_zero_left, Bridge.load, Bridge.addr,
      Bridge.data]
    simp only [shl8_or_lit, Nat.shiftRight_eq_div_pow]
    omega

/-- C6 (witness). Writing `0xdeadbeef` to `0x1e6e2000` over a bridge whose registers and
memory are all zero, then reading the word back, yields `0xdeadbeef`. -/
theorem ilpcb_writel_readl_round_trip_witness :
    (ilpcb_writel bridge_sio 0x1e6e2000 0xdeadbeef ⟨fun _ => 0, fun _ => 0⟩).1 = 0 ∧
      (ilpcb_readl bridge_sio 0x1e6e2000 0
        (ilpcb_writel bridge_sio 0x1e6e2000 0xdeadbeef ⟨fun _ => 0, fun _ => 0⟩).2).1 =
        (0, 0xdeadbeef) :=
  ilpcb_writel_readl_round_trip ⟨fun _ => 0, fun _ => 0⟩ 0x1e6e2000 0xdeadbeef 0 (by decide)

/-! ## C7: the mode query -/

theorem and_bit6 (n : Nat) : (n &&& LPC_HICRB_ILPCB_RO ≠ 0) ↔ n.testBit 6 = true := by
  have h : LPC_HICRB_ILPCB_RO = 2 ^ 6 := rfl
  rw [h, Nat.and_two_pow]
  cases n.testBit 6 <;> simp

theorem bridge_readl (b : Bridge) (addr old : Nat) :
    (ilpcb_readl bridge_sio addr old b).1 = (0, b.mem (addr % 2 ^ 32) % 2 ^ 32) := by
  have ha : addr >>> 24 % 256 * 16777216 + addr >>> 16 % 256 * 65536 + addr >>> 8 % 256 * 256 +
      addr % 256 = addr % 4294967296 := by
    simp only [Nat.shiftRight_eq_div_pow]
    omega
  simp [ilpcb_readl, relock, bridge_sio, lor_zero_left, Bridge.load, Bridge.addr]
  rw [ha]
  generalize b.mem (addr % 4294967296) = w
  simp only [shl8_or_lit]
  omega

/-- C7. `ilpcb_mode` performs exactly the one word read of `ilpcb_readl` at
`0x1e789100`: same operations on the transport, same transport state afterwards. When
that read fails its error code is returned; when it succeeds the result is `1`
(read-only) if bit 6 of the value read is set and `0` (read-write) otherwise. Over the
read-write bridge this is bit 6 of the word at `0x1e789100`, whatever that word is. -/
theorem ilpcb_mode_is_bit6_of_hicrb (t : Sio σ) (s : σ) :
    mode_log t s = readl_log t 0x1e789100 0 s ∧
      (ilpcb_mode t s).2 = (ilpcb_readl t 0x1e789100 0 s).2 ∧
      ((ilpcb_readl t 0x1e789100 0 s).1.1 ≠ 0 →
        (ilpcb_mode t s).1 = (ilpcb_readl t 0x1e789100 0 s).1.1) ∧
      ((ilpcb_readl t 0x1e789100 0 s).1.1 = 0 →
        (ilpcb_mode t s).1 = if (ilpcb_readl t 0x1e789100 0 s).1.2.testBit 6 then 1 else 0) ∧
      (∀ b : Bridge, (ilpcb_mode bridge_sio b).1 =
        if (b.mem 0x1e789100).testBit 6 then 1 else 0) := by
  refine ⟨?_, ?_, ?_, ?_, ?_⟩
  · unfold mode_log readl_log ilpcb_mode
    simp only []
    split_ifs <;> rfl
  · unfold ilpcb_mode
    simp only []
    split_ifs <;> rfl
  · intro h
    unfold ilpcb_mode
    simp only [h, ne_eq, not_false_eq_true, if_true]
  · intro h
    unfold ilpcb_mode
    simp only [h, ne_eq, not_true_eq_false, if_false, and_bit6]
  · intro b
    unfold ilpcb_mode
    simp only [bridge_readl, ne_eq, not_true_eq_false, if_false, and_bit6]
    have h : (b.mem (0x1e789100 % 2 ^ 32) % 2 ^ 32).testBit 6 = (b.mem 0x1e789100).testBit 6 := by
      rw [Nat.testBit_mod_two_pow]
      simp
    rw [h]

/-! ## C8: the trigger of a read -/

end Claims

/-! ## The discovery engine -/

section DiscoveryFacts

variable {σ : Type}

theorem map_table_compatible {α β : Type} (f : α → β) (table : List (soc_device_id α)) :
    (map_table f table).map (fun id => id.compatible) = table.map (fun id => id.compatible) := by
  simp [map_table, Function.comp_def]

theorem get_match_data_map_table {α β : Type} (f : α → β) (table : List (soc_device_id α))
    (dn : soc_device_node) :
    soc_device_get_match_data (map_table f table) dn =
      (soc_device_get_match_data table dn).map f := by
  induction table with
  | nil => rfl
  | cons id rest ih =>
    unfold soc_device_get_match_data at ih ⊢
    simp only [map_table, List.map_cons, List.find?_cons] at ih ⊢
    cases h : dn.compatible.contains id.compatible
    · simpa [h] using ih
    · simp [h]

theorem status_events_append (a b : List SocEv) :
    status_events (a ++ b) = status_events a ++ status_events b := by
  simp [status_events, List.filterMap_append]

theorem get_match_data_unknown {α : Type} (a b : α) (dn : soc_device_node)
    (h24 : "aspeed,ast2400" ∉ dn.compatible) (h25 : "aspeed,ast2500" ∉ dn.compatible) :
    soc_device_get_match_data
      [(⟨"aspeed,ast2400", some a⟩ : soc_device_id α), ⟨"aspeed,ast2500", some b⟩] dn = none := by
  simp [soc_device_get_match_data, List.find?, h24, h25]

/-- C10, as the code has it. On an attached bus whose root device node matches neither
`"aspeed,ast2400"` nor `"aspeed,ast2500"`, that is, when the lookup
`soc_device_match_node` fails or yields a node that carries neither string,
`ast_ahb_bridge_discover` leaves the caller's report as it was and calls nothing but
`soc_probe`, `soc_device_match_node` and `soc_destroy`: no probe runs and no register is
read. It returns the code of the lookup unchanged when the lookup failed, and `-ENOTSUP`
when the lookup yielded a node that carries neither string. -/
theorem discover_unmatched_soc (api : Soc σ) (state : ast_interfaces) (s : σ)
    (hp : 0 ≤ (api.soc_probe s).1)
    (hno : (api.soc_device_match_node ["aspeed,ast2400", "aspeed,ast2500"]
          (api.soc_probe s).2).1.1 < 0 ∨
        (0 ≤ (api.soc_device_match_node ["aspeed,ast2400", "aspeed,ast2500"]
          (api.soc_probe s).2).1.1 ∧
        "aspeed,ast2400" ∉ (api.soc_device_match_node ["aspeed,ast2400", "aspeed,ast2500"]
          (api.soc_probe s).2).1.2.compatible ∧
        "aspeed,ast2500" ∉ (api.soc_device_match_node ["aspeed,ast2400", "aspeed,ast2500"]
          (api.soc_probe s).2).1.2.compatible)) :
    (ast_ahb_bridge_discover api state s).1 =
        (if (api.soc_device_match_node ["aspeed,ast2400", "aspeed,ast2500"]
            (api.soc_probe s).2).1.1 < 0 then
          (api.soc_device_match_node ["aspeed,ast2400", "aspeed,ast2500"]
            (api.soc_probe s).2).1.1
         else -ENOTSUP, state) ∧
      discover_log api state s =
        [SocEv.probed (api.soc_probe s).1,
          SocEv.match_node ["aspeed,ast2400", "aspeed,ast2500"]
            (api.soc_device_match_node ["aspeed,ast2400", "aspeed,ast2500"]
              (api.soc_probe s).2).1.1,
          SocEv.destroy] ∧
      status_events (discover_log api state s) = [] ∧
      (∀ e ∈ discover_log api state s, ∀ addr rc val, e ≠ SocEv.readl addr rc val) := by
  have hlog : discover_log api state s =
      [SocEv.probed (api.soc_probe s).1,
        SocEv.match_node ["aspeed,ast2400", "aspeed,ast2500"]
          (api.soc_device_match_node ["aspeed,ast2400", "aspeed,ast2500"]
            (api.soc_probe s).2).1.1,
        SocEv.destroy] := by
    unfold discover_log ast_ahb_bridge_discover_with
    simp only [map_table_compatible, get_match_data_map_table]
    rcases hno with hneg | ⟨hm, h24, h25⟩
    · simp only [soc_match, List.map_cons, List.map_nil, Soc.logged, not_lt.mpr hp, hneg,
        if_false, if_true, List.nil_append, List.cons_append]
    · simp only [soc_match, List.map_cons, List.map_nil, Soc.logged, not_lt.mpr hp,
        not_lt.mpr hm, if_false, get_match_data_unknown _ _ _ h24 h25, Option.map_none',
        List.nil_append, List.cons_append]
  refine ⟨?_, hlog, ?_, ?_⟩
  · unfold ast_ahb_bridge_discover ast_ahb_bridge_discover_with
    rcases hno with hneg | ⟨hm, h24, h25⟩
    · simp only [soc_match, List.map_cons, List.map_nil, not_lt.mpr hp, hneg, if_false,
        if_true]
    · simp only [soc_match, List.map_cons, List.map_nil, not_lt.mpr hp, not_lt.mpr hm,
        if_false, get_match_data_unknown _ _ _ h24 h25]
  · rw [hlog]
    rfl
  · intro e he addr rc val
    rw [hlog] at he
    simp only [List.mem_cons, List.mem_singleton, List.not_mem_nil, or_false] at he
    rcases he with rfl | rfl | rfl <;> simp

/-- C10 (witness). A bus on which the lookup fails with `-ENOENT`: the discovery returns
`-2`; a bus on which the lookup yields a root node `"aspeed,ast2600"`: the discovery
returns `-95`. In both the report is untouched and the log is attach, match, release. -/
theorem discover_unmatched_soc_witness :
    ((ast_ahb_bridge_discover notfound_soc zero_interfaces 0).1 = (-2, zero_interfaces) ∧
      discover_log notfound_soc zero_interfaces 0 =
        [SocEv.probed 0, SocEv.match_node ["aspeed,ast2400", "aspeed,ast2500"] (-2),
          SocEv.destroy]) ∧
    ((ast_ahb_bridge_discover (fixed_soc ["aspeed,ast2600"] (fun _ => 0))
        zero_interfaces 0).1 = (-95, zero_interfaces) ∧
      discover_log (fixed_soc ["aspeed,ast2600"] (fun _ => 0)) zero_interfaces 0 =
        [SocEv.probed 0, SocEv.match_node ["aspeed,ast2400", "aspeed,ast2500"] 0,
          SocEv.destroy]) :=
  ⟨⟨(discover_unmatched_soc notfound_soc zero_interfaces 0 (by decide)
        (Or.inl (by decide))).1,
      (discover_unmatched_soc notfound_soc zero_interfaces 0 (by decide)
        (Or.inl (by decide))).2.1⟩,
    ⟨(discover_unmatched_soc (fixed_soc ["aspeed,ast2600"] (fun _ => 0)) zero_interfaces 0
        (by decide) (Or.inr (by decide))).1,
      (discover_unmatched_soc (fixed_soc ["aspeed,ast2600"] (fun _ => 0)) zero_interfaces 0
        (by decide) (Or.inr (by decide))).2.1⟩⟩

/-- Counterexample to C10 as stated (the discovery returns `-ENOTSUP`): on a bus whose
root node matches no entry, so that the lookup fails with `-ENOENT`, the discovery
returns `-ENOENT`, which is not `-ENOTSUP`; no probe runs and the report is untouched. -/
theorem discover_unmatched_soc_returns_lookup_error :
    (ast_ahb_bridge_discover notfound_soc zero_interfaces 0).1 =
        (-ENOENT, zero_interfaces) ∧
      (ast_ahb_bridge_discover notfound_soc zero_interfaces 0).1.1 ≠ -ENOTSUP ∧
      discover_log notfound_soc zero_interfaces 0 =
        [SocEv.probed 0, SocEv.match_node ["aspeed,ast2400", "aspeed,ast2500"] (-ENOENT),
          SocEv.destroy] :=
  ⟨rfl, by decide, by decide⟩

end DiscoveryFacts

/-! ## The probes of `ast.c`: what a successful run did -/

section ProbeFacts

variable {σ : Type}

/-- A successful `ast2400_pci_status`: the calls it made and the record it leaves, in
terms of what the collaborators answered (`m`, `g`, `r1`, `r2` in the order of the
calls). -/
theorem ast2400_pci_status_ok (api : Soc σ) (s : σ) (cap : ast_cap_pci)
    (m : (Int × soc_device_node) × σ) (hm : api.soc_device_match_node ["aspeed,ast2400-scu"] s = m)
    (g : (Int × soc_region) × σ) (hg : api.soc_device_get_memory m.1.2 m.2 = g)
    (r1 : (Int × Nat) × σ) (hr1 : api.soc_readl ((g.1.2.start + SCU_PCIE_CONFIG) % 2 ^ 32) g.2 = r1)
    (r2 : (Int × Nat) × σ) (hr2 : api.soc_readl ((g.1.2.start + SCU_MISC) % 2 ^ 32) r1.2 = r2)
    (h : (ast2400_pci_status api s cap).1.1 = 0) :
    status_log (ast2400_pci_status api.logged) s cap =
        [SocEv.match_node ["aspeed,ast2400-scu"] m.1.1, SocEv.get_memory g.1.1,
          SocEv.readl ((g.1.2.start + SCU_PCIE_CONFIG) % 2 ^ 32) r1.1.1 r1.1.2,
          SocEv.readl ((g.1.2.start + SCU_MISC) % 2 ^ 32) 0 r2.1.2] ∧
      (ast2400_pci_status api s cap).1.2 =
        { pcie_config_flags cap r1.1.2 with ranges := ast2400_windows cap.ranges r2.1.2 } ∧
      (ast2400_pci_status api.logged (s, []) cap).1 = (ast2400_pci_status api s cap).1 := by
  subst hm hg hr1 hr2
  unfold status_log
  simp only [ast2400_pci_status, region_readl, Soc.logged] at h ⊢
  split_ifs at h ⊢ with h1 h2 h3 h4
  · simp only at h; omega
  · simp only at h; omega
  · simp only at h; omega
  · simp only at h; omega
  · refine ⟨?_, rfl, rfl⟩
    rw [not_not.mp h4]
    rfl

end ProbeFacts

section ProbeFacts2

variable {σ : Type}

/-- A successful `ast2500_pci_status`: the calls it made and the record it leaves. -/
theorem ast2500_pci_status_ok (api : Soc σ) (s : σ) (cap : ast_cap_pci)
    (m : (Int × soc_device_node) × σ) (hm : api.soc_device_match_node ["aspeed,ast2500-scu"] s = m)
    (g : (Int × soc_region) × σ) (hg : api.soc_device_get_memory m.1.2 m.2 = g)
    (r1 : (Int × Nat) × σ) (hr1 : api.soc_readl ((g.1.2.start + SCU_PCIE_CONFIG) % 2 ^ 32) g.2 = r1)
    (r2 : (Int × Nat) × σ) (hr2 : api.soc_readl ((g.1.2.start + SCU_MISC) % 2 ^ 32) r1.2 = r2)
    (h : (ast2500_pci_status api s cap).1.1 = 0) :
    status_log (ast2500_pci_status api.logged) s cap =
        [SocEv.match_node ["aspeed,ast2500-scu"] m.1.1, SocEv.get_memory g.1.1,
          SocEv.readl ((g.1.2.start + SCU_PCIE_CONFIG) % 2 ^ 32) r1.1.1 r1.1.2,
          SocEv.readl ((g.1.2.start + SCU_MISC) % 2 ^ 32) r2.1.1 r2.1.2] ∧
      (ast2500_pci_status api s cap).1.2 =
        { pcie_config_flags cap r1.1.2 with ranges := ast2500_windows cap.ranges r2.1.2 } ∧
      (ast2500_pci_status api.logged (s, []) cap).1 = (ast2500_pci_status api s cap).1 := by
  subst hm hg hr1 hr2
  unfold status_log
  simp only [ast2500_pci_status, region_readl, Soc.logged] at h ⊢
  split_ifs at h ⊢ with h1 h2 h3 h4
  · simp only at h; omega
  · simp only at h; omega
  · simp only at h; omega
  · simp only at h; omega
  · exact ⟨rfl, rfl, rfl⟩

/-- A successful `ast_ilpc_status`: the calls it made and the record it leaves. -/
theorem ast_ilpc_status_ok (api : Soc σ) (s : σ) (cap : ast_cap_lpc)
    (m1 : (Int × soc_device_node) × σ)
    (hm1 : api.soc_device_match_node ["aspeed,ast2400-scu", "aspeed,ast2500-scu"] s = m1)
    (g1 : (Int × soc_region) × σ) (hg1 : api.soc_device_get_memory m1.1.2 m1.2 = g1)
    (m2 : (Int × soc_device_node) × σ)
    (hm2 : api.soc_device_match_node ["aspeed,ast2400-lpc-v2", "aspeed,ast2500-lpc-v2"] g1.2 = m2)
    (g2 : (Int × soc_region) × σ) (hg2 : api.soc_device_get_memory m2.1.2 m2.2 = g2)
    (r1 : (Int × Nat) × σ) (hr1 : api.soc_readl ((g1.1.2.start + SCU_HW_STRAP) % 2 ^ 32) g2.2 = r1)
    (r2 : (Int × Nat) × σ) (hr2 : api.soc_readl ((g2.1.2.start + LPC_HICRB) % 2 ^ 32) r1.2 = r2)
    (h : (ast_ilpc_status api s cap).1.1 = 0) :
    status_log (ast_ilpc_status api.logged) s cap =
        [SocEv.match_node ["aspeed,ast2400-scu", "aspeed,ast2500-scu"] m1.1.1,
          SocEv.get_memory g1.1.1,
          SocEv.match_node ["aspeed,ast2400-lpc-v2", "aspeed,ast2500-lpc-v2"] m2.1.1,
          SocEv.get_memory g2.1.1,
          SocEv.readl ((g1.1.2.start + SCU_HW_STRAP) % 2 ^ 32) r1.1.1 r1.1.2,
          SocEv.readl ((g2.1.2.start + LPC_HICRB) % 2 ^ 32) r2.1.1 r2.1.2] ∧
      (ast_ilpc_status api s cap).1.2 =
        ⟨enabled_if (r1.1.2 &&& SCU_HW_STRAP_SIO_DEC == 0),
          ⟨0, 1 <<< 32, r2.1.2 &&& LPC_HICRB_ILPC_RO == 0⟩⟩ ∧
      (ast_ilpc_status api.logged (s, []) cap).1 = (ast_ilpc_status api s cap).1 := by
  subst hm1 hg1 hm2 hg2 hr1 hr2
  unfold status_log
  simp only [ast_ilpc_status, region_readl, Soc.logged] at h ⊢
  split_ifs at h ⊢ with h1 h2 h3 h4 h5 h6
  · simp only at h; omega
  · simp only at h; omega
  · simp only at h; omega
  · simp only at h; omega
  · simp only at h; omega
  · simp only at h; omega
  · exact ⟨rfl, rfl, rfl⟩

/-- A successful `ast2500_debug_status`: the calls it made and the record it leaves. -/
theorem ast2500_debug_status_ok (api : Soc σ) (s : σ) (cap : ast_cap_uart)
    (m : (Int × soc_device_node) × σ) (hm : api.soc_device_match_node ["aspeed,ast2500-scu"] s = m)
    (g : (Int × soc_region) × σ) (hg : api.soc_device_get_memory m.1.2 m.2 = g)
    (r1 : (Int × Nat) × σ) (hr1 : api.soc_readl ((g.1.2.start + SCU_MISC) % 2 ^ 32) g.2 = r1)
    (r2 : (Int × Nat) × σ) (hr2 : api.soc_readl ((g.1.2.start + SCU_HW_STRAP) % 2 ^ 32) r1.2 = r2)
    (h : (ast2500_debug_status api s cap).1.1 = 0) :
    status_log (ast2500_debug_status api.logged) s cap =
        [SocEv.match_node ["aspeed,ast2500-scu"] m.1.1, SocEv.get_memory g.1.1,
          SocEv.readl ((g.1.2.start + SCU_MISC) % 2 ^ 32) r1.1.1 r1.1.2,
          SocEv.readl ((g.1.2.start + SCU_HW_STRAP) % 2 ^ 32) r2.1.1 r2.1.2] ∧
      (ast2500_debug_status api s cap).1.2 =
        ⟨enabled_if (r1.1.2 &&& SCU_MISC_UART_DBG == 0),
          if r2.1.2 &&& SCU_HW_STRAP_UART_DBG_SEL ≠ 0 then debug_uart.debug_uart5
          else debug_uart.debug_uart1⟩ ∧
      (ast2500_debug_status api.logged (s, []) cap).1 = (ast2500_debug_status api s cap).1 := by
  subst hm hg hr1 hr2
  unfold status_log
  simp only [ast2500_debug_status, region_readl, Soc.logged] at h ⊢
  split_ifs at h ⊢
  all_goals first
    | (simp only at h; omega)
    | exact ⟨rfl, rfl, rfl⟩

theorem and_bit_ne_zero (v k : Nat) : (v &&& (1 <<< k) != 0) = v.testBit k := by
  rw [Nat.one_shiftLeft, Nat.and_two_pow]
  cases v.testBit k <;> simp

theorem and_bit_eq_zero (v k : Nat) : (v &&& (1 <<< k) == 0) = !v.testBit k := by
  rw [Nat.one_shiftLeft, Nat.and_two_pow]
  cases v.testBit k <;> simp

end ProbeFacts2

/-! ## C11, C12, C13, C15, C20: the PCI probes -/

section PciClaims

variable {σ : Type}

theorem ast2400_windows_table (c : ast_cap_pci) (ranges : p2ab_ranges → ahb_range) (val : Nat)
    (h : c.ranges = ast2400_windows ranges val) :
    (pci_windows c).map (fun w => (w.name, w.start, w.len)) =
      [("Firmware", 0, 0x18000000), ("SoC IO", 0x18000000, 0x08000000),
        ("BMC Flash", 0x20000000, 0x10000000), ("Host Flash", 0x30000000, 0x10000000),
        ("DRAM", 0x40000000, 0x20000000), ("LPC Host", 0x60000000, 0x20000000),
        ("Reserved", 0x80000000, 0x80000000)] := by
  unfold pci_windows
  rw [h]
  rfl

theorem ast2500_windows_table (c : ast_cap_pci) (ranges : p2ab_ranges → ahb_range) (val : Nat)
    (h : c.ranges = ast2500_windows ranges val) :
    (pci_windows c).map (fun w => (w.name, w.start, w.len)) =
      [("Firmware", 0, 0x10000000), ("SoC IO", 0x10000000, 0x10000000),
        ("BMC Flash", 0x20000000, 0x10000000), ("Host Flash", 0x30000000, 0x10000000),
        ("DRAM", 0x80000000, 0x80000000), ("LPC Host", 0x60000000, 0x20000000),
        ("Reserved", 0x40000000, 0x20000000)] := by
  unfold pci_windows
  rw [h]
  rfl

theorem tiles_bus_of_table (ws : List ahb_range) (t : List (String × Nat × Nat))
    (h : ws.map (fun w => (w.name, w.start, w.len)) = t)
    (ht : ((t.map (fun e => (e.2.1, e.2.2))).insertionSort (fun a b => a.1 ≤ b.1)) =
      [(0, 0x10000000), (0x10000000, 0x10000000), (0x20000000, 0x10000000),
        (0x30000000, 0x10000000), (0x40000000, 0x20000000), (0x60000000, 0x20000000),
        (0x80000000, 0x80000000)] ∨
      ((t.map (fun e => (e.2.1, e.2.2))).insertionSort (fun a b => a.1 ≤ b.1)) =
      [(0, 0x18000000), (0x18000000, 0x08000000), (0x20000000, 0x10000000),
        (0x30000000, 0x10000000), (0x40000000, 0x20000000), (0x60000000, 0x20000000),
        (0x80000000, 0x80000000)]) :
    tiles_bus ws = true := by
  have he : ws.map (fun w => (w.start, w.len)) = t.map (fun e => (e.2.1, e.2.2)) := by
    rw [← h, List.map_map]
    rfl
  unfold tiles_bus
  rw [he]
  rcases ht with ht | ht <;> rw [ht] <;> decide

/-- Claim C11, as the code has it: a successful `ast2400_pci_status` leaves seven named
windows, `Firmware`, `SoC IO`, `BMC Flash`, `Host Flash`, `DRAM`, `LPC Host` and
`Reserved`; `Firmware` is at `0x0` with length `0x18000000`, and the lengths of the seven
add up to `0x100000000`. -/
theorem ast2400_pci_status_seven_windows (api : Soc σ) (s : σ) (cap : ast_cap_pci)
    (h : (ast2400_pci_status api s cap).1.1 = 0) :
    (pci_windows (ast2400_pci_status api s cap).1.2).map (fun w => (w.name, w.start, w.len)) =
        [("Firmware", 0, 0x18000000), ("SoC IO", 0x18000000, 0x08000000),
          ("BMC Flash", 0x20000000, 0x10000000), ("Host Flash", 0x30000000, 0x10000000),
          ("DRAM", 0x40000000, 0x20000000), ("LPC Host", 0x60000000, 0x20000000),
          ("Reserved", 0x80000000, 0x80000000)] ∧
      (pci_windows (ast2400_pci_status api s cap).1.2).length = 7 ∧
      ((pci_windows (ast2400_pci_status api s cap).1.2).map (fun w => w.len)).sum =
        0x100000000 := by
  have hk := (ast2400_pci_status_ok api s cap _ rfl _ rfl _ rfl _ rfl h).2.1
  rw [hk]
  have ht := ast2400_windows_table _ _ _ (congrArg ast_cap_pci.ranges hk)
  rw [hk] at ht
  refine ⟨ht, ?_, ?_⟩
  · have := congrArg List.length ht
    simpa using this
  · have := congrArg (fun l => (l.map (fun t => t.2.2)).sum) ht
    simpa [List.map_map, Function.comp_def] using this

/-- Witness for C11: a tree whose registers all read `0`. -/
theorem ast2400_pci_status_seven_windows_witness :
    (ast2400_pci_status (fixed_soc ["aspeed,ast2400"] (fun _ => 0)) 0 zero_interfaces.pci).1.1
        = 0 ∧
      (pci_windows (ast2400_pci_status (fixed_soc ["aspeed,ast2400"] (fun _ => 0)) 0
          zero_interfaces.pci).1.2).length = 7 :=
  ⟨by decide, (ast2400_pci_status_seven_windows (fixed_soc ["aspeed,ast2400"] (fun _ => 0)) 0
    zero_interfaces.pci (by decide)).2.1⟩

/-- Counterexample to C11 as stated (six named windows): on a tree whose registers all
read `0` the probe succeeds and leaves seven named windows, the seventh being `Reserved`. -/
theorem ast2400_pci_status_not_six_windows :
    (ast2400_pci_status (fixed_soc ["aspeed,ast2400"] (fun _ => 0)) 0 zero_interfaces.pci).1.1
        = 0 ∧
      (pci_windows (ast2400_pci_status (fixed_soc ["aspeed,ast2400"] (fun _ => 0)) 0
          zero_interfaces.pci).1.2).map (fun w => w.name) =
        ["Firmware", "SoC IO", "BMC Flash", "Host Flash", "DRAM", "LPC Host", "Reserved"] ∧
      (pci_windows (ast2400_pci_status (fixed_soc ["aspeed,ast2400"] (fun _ => 0)) 0
          zero_interfaces.pci).1.2).length ≠ 6 := by
  decide

/-- Claim C12: a node compatible with `aspeed,ast2500` (and not with `aspeed,ast2400`,
which the table lists first) selects `ast2500_pci_status` as its PCI probe, and a
successful run of that probe leaves the table of the second generation, where `Firmware`
is at `0x0` with length `0x10000000` and `DRAM` at `0x80000000` with length `0x80000000`. -/
theorem ast2500_selects_generation_b_table (api : Soc σ) :
    (∀ dn : soc_device_node, "aspeed,ast2500" ∈ dn.compatible →
        "aspeed,ast2400" ∉ dn.compatible →
        (soc_device_get_match_data (soc_match api) dn).map (fun ops => ops.pci_status) =
          some (ast2500_pci_status api)) ∧
      ∀ (s : σ) (cap : ast_cap_pci), (ast2500_pci_status api s cap).1.1 = 0 →
        (((ast2500_pci_status api s cap).1.2.ranges p2ab_ranges.p2ab_fw).name = "Firmware" ∧
          ((ast2500_pci_status api s cap).1.2.ranges p2ab_ranges.p2ab_fw).start = 0 ∧
          ((ast2500_pci_status api s cap).1.2.ranges p2ab_ranges.p2ab_fw).len = 0x10000000) ∧
        (((ast2500_pci_status api s cap).1.2.ranges p2ab_ranges.p2ab_dram).name = "DRAM" ∧
          ((ast2500_pci_status api s cap).1.2.ranges p2ab_ranges.p2ab_dram).start
            = 0x80000000 ∧
          ((ast2500_pci_status api s cap).1.2.ranges p2ab_ranges.p2ab_dram).len
            = 0x80000000) ∧
        (pci_windows (ast2500_pci_status api s cap).1.2).map
            (fun w => (w.name, w.start, w.len)) =
          [("Firmware", 0, 0x10000000), ("SoC IO", 0x10000000, 0x10000000),
            ("BMC Flash", 0x20000000, 0x10000000), ("Host Flash", 0x30000000, 0x10000000),
            ("DRAM", 0x80000000, 0x80000000), ("LPC Host", 0x60000000, 0x20000000),
            ("Reserved", 0x40000000, 0x20000000)] := by
  refine ⟨fun dn h5 h4 => ?_, fun s cap h => ?_⟩
  · simp [soc_device_get_match_data, soc_match, h4, h5, ast2500_ops]
  · have hk := (ast2500_pci_status_ok api s cap _ rfl _ rfl _ rfl _ rfl h).2.1
    refine ⟨?_, ?_, ast2500_windows_table _ _ _ (congrArg ast_cap_pci.ranges hk)⟩
    · rw [hk]
      exact ⟨rfl, rfl, rfl⟩
    · rw [hk]
      exact ⟨rfl, rfl, rfl⟩

/-- Witness for C12: a tree of the second generation whose registers all read `0`. -/
theorem ast2500_selects_generation_b_table_witness :
    (ast2500_pci_status (fixed_soc ["aspeed,ast2500"] (fun _ => 0)) 0 zero_interfaces.pci).1.1
        = 0 ∧
      ((ast2500_pci_status (fixed_soc ["aspeed,ast2500"] (fun _ => 0)) 0
        zero_interfaces.pci).1.2.ranges p2ab_ranges.p2ab_dram).start = 0x80000000 :=
  ⟨by decide, ((ast2500_selects_generation_b_table (fixed_soc ["aspeed,ast2500"]
    (fun _ => 0))).2 0 zero_interfaces.pci (by decide)).2.1.2.1⟩

/-- Claim C13, as the code has it: both PCI probes gate the `DRAM` window with the same
bit, bit 25, of the value read at offset `0x2c` of the SCU window. A successful probe of
either generation looks up the SCU node (`m`) and its window (`g`), reads offset `0x180`
(`c`) and then offset `0x2c` (`v`) of that window, and leaves `DRAM` writable exactly
when bit 25 of the value `v.1.2` delivered by that last read is clear. -/
theorem pci_status_dram_gated_by_bit_25 (api : Soc σ) (s : σ) (cap : ast_cap_pci) :
    ((ast2400_pci_status api s cap).1.1 = 0 →
      let m := api.soc_device_match_node ["aspeed,ast2400-scu"] s
      let g := api.soc_device_get_memory m.1.2 m.2
      let c := api.soc_readl ((g.1.2.start + 0x180) % 2 ^ 32) g.2
      let v := api.soc_readl ((g.1.2.start + 0x2c) % 2 ^ 32) c.2
      status_log (ast2400_pci_status api.logged) s cap =
          [SocEv.match_node ["aspeed,ast2400-scu"] m.1.1, SocEv.get_memory g.1.1,
            SocEv.readl ((g.1.2.start + 0x180) % 2 ^ 32) c.1.1 c.1.2,
            SocEv.readl ((g.1.2.start + 0x2c) % 2 ^ 32) 0 v.1.2] ∧
        ((ast2400_pci_status api s cap).1.2.ranges p2ab_ranges.p2ab_dram).rw
          = !v.1.2.testBit 25) ∧
    ((ast2500_pci_status api s cap).1.1 = 0 →
      let m := api.soc_device_match_node ["aspeed,ast2500-scu"] s
      let g := api.soc_device_get_memory m.1.2 m.2
      let c := api.soc_readl ((g.1.2.start + 0x180) % 2 ^ 32) g.2
      let v := api.soc_readl ((g.1.2.start + 0x2c) % 2 ^ 32) c.2
      status_log (ast2500_pci_status api.logged) s cap =
          [SocEv.match_node ["aspeed,ast2500-scu"] m.1.1, SocEv.get_memory g.1.1,
            SocEv.readl ((g.1.2.start + 0x180) % 2 ^ 32) c.1.1 c.1.2,
            SocEv.readl ((g.1.2.start + 0x2c) % 2 ^ 32) v.1.1 v.1.2] ∧
        ((ast2500_pci_status api s cap).1.2.ranges p2ab_ranges.p2ab_dram).rw
          = !v.1.2.testBit 25) := by
  refine ⟨fun h => ?_, fun h => ?_⟩
  · dsimp only
    have hk := ast2400_pci_status_ok api s cap _ rfl _ rfl _ rfl _ rfl h
    refine ⟨hk.1, ?_⟩
    rw [hk.2.1]
    exact and_bit_eq_zero _ 25
  · dsimp only
    have hk := ast2500_pci_status_ok api s cap _ rfl _ rfl _ rfl _ rfl h
    refine ⟨hk.1, ?_⟩
    rw [hk.2.1]
    exact and_bit_eq_zero _ 25

/-- Witness for C13: trees of both generations where only the register at offset `0x2c`
of the SCU window has bit 25 set (the other registers read all ones but bit 25, or `0`):
both probes succeed and leave `DRAM` read-only; with the contents exchanged both leave it
writable. -/
theorem pci_status_dram_gated_by_bit_25_witness :
    ((ast2400_pci_status (fixed_soc ["aspeed,ast2400"]
          (probe_regs 0xfdffffff (1 <<< 25) 0 0)) 0 zero_interfaces.pci).1.1 = 0 ∧
      ((ast2400_pci_status (fixed_soc ["aspeed,ast2400"]
          (probe_regs 0xfdffffff (1 <<< 25) 0 0)) 0 zero_interfaces.pci).1.2.ranges
        p2ab_ranges.p2ab_dram).rw = false) ∧
    ((ast2500_pci_status (fixed_soc ["aspeed,ast2500"]
          (probe_regs 0xfdffffff (1 <<< 25) 0 0)) 0 zero_interfaces.pci).1.1 = 0 ∧
      ((ast2500_pci_status (fixed_soc ["aspeed,ast2500"]
          (probe_regs 0xfdffffff (1 <<< 25) 0 0)) 0 zero_interfaces.pci).1.2.ranges
        p2ab_ranges.p2ab_dram).rw = false) ∧
    ((ast2400_pci_status (fixed_soc ["aspeed,ast2400"]
          (probe_regs (1 <<< 25) 0xfdffffff 0 0)) 0 zero_interfaces.pci).1.2.ranges
        p2ab_ranges.p2ab_dram).rw = true ∧
    ((ast2500_pci_status (fixed_soc ["aspeed,ast2500"]
          (probe_regs (1 <<< 25) 0xfdffffff 0 0)) 0 zero_interfaces.pci).1.2.ranges
        p2ab_ranges.p2ab_dram).rw = true :=
  ⟨⟨by decide, (((pci_status_dram_gated_by_bit_25 (fixed_soc ["aspeed,ast2400"]
        (probe_regs 0xfdffffff (1 <<< 25) 0 0)) 0 zero_interfaces.pci).1 (by decide)).2).trans
      (by decide)⟩,
    ⟨by decide, (((pci_status_dram_gated_by_bit_25 (fixed_soc ["aspeed,ast2500"]
        (probe_regs 0xfdffffff (1 <<< 25) 0 0)) 0 zero_interfaces.pci).2 (by decide)).2).trans
      (by decide)⟩,
    (((pci_status_dram_gated_by_bit_25 (fixed_soc ["aspeed,ast2400"]
        (probe_regs (1 <<< 25) 0xfdffffff 0 0)) 0 zero_interfaces.pci).1 (by decide)).2).trans
      (by decide),
    (((pci_status_dram_gated_by_bit_25 (fixed_soc ["aspeed,ast2500"]
        (probe_regs (1 <<< 25) 0xfdffffff 0 0)) 0 zero_interfaces.pci).2 (by decide)).2).trans
      (by decide)⟩

/-- Counterexample to C13 as stated (a different bit in the second generation): the two
masks are the same number, and on trees whose `SCU_MISC` reads `1 <<< 25` both probes
leave `DRAM` read-only, while on trees where it reads every other bit
(`0xfdffffff`) both leave it writable. -/
theorem pci_status_dram_same_bit :
    SCU_MISC_G5_P2A_DRAM_RO = SCU_MISC_G4_P2A_DRAM_RO ∧
      ((ast2400_pci_status (fixed_soc ["aspeed,ast2400"] (fun _ => 1 <<< 25)) 0
          zero_interfaces.pci).1.2.ranges p2ab_ranges.p2ab_dram).rw = false ∧
      ((ast2500_pci_status (fixed_soc ["aspeed,ast2500"] (fun _ => 1 <<< 25)) 0
          zero_interfaces.pci).1.2.ranges p2ab_ranges.p2ab_dram).rw = false ∧
      ((ast2400_pci_status (fixed_soc ["aspeed,ast2400"] (fun _ => 0xfdffffff)) 0
          zero_interfaces.pci).1.2.ranges p2ab_ranges.p2ab_dram).rw = true ∧
      ((ast2500_pci_status (fixed_soc ["aspeed,ast2500"] (fun _ => 0xfdffffff)) 0
          zero_interfaces.pci).1.2.ranges p2ab_ranges.p2ab_dram).rw = true := by
  decide

/-- Claim C15: in both PCI probes the six flags come from the one value read at offset
`0x180` of the SCU window. A successful probe of either generation looks up the SCU node
(`m`) and its window (`g`), reads offset `0x180` (`c`) once, then offset `0x2c` (`v`),
and leaves `vga`, `vga_mmio`, `vga_xdma`, `bmc`, `bmc_mmio`, `bmc_xdma` Enabled when bit
0, 1, 6, 8, 9, 14 of the value `c.1.2` delivered by the read of `0x180` is set, and
Disabled when it is clear; so each is Enabled or Disabled. -/
theorem pci_status_flags_from_pcie_config (api : Soc σ) (s : σ) (cap : ast_cap_pci) :
    ((ast2400_pci_status api s cap).1.1 = 0 →
      let m := api.soc_device_match_node ["aspeed,ast2400-scu"] s
      let g := api.soc_device_get_memory m.1.2 m.2
      let c := api.soc_readl ((g.1.2.start + 0x180) % 2 ^ 32) g.2
      let v := api.soc_readl ((g.1.2.start + 0x2c) % 2 ^ 32) c.2
      status_log (ast2400_pci_status api.logged) s cap =
          [SocEv.match_node ["aspeed,ast2400-scu"] m.1.1, SocEv.get_memory g.1.1,
            SocEv.readl ((g.1.2.start + 0x180) % 2 ^ 32) c.1.1 c.1.2,
            SocEv.readl ((g.1.2.start + 0x2c) % 2 ^ 32) 0 v.1.2] ∧
        pci_flags (ast2400_pci_status api s cap).1.2 =
          [if c.1.2.testBit 0 then ast_ip_state.ip_state_enabled
              else ast_ip_state.ip_state_disabled,
            if c.1.2.testBit 1 then ast_ip_state.ip_state_enabled
              else ast_ip_state.ip_state_disabled,
            if c.1.2.testBit 6 then ast_ip_state.ip_state_enabled
              else ast_ip_state.ip_state_disabled,
            if c.1.2.testBit 8 then ast_ip_state.ip_state_enabled
              else ast_ip_state.ip_state_disabled,
            if c.1.2.testBit 9 then ast_ip_state.ip_state_enabled
              else ast_ip_state.ip_state_disabled,
            if c.1.2.testBit 14 then ast_ip_state.ip_state_enabled
              else ast_ip_state.ip_state_disabled] ∧
        ∀ f ∈ pci_flags (ast2400_pci_status api s cap).1.2,
          f = ast_ip_state.ip_state_enabled ∨ f = ast_ip_state.ip_state_disabled) ∧
    ((ast2500_pci_status api s cap).1.1 = 0 →
      let m := api.soc_device_match_node ["aspeed,ast2500-scu"] s
      let g := api.soc_device_get_memory m.1.2 m.2
      let c := api.soc_readl ((g.1.2.start + 0x180) % 2 ^ 32) g.2
      let v := api.soc_readl ((g.1.2.start + 0x2c) % 2 ^ 32) c.2
      status_log (ast2500_pci_status api.logged) s cap =
          [SocEv.match_node ["aspeed,ast2500-scu"] m.1.1, SocEv.get_memory g.1.1,
            SocEv.readl ((g.1.2.start + 0x180) % 2 ^ 32) c.1.1 c.1.2,
            SocEv.readl ((g.1.2.start + 0x2c) % 2 ^ 32) v.1.1 v.1.2] ∧
        pci_flags (ast2500_pci_status api s cap).1.2 =
          [if c.1.2.testBit 0 then ast_ip_state.ip_state_enabled
              else ast_ip_state.ip_state_disabled,
            if c.1.2.testBit 1 then ast_ip_state.ip_state_enabled
              else ast_ip_state.ip_state_disabled,
            if c.1.2.testBit 6 then ast_ip_state.ip_state_enabled
              else ast_ip_state.ip_state_disabled,
            if c.1.2.testBit 8 then ast_ip_state.ip_state_enabled
              else ast_ip_state.ip_state_disabled,
            if c.1.2.testBit 9 then ast_ip_state.ip_state_enabled
              else ast_ip_state.ip_state_disabled,
            if c.1.2.testBit 14 then ast_ip_state.ip_state_enabled
              else ast_ip_state.ip_state_disabled] ∧
        ∀ f ∈ pci_flags (ast2500_pci_status api s cap).1.2,
          f = ast_ip_state.ip_state_enabled ∨ f = ast_ip_state.ip_state_disabled) := by
  have hflags : ∀ (d c : ast_cap_pci) (r : p2ab_ranges → ahb_range) (v : Nat),
      d = { pcie_config_flags c v with ranges := r } →
      pci_flags d =
        [if v.testBit 0 then ast_ip_state.ip_state_enabled
            else ast_ip_state.ip_state_disabled,
          if v.testBit 1 then ast_ip_state.ip_state_enabled
            else ast_ip_state.ip_state_disabled,
          if v.testBit 6 then ast_ip_state.ip_state_enabled
            else ast_ip_state.ip_state_disabled,
          if v.testBit 8 then ast_ip_state.ip_state_enabled
            else ast_ip_state.ip_state_disabled,
          if v.testBit 9 then ast_ip_state.ip_state_enabled
            else ast_ip_state.ip_state_disabled,
          if v.testBit 14 then ast_ip_state.ip_state_enabled
            else ast_ip_state.ip_state_disabled] := by
    intro d c r v hd
    subst hd
    simp only [pci_flags, pcie_config_flags, enabled_if, SCU_PCIE_CONFIG_VGA,
      SCU_PCIE_CONFIG_VGA_MMIO, SCU_PCIE_CONFIG_VGA_XDMA, SCU_PCIE_CONFIG_BMC,
      SCU_PCIE_CONFIG_BMC_MMIO, SCU_PCIE_CONFIG_BMC_XDMA, and_bit_ne_zero]
  have hmem : ∀ (l : List ast_ip_state) (v : Nat),
      l = [if v.testBit 0 then ast_ip_state.ip_state_enabled
            else ast_ip_state.ip_state_disabled,
          if v.testBit 1 then ast_ip_state.ip_state_enabled
            else ast_ip_state.ip_state_disabled,
          if v.testBit 6 then ast_ip_state.ip_state_enabled
            else ast_ip_state.ip_state_disabled,
          if v.testBit 8 then ast_ip_state.ip_state_enabled
            else ast_ip_state.ip_state_disabled,
          if v.testBit 9 then ast_ip_state.ip_state_enabled
            else ast_ip_state.ip_state_disabled,
          if v.testBit 14 then ast_ip_state.ip_state_enabled
            else ast_ip_state.ip_state_disabled] →
      ∀ f ∈ l, f = ast_ip_state.ip_state_enabled ∨ f = ast_ip_state.ip_state_disabled := by
    intro l v hl f hf
    rw [hl] at hf
    simp only [List.mem_cons, List.mem_singleton, List.not_mem_nil, or_false] at hf
    rcases hf with rfl | rfl | rfl | rfl | rfl | rfl <;> split <;> simp
  refine ⟨fun h => ?_, fun h => ?_⟩
  · dsimp only
    have hk := ast2400_pci_status_ok api s cap _ rfl _ rfl _ rfl _ rfl h
    have hf := hflags _ _ _ _ hk.2.1
    exact ⟨hk.1, hf, hmem _ _ hf⟩
  · dsimp only
    have hk := ast2500_pci_status_ok api s cap _ rfl _ rfl _ rfl _ rfl h
    have hf := hflags _ _ _ _ hk.2.1
    exact ⟨hk.1, hf, hmem _ _ hf⟩

/-- Witness for C15: trees of both generations where the register at offset `0x180` of
the SCU window reads `0x103` (bits 0, 1 and 8) and the one at offset `0x2c` reads
`0x4240` (bits 6, 9 and 14): both probes succeed with `vga`, `vga_mmio` and `bmc`
Enabled and `vga_xdma`, `bmc_mmio` and `bmc_xdma` Disabled. -/
theorem pci_status_flags_from_pcie_config_witness :
    ((ast2400_pci_status (fixed_soc ["aspeed,ast2400"] (probe_regs 0x103 0x4240 0 0)) 0
          zero_interfaces.pci).1.1 = 0 ∧
      pci_flags (ast2400_pci_status (fixed_soc ["aspeed,ast2400"]
          (probe_regs 0x103 0x4240 0 0)) 0 zero_interfaces.pci).1.2 =
        [ast_ip_state.ip_state_enabled, ast_ip_state.ip_state_enabled,
          ast_ip_state.ip_state_disabled, ast_ip_state.ip_state_enabled,
          ast_ip_state.ip_state_disabled, ast_ip_state.ip_state_disabled]) ∧
    ((ast2500_pci_status (fixed_soc ["aspeed,ast2500"] (probe_regs 0x103 0x4240 0 0)) 0
          zero_interfaces.pci).1.1 = 0 ∧
      pci_flags (ast2500_pci_status (fixed_soc ["aspeed,ast2500"]
          (probe_regs 0x103 0x4240 0 0)) 0 zero_interfaces.pci).1.2 =
        [ast_ip_state.ip_state_enabled, ast_ip_state.ip_state_enabled,
          ast_ip_state.ip_state_disabled, ast_ip_state.ip_state_enabled,
          ast_ip_state.ip_state_disabled, ast_ip_state.ip_state_disabled]) :=
  ⟨⟨by decide, (((pci_status_flags_from_pcie_config (fixed_soc ["aspeed,ast2400"]
        (probe_regs 0x103 0x4240 0 0)) 0 zero_interfaces.pci).1 (by decide)).2.1).trans
      (by decide)⟩,
    ⟨by decide, (((pci_status_flags_from_pcie_config (fixed_soc ["aspeed,ast2500"]
        (probe_regs 0x103 0x4240 0 0)) 0 zero_interfaces.pci).2 (by decide)).2.1).trans
      (by decide)⟩⟩

/-- Claim C20: after a successful PCI probe of either generation the seven windows tile
the 32-bit bus: ordered by start address the first starts at `0`, each starts where the
one before it ends, the last ends at `0x100000000`, none is empty and no two overlap. -/
theorem pci_status_windows_tile_the_bus (api : Soc σ) (s : σ) (cap : ast_cap_pci) :
    ((ast2400_pci_status api s cap).1.1 = 0 →
      tiles_bus (pci_windows (ast2400_pci_status api s cap).1.2) = true) ∧
    ((ast2500_pci_status api s cap).1.1 = 0 →
      tiles_bus (pci_windows (ast2500_pci_status api s cap).1.2) = true) := by
  refine ⟨fun h => ?_, fun h => ?_⟩
  · have hk := (ast2400_pci_status_ok api s cap _ rfl _ rfl _ rfl _ rfl h).2.1
    exact tiles_bus_of_table _ _
      (ast2400_windows_table _ _ _ (congrArg ast_cap_pci.ranges hk)) (Or.inr (by decide))
  · have hk := (ast2500_pci_status_ok api s cap _ rfl _ rfl _ rfl _ rfl h).2.1
    exact tiles_bus_of_table _ _
      (ast2500_windows_table _ _ _ (congrArg ast_cap_pci.ranges hk)) (Or.inl (by decide))

/-- Witness for C20: trees of both generations whose registers all read `0`. -/
theorem pci_status_windows_tile_the_bus_witness :
    ((ast2400_pci_status (fixed_soc ["aspeed,ast2400"] (fun _ => 0)) 0
        zero_interfaces.pci).1.1 = 0 ∧
      tiles_bus (pci_windows (ast2400_pci_status (fixed_soc ["aspeed,ast2400"] (fun _ => 0)) 0
        zero_interfaces.pci).1.2) = true) ∧
    ((ast2500_pci_status (fixed_soc ["aspeed,ast2500"] (fun _ => 0)) 0
        zero_interfaces.pci).1.1 = 0 ∧
      tiles_bus (pci_windows (ast2500_pci_status (fixed_soc ["aspeed,ast2500"] (fun _ => 0)) 0
        zero_interfaces.pci).1.2) = true) :=
  ⟨⟨by decide, (pci_status_windows_tile_the_bus (fixed_soc ["aspeed,ast2400"] (fun _ => 0)) 0
      zero_interfaces.pci).1 (by decide)⟩,
    ⟨by decide, (pci_status_windows_tile_the_bus (fixed_soc ["aspeed,ast2500"] (fun _ => 0)) 0
      zero_interfaces.pci).2 (by decide)⟩⟩

end PciClaims

/-! ## C17, C18, C19: the LPC, debug and XDMA probes -/

section ProbeClaims

variable {σ : Type}

theorem and_bit_ne_zero_iff (v k : Nat) : v &&& (1 <<< k) ≠ 0 ↔ v.testBit k = true := by
  rw [← and_bit_ne_zero]
  simp

theorem enabled_if_bit_clear (v k : Nat) :
    enabled_if (v &&& (1 <<< k) == 0) =
      (if v.testBit k = false then ast_ip_state.ip_state_enabled
        else ast_ip_state.ip_state_disabled) := by
  rw [and_bit_eq_zero, enabled_if]
  cases v.testBit k <;> rfl

theorem and_bit_clear_iff (v k : Nat) :
    (v &&& (1 <<< k) == 0) = true ↔ v.testBit k = false := by
  rw [and_bit_eq_zero]
  cases v.testBit k <;> simp

theorem uart_select_bit (v k : Nat) :
    (if v &&& (1 <<< k) ≠ 0 then debug_uart.debug_uart5 else debug_uart.debug_uart1) =
      (if v.testBit k = true then debug_uart.debug_uart5 else debug_uart.debug_uart1) := by
  simp only [and_bit_ne_zero_iff]

/-- Claim C17: a successful `ast_ilpc_status` looks up the SCU node (`m1`) and its window
(`g1`), the LPC node (`m2`) and its window (`g2`), reads `strap` at offset `0x70` of the
SCU window (`r1`) and `hicrb` at offset `0x100` of the LPC window (`r2`), sets `superio`
to Enabled when bit 20 of `strap` is clear and to Disabled otherwise, sets `ilpc.rw` to
true exactly when bit 6 of `hicrb` is clear, and reports the window of the internal
bridge as start `0`, length `2 ^ 32`. -/
theorem ast_ilpc_status_report (api : Soc σ) (s : σ) (cap : ast_cap_lpc)
    (h : (ast_ilpc_status api s cap).1.1 = 0) :
    let m1 := api.soc_device_match_node ["aspeed,ast2400-scu", "aspeed,ast2500-scu"] s
    let g1 := api.soc_device_get_memory m1.1.2 m1.2
    let m2 := api.soc_device_match_node ["aspeed,ast2400-lpc-v2", "aspeed,ast2500-lpc-v2"]
      g1.2
    let g2 := api.soc_device_get_memory m2.1.2 m2.2
    let r1 := api.soc_readl ((g1.1.2.start + 0x70) % 2 ^ 32) g2.2
    let r2 := api.soc_readl ((g2.1.2.start + 0x100) % 2 ^ 32) r1.2
    status_log (ast_ilpc_status api.logged) s cap =
        [SocEv.match_node ["aspeed,ast2400-scu", "aspeed,ast2500-scu"] m1.1.1,
          SocEv.get_memory g1.1.1,
          SocEv.match_node ["aspeed,ast2400-lpc-v2", "aspeed,ast2500-lpc-v2"] m2.1.1,
          SocEv.get_memory g2.1.1,
          SocEv.readl ((g1.1.2.start + 0x70) % 2 ^ 32) r1.1.1 r1.1.2,
          SocEv.readl ((g2.1.2.start + 0x100) % 2 ^ 32) r2.1.1 r2.1.2] ∧
      (ast_ilpc_status api s cap).1.2.superio =
        (if r1.1.2.testBit 20 = false then ast_ip_state.ip_state_enabled
          else ast_ip_state.ip_state_disabled) ∧
      ((ast_ilpc_status api s cap).1.2.ilpc.rw = true ↔ r2.1.2.testBit 6 = false) ∧
      (ast_ilpc_status api s cap).1.2.ilpc.start = 0 ∧
      (ast_ilpc_status api s cap).1.2.ilpc.len = 2 ^ 32 := by
  dsimp only
  have hk := ast_ilpc_status_ok api s cap _ rfl _ rfl _ rfl _ rfl _ rfl _ rfl h
  refine ⟨hk.1, ?_, ?_, ?_, ?_⟩
  · rw [hk.2.1]
    exact enabled_if_bit_clear _ 20
  · rw [hk.2.1]
    exact and_bit_clear_iff _ 6
  · rw [hk.2.1]
  · rw [hk.2.1]
    rfl

/-- Witness for C17: a tree where `strap` (offset `0x70`) has bit 20 set and everything
else clear, and `hicrb` (offset `0x100`) reads all ones but bit 6: the probe succeeds,
`superio` is Disabled, `ilpc.rw` is true and the window is `0`, `2 ^ 32`. -/
theorem ast_ilpc_status_report_witness :
    (ast_ilpc_status (fixed_soc ["aspeed,ast2500"] (probe_regs 0 0 (1 <<< 20) 0xffffffbf)) 0
        zero_interfaces.lpc).1.1 = 0 ∧
      (ast_ilpc_status (fixed_soc ["aspeed,ast2500"] (probe_regs 0 0 (1 <<< 20) 0xffffffbf))
        0 zero_interfaces.lpc).1.2.superio = ast_ip_state.ip_state_disabled ∧
      (ast_ilpc_status (fixed_soc ["aspeed,ast2500"] (probe_regs 0 0 (1 <<< 20) 0xffffffbf))
        0 zero_interfaces.lpc).1.2.ilpc.rw = true ∧
      (ast_ilpc_status (fixed_soc ["aspeed,ast2500"] (probe_regs 0 0 (1 <<< 20) 0xffffffbf))
        0 zero_interfaces.lpc).1.2.ilpc.len = 2 ^ 32 :=
  ⟨by decide,
    ((ast_ilpc_status_report (fixed_soc ["aspeed,ast2500"]
      (probe_regs 0 0 (1 <<< 20) 0xffffffbf)) 0 zero_interfaces.lpc (by decide)).2.1).trans
      (by decide),
    ((ast_ilpc_status_report (fixed_soc ["aspeed,ast2500"]
      (probe_regs 0 0 (1 <<< 20) 0xffffffbf)) 0 zero_interfaces.lpc (by decide)).2.2.1).mpr
      (by decide),
    (ast_ilpc_status_report (fixed_soc ["aspeed,ast2500"]
      (probe_regs 0 0 (1 <<< 20) 0xffffffbf)) 0 zero_interfaces.lpc (by decide)).2.2.2.2⟩

/-- Claim C18: a successful `ast2500_debug_status` looks up the SCU node (`m`) and its
window (`g`), reads `misc` at offset `0x2c` (`r1`) and `strap` at offset `0x70` (`r2`) of
that window, sets `debug` to Enabled when bit 10 of `misc` is clear and to Disabled when
it is set, and sets the selector to Uart5 when bit 29 of `strap` is set and to Uart1
otherwise; `debug` is neither Unknown nor Absent. -/
theorem ast2500_debug_status_report (api : Soc σ) (s : σ) (cap : ast_cap_uart)
    (h : (ast2500_debug_status api s cap).1.1 = 0) :
    let m := api.soc_device_match_node ["aspeed,ast2500-scu"] s
    let g := api.soc_device_get_memory m.1.2 m.2
    let r1 := api.soc_readl ((g.1.2.start + 0x2c) % 2 ^ 32) g.2
    let r2 := api.soc_readl ((g.1.2.start + 0x70) % 2 ^ 32) r1.2
    status_log (ast2500_debug_status api.logged) s cap =
        [SocEv.match_node ["aspeed,ast2500-scu"] m.1.1, SocEv.get_memory g.1.1,
          SocEv.readl ((g.1.2.start + 0x2c) % 2 ^ 32) r1.1.1 r1.1.2,
          SocEv.readl ((g.1.2.start + 0x70) % 2 ^ 32) r2.1.1 r2.1.2] ∧
      (ast2500_debug_status api s cap).1.2.debug =
        (if r1.1.2.testBit 10 = false then ast_ip_state.ip_state_enabled
          else ast_ip_state.ip_state_disabled) ∧
      (ast2500_debug_status api s cap).1.2.uart =
        (if r2.1.2.testBit 29 = true then debug_uart.debug_uart5
          else debug_uart.debug_uart1) ∧
      ((ast2500_debug_status api s cap).1.2.debug ≠ ast_ip_state.ip_state_unknown ∧
        (ast2500_debug_status api s cap).1.2.debug ≠ ast_ip_state.ip_state_absent) := by
  dsimp only
  have hk := ast2500_debug_status_ok api s cap _ rfl _ rfl _ rfl _ rfl h
  refine ⟨hk.1, ?_, ?_, ?_⟩
  · rw [hk.2.1]
    exact enabled_if_bit_clear _ 10
  · rw [hk.2.1]
    exact uart_select_bit _ 29
  · rw [hk.2.1]
    simp only [enabled_if]
    split <;> exact ⟨by decide, by decide⟩

/-- Witness for C18: a tree where `misc` (offset `0x2c`) has bit 10 set and `strap`
(offset `0x70`) has bit 29 set: the probe succeeds with `debug` Disabled on Uart5; with
both registers reading `0` it succeeds with `debug` Enabled on Uart1. With the window at
`0xfffffff0` the two reads are at `0x1c` and `0x60`. -/
theorem ast2500_debug_status_report_witness :
    ((ast2500_debug_status (fixed_soc ["aspeed,ast2500"]
          (probe_regs 0 (1 <<< 10) (1 <<< 29) 0)) 0 zero_interfaces.uart).1.1 = 0 ∧
      (ast2500_debug_status (fixed_soc ["aspeed,ast2500"]
          (probe_regs 0 (1 <<< 10) (1 <<< 29) 0)) 0 zero_interfaces.uart).1.2.debug =
        ast_ip_state.ip_state_disabled ∧
      (ast2500_debug_status (fixed_soc ["aspeed,ast2500"]
          (probe_regs 0 (1 <<< 10) (1 <<< 29) 0)) 0 zero_interfaces.uart).1.2.uart =
        debug_uart.debug_uart5) ∧
    ((ast2500_debug_status (fixed_soc ["aspeed,ast2500"] (probe_regs 0 0 0 0)) 0
          earlier_interfaces.uart).1.1 = 0 ∧
      (ast2500_debug_status (fixed_soc ["aspeed,ast2500"] (probe_regs 0 0 0 0)) 0
          earlier_interfaces.uart).1.2.debug = ast_ip_state.ip_state_enabled ∧
      (ast2500_debug_status (fixed_soc ["aspeed,ast2500"] (probe_regs 0 0 0 0)) 0
          earlier_interfaces.uart).1.2.uart = debug_uart.debug_uart1) ∧
    ((ast2500_debug_status (high_window_soc ["aspeed,ast2500"] (fun _ => 0)) 0
          zero_interfaces.uart).1.1 = 0 ∧
      status_log (ast2500_debug_status
          (high_window_soc ["aspeed,ast2500"] (fun _ => 0)).logged) 0 zero_interfaces.uart =
        [SocEv.match_node ["aspeed,ast2500-scu"] 0, SocEv.get_memory 0,
          SocEv.readl 0x1c 0 0, SocEv.readl 0x60 0 0]) :=
  ⟨⟨by decide,
      ((ast2500_debug_status_report (fixed_soc ["aspeed,ast2500"]
        (probe_regs 0 (1 <<< 10) (1 <<< 29) 0)) 0 zero_interfaces.uart
        (by decide)).2.1).trans (by decide),
      ((ast2500_debug_status_report (fixed_soc ["aspeed,ast2500"]
        (probe_regs 0 (1 <<< 10) (1 <<< 29) 0)) 0 zero_interfaces.uart
        (by decide)).2.2.1).trans (by decide)⟩,
    ⟨by decide,
      ((ast2500_debug_status_report (fixed_soc ["aspeed,ast2500"] (probe_regs 0 0 0 0)) 0
        earlier_interfaces.uart (by decide)).2.1).trans (by decide),
      ((ast2500_debug_status_report (fixed_soc ["aspeed,ast2500"] (probe_regs 0 0 0 0)) 0
        earlier_interfaces.uart (by decide)).2.2.1).trans (by decide)⟩,
    ⟨by decide,
      ((ast2500_debug_status_report (high_window_soc ["aspeed,ast2500"] (fun _ => 0)) 0
        zero_interfaces.uart (by decide)).1).trans (by decide)⟩⟩

/-- Claim C19: `ast_xdma_status` returns `-ENODEV` and leaves the record alone when
`sdmc_get` yields no controller; returns the code of `sdmc_constrains_xdma` and leaves
the record alone when that code is negative; and for the two successful answers of the
query, `0` (not constrained) and `1` (constrained), returns `0` with `unconstrained` true
for `0` and false for `1`. -/
theorem ast_xdma_status_cases (api : Soc σ) (s : σ) (cap : ast_cap_xdma) :
    ((api.sdmc_get s).1 = none →
      (ast_xdma_status api s cap).1 = (-ENODEV, cap)) ∧
    ∀ sdmc, (api.sdmc_get s).1 = some sdmc →
      ((api.sdmc_constrains_xdma sdmc (api.sdmc_get s).2).1 < 0 →
        (ast_xdma_status api s cap).1 =
          ((api.sdmc_constrains_xdma sdmc (api.sdmc_get s).2).1, cap)) ∧
      ((api.sdmc_constrains_xdma sdmc (api.sdmc_get s).2).1 = 0 →
        (ast_xdma_status api s cap).1 = (0, ⟨true⟩)) ∧
      ((api.sdmc_constrains_xdma sdmc (api.sdmc_get s).2).1 = 1 →
        (ast_xdma_status api s cap).1 = (0, ⟨false⟩)) := by
  refine ⟨fun h => ?_, fun sdmc h => ⟨fun hc => ?_, fun hc => ?_, fun hc => ?_⟩⟩
  · simp only [ast_xdma_status, h]
  · simp only [ast_xdma_status, h, hc, if_true]
  · simp only [ast_xdma_status, h, hc]
    rfl
  · simp only [ast_xdma_status, h, hc]
    rfl

/-- Witness for C19: the four cases on concrete collaborators. -/
theorem ast_xdma_status_cases_witness :
    (ast_xdma_status (xdma_soc none 0) 0 ⟨true⟩).1 = (-ENODEV, ⟨true⟩) ∧
      (ast_xdma_status (xdma_soc (some 0) (-5)) 0 ⟨true⟩).1 = (-5, ⟨true⟩) ∧
      (ast_xdma_status (xdma_soc (some 0) 0) 0 ⟨false⟩).1 = (0, ⟨true⟩) ∧
      (ast_xdma_status (xdma_soc (some 0) 1) 0 ⟨true⟩).1 = (0, ⟨false⟩) :=
  ⟨(ast_xdma_status_cases (xdma_soc none 0) 0 ⟨true⟩).1 rfl,
    ((ast_xdma_status_cases (xdma_soc (some 0) (-5)) 0 ⟨true⟩).2 0 rfl).1 (by decide),
    ((ast_xdma_status_cases (xdma_soc (some 0) 0) 0 ⟨false⟩).2 0 rfl).2.1 rfl,
    ((ast_xdma_status_cases (xdma_soc (some 0) 1) 0 ⟨true⟩).2 0 rfl).2.2 rfl⟩

end ProbeClaims

/-! ## C14: what a report keeps from an earlier run -/

section Freshness

variable {σ : Type}

end Freshness

/-! ## C16: the operations of a word write -/

section WritelTrace

variable {σ : Type}

/-- Claim C16: for every transport, address `A` and value `V`, when every operation of
the call succeeds, `ilpcb_writel` issues exactly: unlock; select the iLPC2AHB device;
write `0x01` to `0x30`; write `2` to `0xf8`; write the four bytes of `A mod 2 ^ 32` to
`0xf0..0xf3` and the four bytes of `V mod 2 ^ 32` to `0xf4..0xf7`, most significant byte
first; write `0xcf` to `0xfe`; lock. -/
theorem ilpcb_writel_sequence (t : Sio σ) (addr val : Nat) (s : σ)
    (h : ∀ e ∈ writel_log t addr val s, e.rc = 0) :
    (writel_log t addr val s).map (fun e => e.op) =
        [SioOp.unlock, SioOp.select sio_dev.sio_ilpc, SioOp.writeb 0x30 0x01,
          SioOp.writeb 0xf8 2,
          SioOp.writeb 0xf0 ((addr >>> 24) % 256), SioOp.writeb 0xf1 ((addr >>> 16) % 256),
          SioOp.writeb 0xf2 ((addr >>> 8) % 256), SioOp.writeb 0xf3 (addr % 256),
          SioOp.writeb 0xf4 ((val >>> 24) % 256), SioOp.writeb 0xf5 ((val >>> 16) % 256),
          SioOp.writeb 0xf6 ((val >>> 8) % 256), SioOp.writeb 0xf7 (val % 256),
          SioOp.writeb 0xfe 0xcf, SioOp.lock] ∧
      ((addr >>> 24) % 256) * 2 ^ 24 + ((addr >>> 16) % 256) * 2 ^ 16 +
          ((addr >>> 8) % 256) * 2 ^ 8 + addr % 256 = addr % 2 ^ 32 ∧
      ((val >>> 24) % 256) * 2 ^ 24 + ((val >>> 16) % 256) * 2 ^ 16 +
          ((val >>> 8) % 256) * 2 ^ 8 + val % 256 = val % 2 ^ 32 := by
  have hb : ∀ x : Nat, ((x >>> 24) % 256) * 2 ^ 24 + ((x >>> 16) % 256) * 2 ^ 16 +
      ((x >>> 8) % 256) * 2 ^ 8 + x % 256 = x % 2 ^ 32 := by
    intro x
    simp only [Nat.shiftRight_eq_div_pow]
    omega
  refine ⟨?_, hb addr, hb val⟩
  have h0 := all_ok_dropLast _ h
  rw [(writel_run t addr val s).2, List.dropLast_concat] at h0
  rw [(writel_run t addr val s).2, List.map_append,
    run_plan_ops_complete t _ s ((or_codes_eq_zero _).mpr h0)]
  rfl

/-- Witness for C16: the word `0xdeadbeef` written at `0x1e789100` on a transport on which
everything succeeds. -/
theorem ilpcb_writel_sequence_witness :
    (writel_log script_sio 0x1e789100 0xdeadbeef []).map (fun e => e.op) =
      [SioOp.unlock, SioOp.select sio_dev.sio_ilpc, SioOp.writeb 0x30 0x01,
        SioOp.writeb 0xf8 2,
        SioOp.writeb 0xf0 0x1e, SioOp.writeb 0xf1 0x78, SioOp.writeb 0xf2 0x91,
        SioOp.writeb 0xf3 0x00,
        SioOp.writeb 0xf4 0xde, SioOp.writeb 0xf5 0xad, SioOp.writeb 0xf6 0xbe,
        SioOp.writeb 0xf7 0xef,
        SioOp.writeb 0xfe 0xcf, SioOp.lock] :=
  (ilpcb_writel_sequence script_sio 0x1e789100 0xdeadbeef [] (by decide)).1

end WritelTrace

/-! ## C21: the output of a word read -/

section Stores

variable {σ : Type}

theorem stores_of_relock (t : Sio σ) (b : (Int × Nat) × σ) :
    stores_of (relock t b) = relock t (stores_of b) :=
  rfl

theorem stores_of_fail (rc : Int) (v : Nat) (s : σ) (h : rc ≠ 0) :
    stores_of ((rc, v), s) = ((rc, []), s) := by
  simp [stores_of, h]

theorem stores_of_ok (rc : Int) (v : Nat) (s : σ) (h : ¬ rc ≠ 0) :
    stores_of ((rc, v), s) = ((rc, [v]), s) := by
  simp only [stores_of, if_neg h]

theorem ilpcb_readl_stores_eq (t : Sio σ) (addr val : Nat) (s : σ) :
    ilpcb_readl_stores t addr s = stores_of (ilpcb_readl t addr val s) := by
  simp only [ilpcb_readl, ilpcb_readl_stores]
  rw [stores_of_relock]
  apply congrArg (relock t)
  rw [apply_ite stores_of]
  refine ite_congr rfl (fun h => (stores_of_fail _ _ _ h).symm) (fun _ => ?_)
  rw [apply_ite stores_of]
  refine ite_congr rfl (fun h => (stores_of_fail _ _ _ h).symm) (fun _ => ?_)
  rw [apply_ite stores_of]
  refine ite_congr rfl (fun h => (stores_of_fail _ _ _ h).symm) (fun _ => ?_)
  rw [apply_ite stores_of]
  refine ite_congr rfl (fun h => (stores_of_fail _ _ _ h).symm) (fun _ => ?_)
  rw [apply_ite stores_of]
  refine ite_congr rfl (fun h => (stores_of_fail _ _ _ h).symm) (fun _ => ?_)
  rw [apply_ite stores_of]
  refine ite_congr rfl (fun h => (stores_of_fail _ _ _ h).symm) (fun _ => ?_)
  rw [apply_ite stores_of]
  exact ite_congr rfl (fun h => (stores_of_fail _ _ _ h).symm)
    (fun h => (stores_of_ok _ _ _ h).symm)

theorem data_reads_append_lock (l : List SioEv) (rc : Int) (d : Nat) :
    data_reads (l ++ [⟨SioOp.lock, rc, d⟩]) = data_reads l := by
  simp [data_reads]

theorem data_reads_regs (log : List SioEv) :
    (data_reads log).map Prod.fst =
      (data_reads (log.map (fun e => (⟨e.op, 0, 0⟩ : SioEv)))).map Prod.fst := by
  induction log with
  | nil => rfl
  | cons e l ih =>
    obtain ⟨op, rc, d⟩ := e
    cases op with
    | readb reg =>
      by_cases hr : 0xf4 ≤ reg ∧ reg ≤ 0xf7
      · simpa [data_reads, hr] using ih
      · simpa [data_reads, hr] using ih
    | _ => simpa [data_reads] using ih

theorem data_reads_of_ops (l1 l2 : List SioEv)
    (h : l1.map (fun e => e.op) = l2.map (fun e => e.op)) :
    (data_reads l1).map Prod.fst = (data_reads l2).map Prod.fst := by
  rw [data_reads_regs l1, data_reads_regs l2]
  have e : ∀ l : List SioEv, l.map (fun e => (⟨e.op, 0, 0⟩ : SioEv)) =
      (l.map (fun e => e.op)).map (fun op => (⟨op, 0, 0⟩ : SioEv)) := by
    intro l
    rw [List.map_map]
    rfl
  rw [e l1, e l2, h]

/-- Claim C21: `ilpcb_readl` is atomic with respect to its output. For every transport
(every pattern of failures), address and prior content `val` of `*val`: when the call
returns a non-zero code nothing was assigned to `*val`, which still holds `val`; when it
returns `0`, `*val` was assigned exactly once, with the 32-bit value assembled from the
bytes delivered by the four reads of `0xf4..0xf7`. -/
theorem ilpcb_readl_output_atomic (t : Sio σ) (addr val : Nat) (s : σ) :
    (ilpcb_readl_stores t addr s).1.1 = (ilpcb_readl t addr val s).1.1 ∧
      (ilpcb_readl_stores t addr s).2 = (ilpcb_readl t addr val s).2 ∧
      (ilpcb_readl t addr val s).1.2 = stored val (ilpcb_readl_stores t addr s).1.2 ∧
      ((ilpcb_readl t addr val s).1.1 ≠ 0 →
        (ilpcb_readl_stores t addr s).1.2 = [] ∧ (ilpcb_readl t addr val s).1.2 = val) ∧
      ((ilpcb_readl t addr val s).1.1 = 0 →
        (ilpcb_readl_stores t addr s).1.2 = [assembled (readl_log t addr val s)] ∧
        (ilpcb_readl t addr val s).1.2 = assembled (readl_log t addr val s) ∧
        (data_reads (readl_log t addr val s)).map Prod.fst = [0xf4, 0xf5, 0xf6, 0xf7]) := by
  have hs := ilpcb_readl_stores_eq t addr val s
  have hv := readl_rc_val t addr val s
  have hrc : (ilpcb_readl t addr val s).1.1 = or_codes (readl_log t addr val s).dropLast :=
    congrArg Prod.fst hv
  have hval : (ilpcb_readl t addr val s).1.2 =
      readl_store val (readl_log t addr val s).dropLast := congrArg Prod.snd hv
  have hfail : (ilpcb_readl t addr val s).1.1 ≠ 0 → (ilpcb_readl t addr val s).1.2 = val := by
    intro h
    rw [hval]
    exact readl_store_fail _ _ (by rwa [← hrc])
  have hlog : assembled (readl_log t addr val s).dropLast =
      assembled (readl_log t addr val s) := by
    conv_rhs => rw [(readl_run t addr val s).2]
    rw [(readl_run t addr val s).2, List.dropLast_concat]
    unfold assembled
    rw [data_reads_append_lock]
  have hok : (ilpcb_readl t addr val s).1.1 = 0 →
      (ilpcb_readl t addr val s).1.2 = assembled (readl_log t addr val s) := by
    intro h
    rw [hval, ← hlog]
    simp only [readl_store, assembled, ← hrc, h, ne_eq, not_true_eq_false, if_false]
  refine ⟨?_, ?_, ?_, fun h => ⟨?_, hfail h⟩, fun h => ⟨?_, hok h, ?_⟩⟩
  · rw [hs]
    rfl
  · rw [hs]
    rfl
  · rw [hs]
    by_cases h : (ilpcb_readl t addr val s).1.1 = 0
    · simp [stores_of, stored, h]
    · simp only [stores_of, stored, ne_eq, h, not_false_eq_true, if_true,
        List.getLast?_nil, Option.getD_none]
      exact hfail h
  · rw [hs]
    simp only [stores_of, if_pos h]
  · rw [hs]
    simp only [stores_of, h, ne_eq, not_true_eq_false, if_false, hok h]
  · have h0 : or_codes (readl_log t addr val s).dropLast = 0 := by rw [← hrc, h]
    rw [(readl_run t addr val s).2, List.dropLast_concat] at h0
    have hops := run_plan_ops_complete t _ s h0
    rw [(readl_run t addr val s).2, data_reads_append_lock]
    have hd := data_reads_of_ops (run_plan t (ilpcb_readl_plan addr) s).1
      ((ilpcb_readl_plan addr).flatten.map (fun op => (⟨op, 0, 0⟩ : SioEv)))
      (by rw [hops, List.map_map]; simp [Function.comp_def])
    rw [hd]
    rfl

/-- Witness for C21: on a transport whose trigger read fails with `-5` nothing is stored
and `*val` keeps `7`; on one where the data reads deliver `0x11, 0x22, 0x33, 0x44` there
is one store, of `0x11223344`. -/
theorem ilpcb_readl_output_atomic_witness :
    ((ilpcb_readl script_sio 0x1e789100 7 (List.replicate 8 (0, 0) ++ [(-5, 0)])).1.1 ≠ 0 ∧
      (ilpcb_readl_stores script_sio 0x1e789100
        (List.replicate 8 (0, 0) ++ [(-5, 0)])).1.2 = [] ∧
      (ilpcb_readl script_sio 0x1e789100 7 (List.replicate 8 (0, 0) ++ [(-5, 0)])).1.2 = 7) ∧
    ((ilpcb_readl script_sio 0x1e789100 7
        (List.replicate 9 (0, 0) ++ [(0, 0x11), (0, 0x22), (0, 0x33), (0, 0x44)])).1.1 = 0 ∧
      (ilpcb_readl_stores script_sio 0x1e789100
        (List.replicate 9 (0, 0) ++ [(0, 0x11), (0, 0x22), (0, 0x33), (0, 0x44)])).1.2 =
        [assembled (readl_log script_sio 0x1e789100 7
          (List.replicate 9 (0, 0) ++ [(0, 0x11), (0, 0x22), (0, 0x33), (0, 0x44)]))] ∧
      assembled (readl_log script_sio 0x1e789100 7
        (List.replicate 9 (0, 0) ++ [(0, 0x11), (0, 0x22), (0, 0x33), (0, 0x44)])) =
        0x11223344) :=
  ⟨⟨by decide, (ilpcb_readl_output_atomic script_sio 0x1e789100 7
      (List.replicate 8 (0, 0) ++ [(-5, 0)])).2.2.2.1 (by decide)⟩,
    ⟨by decide, ((ilpcb_readl_output_atomic script_sio 0x1e789100 7
      (List.replicate 9 (0, 0) ++ [(0, 0x11), (0, 0x22), (0, 0x33), (0, 0x44)])).2.2.2.2
        (by decide)).1, by decide⟩⟩

end Stores

end Culvert
